import Mathlib

/-!
# MEGAsync: the info dialog's transfer and status bookkeeping

A shallow embedding of `src/MEGASync/gui/InfoDialog.cpp` (and of the helpers of
`src/MEGASync/control/Utilities.cpp` that it calls), followed by theorems about it.

Conventions of the embedding.

* C++ `int` and `long long` values are integers of `Int`; a narrowing conversion or an
  arithmetic result that may leave the range is wrapped explicitly (`toInt32`, `toInt64`,
  `toUInt64`).  `/` and `%` on C++ integers truncate toward zero: `Int.tdiv`, `Int.tmod`.
* A division that traps has no result: `llDiv` returns `none` when the divisor is zero and
  when the quotient is that of the least `long long` by -1, and so does every function that
  would evaluate it.
* The engine (`MegaApi`) is a black box: what it reports during one call of a dialog method is
  the parameter `api` of that method.  Calls going out of the dialog, and the entries into
  the three "finished" slots, are recorded in the field `log`, newest first.
* `tr` is the identity (no translation installed), and `QString::arg` with numeric arguments is
  positional substitution into the pattern.  The text that `QString::number(double)` gives to
  a floating-point quotient is a parameter, `numberOfHundredths`.
* A `QTimer` holds the milliseconds left until its timeout.  The event loop is a sequence of
  events (`Step`): time passes, a due timer delivers its timeout to the slot connected in the
  constructor, or a method of the dialog is called.
* The guest widget is held by value, and the flag `hasGWidget` tells whether the pointer
  `gWidget` is set: the tests `if (gWidget)` read it, and `updateTransfers`, which uses the
  pointer untested in guest mode, has no result there when it is not set.  The finished
  handlers and `transferFinished` are those of a dialog whose guest widget exists whenever it is
  in guest mode, as `regenerateLayout` creates it when the mode is entered.
-/

namespace MEGASync

/-! ## Machine integers -/

/-- Value of a 32-bit two's-complement `int` after storing the integer `x` in it. -/
def toInt32 (x : Int) : Int := (x + 2 ^ 31) % 2 ^ 32 - 2 ^ 31

/-- Value of a 64-bit two's-complement `long long` after storing the integer `x` in it. -/
def toInt64 (x : Int) : Int := (x + 2 ^ 63) % 2 ^ 64 - 2 ^ 63

/-- Value of an `unsigned long long` after storing the integer `x` in it. -/
def toUInt64 (x : Int) : Nat := (x % 2 ^ 64).toNat

/-- Quotient `a / b` of two `long long` values: truncated toward zero, and without a result
when the division traps, that is when the divisor is zero and when the quotient does not fit,
which is the case of the least value divided by -1 only. -/
def llDiv (a b : Int) : Option Int :=
  if b = 0 ∨ (a = -2 ^ 63 ∧ b = -1) then none else some (toInt64 (Int.tdiv a b))

/-! ## Qt text helpers -/

/-- The text `QString::number(n)` of an integer: decimal digits, with a leading `-` when
negative. -/
def number (n : Int) : String := toString n

/-- The text substituted by `QString::arg(int a, int fieldWidth, 10, QChar('0'))`: the digits
of `a` padded with zeros on the left up to `fieldWidth` characters, the sign of a negative
number counting as one of them and standing before the zeros. -/
def argZeroFilled (a : Int) (fieldWidth : Nat) : String :=
  let digits := toString a.natAbs
  if a < 0 then
    "-" ++ String.mk (List.replicate (fieldWidth - 1 - digits.length) '0') ++ digits
  else
    String.mk (List.replicate (fieldWidth - digits.length) '0') ++ digits

/-! ## Remaining time (`InfoDialog::updateTransfers`, lines 305-324 and 392-411) -/

/-- The text shown when no remaining time can be given. -/
def noRemainingTime : String := "--:--:--"

/-- The `int totalRemainingSeconds` of `updateTransfers` as first computed: the quotient is
evaluated only when the mean speed is non-zero, and is narrowed from `long long` to `int`. -/
def totalRemainingSeconds (remainingBytes meanSpeed : Int) : Option Int :=
  if meanSpeed ≠ 0 then (llDiv remainingBytes meanSpeed).map toInt32 else some 0

/-- The text built from `totalRemainingSeconds` (lines 306-324): an estimate whose hours are
negative or above 99 is replaced by 0, and an estimate of 0 is shown as dashes. -/
def remainingTimeText (totalRemainingSeconds : Int) : String :=
  let remainingHours := Int.tdiv totalRemainingSeconds 3600
  let totalRemainingSeconds :=
    if remainingHours < 0 ∨ remainingHours > 99 then 0 else totalRemainingSeconds
  let remainingMinutes := Int.tdiv (Int.tmod totalRemainingSeconds 3600) 60
  let remainingSeconds := Int.tmod totalRemainingSeconds 60
  if totalRemainingSeconds ≠ 0 then
    argZeroFilled remainingHours 2 ++ ":" ++ argZeroFilled remainingMinutes 2 ++ ":"
      ++ argZeroFilled remainingSeconds 2
  else
    noRemainingTime

/-- The remaining-time text of one direction, from its remaining bytes and its mean speed
(the local `remainingTime` of `updateTransfers`). -/
def remainingTime (remainingBytes meanSpeed : Int) : Option String :=
  (totalRemainingSeconds remainingBytes meanSpeed).map remainingTimeText

/-! ## Size text (`Utilities::getSizeString`, lines 453-481) -/

/-- `Utilities::getSizeString(bytes)` for an `unsigned long long` byte count.  The product
`100 * bytes` wraps at 64 bits and the quotient is narrowed to `int`.  `numberOfHundredths k`
stands for `QString::number(k / 100.0)`, the text Qt gives to the floating-point quotient; it is
a parameter of the embedding. -/
def getSizeString (numberOfHundredths : Int → String) (bytes : Nat) : String :=
  let KB : Nat := 1024
  let MB : Nat := 1024 * KB
  let GB : Nat := 1024 * MB
  let TB : Nat := 1024 * GB
  if bytes ≥ TB then
    numberOfHundredths (toInt32 (((100 * bytes) % 2 ^ 64 / TB : Nat) : Int)) ++ " TB"
  else if bytes ≥ GB then
    numberOfHundredths (toInt32 (((100 * bytes) % 2 ^ 64 / GB : Nat) : Int)) ++ " GB"
  else if bytes ≥ MB then
    numberOfHundredths (toInt32 (((100 * bytes) % 2 ^ 64 / MB : Nat) : Int)) ++ " MB"
  else if bytes ≥ KB then
    numberOfHundredths (toInt32 (((100 * bytes) % 2 ^ 64 / KB : Nat) : Int)) ++ " KB"
  else
    number bytes ++ " bytes"

/-- A text for `k / 100.0` with at most two decimals and no trailing zero: what
`QString::number(double)` prints for `0 ≤ k < 10 ^ 6` (at most six significant digits). -/
def hundredthsText (k : Int) : String :=
  let n := k.natAbs
  let sign := if k < 0 then "-" else ""
  if n % 100 = 0 then sign ++ toString (n / 100)
  else if n % 10 = 0 then sign ++ toString (n / 100) ++ "." ++ toString (n % 100 / 10)
  else sign ++ toString (n / 100) ++ "." ++ toString (n % 100 / 10) ++ toString (n % 10)

/-! ## Texts of durations (`Utilities::getTimeString`, lines 405-451) -/

/-- `QString::trimmed()`: the text without the white space at its start and at its end.  White
space is the blank, the tab, the line feed and the carriage return. -/
def trimmed (text : String) : String :=
  String.mk ((text.data.dropWhile Char.isWhitespace).reverse.dropWhile Char.isWhitespace).reverse

/-- One of the four texts that `getTimeString` appends, after `arg(value)` has put the decimal
of `value` in the place of `%1`: a blank, the number, and the letter of the item in grey. -/
def timeItem (value : Int) (letter : String) : String :=
  " " ++ number value ++ " <span style=\"color:#777777; text-decoration:none;\">" ++ letter
    ++ "</span>"

/-- `Utilities::getTimeString(secs, secondPrecision)` for a `long long` number of seconds.  The
casts to `int` bind before `%` in the lines of `seconds` and of `hours`. -/
def getTimeString (secs : Int) (secondPrecision : Bool) : String :=
  let seconds := Int.tmod (toInt32 secs) 60
  let minutes := toInt32 (Int.tmod (Int.tdiv secs 60) 60)
  let hours := Int.tmod (toInt32 (Int.tdiv secs (60 * 60))) 24
  let days := toInt32 (Int.tdiv secs (60 * 60 * 24))
  let items : Int := 0
  let time : String := ""
  let step := if days ≠ 0 then (items + 1, time ++ timeItem days "d") else (items, time)
  let items := step.1
  let time := step.2
  let step := if items ≠ 0 ∨ hours ≠ 0 then (items + 1, time ++ timeItem hours "h")
    else (items, time)
  let items := step.1
  let time := step.2
  if items = 2 then trimmed time
  else
    let step := if items ≠ 0 ∨ minutes ≠ 0 then (items + 1, time ++ timeItem minutes "m")
      else (items, time)
    let items := step.1
    let time := step.2
    if items = 2 then trimmed time
    else
      let time := if secondPrecision = true then time ++ timeItem seconds "s" else time
      trimmed time

/-! ## Values of fields in a JSON text (`Utilities.cpp`, lines 483-519) -/

/-- The search of `QString::indexOf` in the characters that follow the position `position`:
the first position where `pattern` stands, or -1. -/
def indexOfFrom (pattern : List Char) : List Char → Nat → Int
  | [], position => if pattern = [] then position else -1
  | c :: rest, position =>
    if pattern.isPrefixOf (c :: rest) = true then position
    else indexOfFrom pattern rest (position + 1)

/-- `QString::indexOf(pattern, from)`: the first position, not before `start`, where `pattern`
stands in the text, or -1; a negative `start` counts from the end of the text. -/
def indexOf (text pattern : String) (start : Int) : Int :=
  let start := if start < 0 then start + text.length else start
  if start < 0 ∨ start > text.length then -1
  else indexOfFrom pattern.data (text.data.drop start.toNat) start.toNat

/-- `QString::mid(position, n)` for a position that is not negative: `n` characters from
`position` on, or all of them when `n` is negative or more than are left, and the empty text
when `position` is past the end. -/
def mid (text : String) (position n : Int) : String :=
  if position > text.length then ""
  else if n < 0 ∨ n > text.length - position then String.mk (text.data.drop position.toNat)
  else String.mk ((text.data.drop position.toNat).take n.toNat)

/-- `Utilities::extractJSONString(json, name)`. -/
def extractJSONString (json name : String) : String :=
  let pattern := name ++ "\":\""
  let pos := indexOf json pattern 0
  if pos < 0 then ""
  else
    let endPos := indexOf json "\"" (pos + pattern.length)
    if endPos < 0 then ""
    else mid json (pos + pattern.length) (endPos - pos - pattern.length)

/-- A `QHash<QString, QString>`: its entries, each key once. -/
abbrev QHash := List (String × String)

/-- `QHash::isEmpty()`. -/
def QHash.isEmpty (hash : QHash) : Bool := List.isEmpty hash

/-- `QHash::contains(key)`. -/
def QHash.contains (hash : QHash) (key : String) : Bool := hash.any fun entry => entry.1 == key

/-- `QHash::value(key)`: the value stored under `key`, or an empty text. -/
def QHash.value (hash : QHash) (key : String) : String := (hash.lookup key).getD ""

/-- The assignment `hash[key] = value`: the entry of `key` is replaced or added. -/
def QHash.assign (hash : QHash) (key value : String) : QHash :=
  (key, value) :: hash.filter fun entry => entry.1 != key

/-- A reading `hash[key]` through the non-const `operator[]`: the value stored under `key`,
and the hash, in which a key that was absent has been inserted with an empty text. -/
def QHash.index (hash : QHash) (key : String) : String × QHash :=
  if hash.contains key then (hash.value key, hash) else ("", hash.assign key "")

/-- A chained assignment `hash[k1] = hash[k2] = ... = hash[kn] = value`, carried out from the
right. -/
def QHash.assignAll (hash : QHash) (keys : List String) (value : String) : QHash :=
  keys.foldr (fun key hash => hash.assign key value) hash

/-- The static `Utilities::extensionIcons` when the program starts (line 19): an empty hash. -/
def extensionIcons : QHash := []

/-- The statements of `Utilities::initializeExtensions` (lines 24-156), in their order: the
keys of each chained assignment and the icon assigned to them. -/
def extensionStatements : List (List String × String) :=
  [
    (["3ds", "3dm", "max", "obj"], "3D.png"),
    (["aep", "aet"], "aftereffects.png"),
    (["mp3", "wav", "3ga", "aif", "aiff", "flac", "iff", "m4a", "wma"], "audio.png"),
    (["dxf", "dwg"], "cad.png"),
    (["zip", "rar", "tgz", "gz", "bz2", "tbz", "tar", "7z", "sitx"], "compressed.png"),
    (["sql", "accdb", "db", "dbf", "mdb", "pdb"], "database.png"),
    (["dwt"], "dreamweaver.png"),
    (["folder"], "folder.png"),
    (["xls", "xlsx", "xlt", "xltm"], "excel.png"),
    (["exe", "com", "bin", "apk", "app", "msi", "cmd", "gadget"], "executable.png"),
    (["as", "ascs", "asc"], "fla_lang.png"),
    (["fla"], "flash.png"),
    (["fnt", "otf", "ttf", "fon"], "font.png"),
    (["gpx", "kml", "kmz"], "gis.png"),
    (["gif", "tiff", "tif", "bmp", "png", "tga"], "graphic.png"),
    (["html", "htm", "dhtml", "xhtml"], "html.png"),
    (["ai", "ait"], "illustrator.png"),
    (["jpg", "jpeg"], "image.png"),
    (["indd"], "indesign.png"),
    (["jar", "java", "class"], "java.png"),
    (["mid", "midi"], "midi.png"),
    (["pdf"], "pdf.png"),
    (["abr", "psb", "psd"], "photoshop.png"),
    (["pls", "m3u", "asx"], "playlist.png"),
    (["pcast"], "podcast.png"),
    (["pps", "ppt", "pptx"], "powerpoint.png"),
    (["prproj", "ppj"], "premiere.png"),
    (["3fr", "arw", "bay", "cr2", "dcr", "dng", "fff", "mef", "mrw", "nef", "pef", "rw2", "srf",
      "orf", "rwl"], "raw.png"),
    (["rm", "ra", "ram"], "real_audio.png"),
    (["sh", "c", "cc", "cpp", "cxx", "h", "hpp", "dll"], "source_code.png"),
    (["ods", "ots", "gsheet", "nb", "xlr", "numbers"], "spreadsheet.png"),
    (["swf"], "swf.png"),
    (["torrent"], "torrent.png"),
    (["dmg"], "dmg.png"),
    (["txt", "rtf", "ans", "ascii", "log", "odt", "wpd"], "text.png"),
    (["vcf"], "vcard.png"),
    (["svgz", "svg", "cdr", "eps"], "vector.png"),
    (["mkv", "webm", "avi", "mp4", "m4v", "mpg", "mpeg", "mov", "3g2", "3gp", "asf", "wmv",
      "flv"], "video.png"),
    (["srt"], "video_subtitles.png"),
    (["vob"], "video_vob.png"),
    (["html", "xml", "shtml", "dhtml", "js", "css"], "web_data.png"),
    (["php", "php3", "php4", "php5", "phtml", "inc", "asp", "pl", "cgi", "py"], "web_lang.png"),
    (["doc", "docx", "dotx", "wps"], "word.png")
  ]

/-- `Utilities::initializeExtensions()`, on the static hash. -/
def initializeExtensions (icons : QHash) : QHash :=
  extensionStatements.foldl (fun hash statement => hash.assignAll statement.1 statement.2) icons

/-- `QString::toLower()` on a text whose letters are ASCII: the capital letters `A` to `Z` are
replaced by their small letters. -/
def toLower (text : String) : String := String.mk (text.data.map Char.toLower)

/-- The characters after the last occurrence of `c`, when `c` occurs. -/
def afterLast (c : Char) : List Char → Option (List Char)
  | [] => none
  | x :: rest =>
    match afterLast c rest with
    | some tail => some tail
    | none => if x = c then some rest else none

/-- `QFileInfo::fileName()`: the text after the last `/` of the path. -/
def fileName (path : String) : String :=
  match afterLast '/' path.data with
  | some name => String.mk name
  | none => path

/-- `QFileInfo::suffix()`: the text after the last `.` of the file name, empty when the file
name has no `.`. -/
def suffix (path : String) : String :=
  match afterLast '.' (fileName path).data with
  | some extension => String.mk extension
  | none => ""

/-- `Utilities::getExtensionPixmap(fileName, prefix)`: the text returned, and the static hash
after the call. -/
def getExtensionPixmap (icons : QHash) (file prefixText : String) : String × QHash :=
  let icons := if icons.isEmpty then initializeExtensions icons else icons
  if icons.contains (toLower (suffix file)) then
    let read := icons.index (toLower (suffix file))
    (prefixText ++ read.1, read.2)
  else
    (prefixText ++ "generic.png", icons)

/-! ## Data model -/

/-- Presentation state of the dialog (the anonymous `enum` of `InfoDialog`). -/
inductive DialogState
  | STATE_STARTING
  | STATE_PAUSED
  | STATE_WAITING
  | STATE_INDEXING
  | STATE_UPDATED
  deriving DecidableEq, Repr

/-- State of a transfer as the engine reports it (`MegaTransfer::STATE_*`): the two values
the dialog names, and any other code. -/
inductive TransferState
  | STATE_NONE
  | STATE_PAUSED
  | other (code : Int)
  deriving DecidableEq, Repr

/-- Pages of the stacked widget `sActiveTransfers`. -/
inductive Page
  | pUpdated
  | pUpdating
  deriving DecidableEq, Repr

/-- Text of the label `lBlockedItem`: empty, the "Blocked file: %1" message with its link to
the blocked path (the markup, built by `QFileInfo`, is not expanded), or the busy message
"Servers are too busy. Please wait...". -/
inductive BlockedItemText
  | empty
  | blockedFile (blockedPath : String)
  | serversBusy
  deriving DecidableEq, Repr

/-- Direction of a transfer (`MegaTransfer::TYPE_DOWNLOAD`, `MegaTransfer::TYPE_UPLOAD`). -/
inductive TransferType
  | TYPE_DOWNLOAD
  | TYPE_UPLOAD
  deriving DecidableEq, Repr

/-- A `MegaTransfer` object of the engine, known by its tag. -/
structure MegaTransfer where
  tag : Int := 0
  deriving DecidableEq, Repr

/-- What is recorded in `InfoDialog.log`: entry into one of the "finished" slots, and calls
going out to the engine (`megaApi`) or to the application (`app`). -/
inductive Event
  | onAllDownloadsFinished
  | onAllUploadsFinished
  | onAllTransfersFinished
  | resetTotalDownloads
  | resetTotalUploads
  | updateUserStats
  | showNotificationMessage (text : String)
  | pauseTransfers (pause : Bool) (direction : TransferType)
  | pauseTransfer (transfer : MegaTransfer) (pause : Bool)
  deriving DecidableEq, Repr

/-- A `QTimer`: its configuration and, while it is active, the milliseconds left until its
next timeout. -/
structure QTimer where
  singleShot : Bool := false
  interval : Nat := 0
  remaining : Option Nat := none
  deriving DecidableEq, Repr

/-- `QTimer::isActive()`. -/
def QTimer.isActive (t : QTimer) : Bool := t.remaining.isSome

/-- `QTimer::start()`: starts the timer, or restarts it, with its whole interval ahead. -/
def QTimer.start (t : QTimer) : QTimer := { t with remaining := some t.interval }

/-- `QTimer::stop()`. -/
def QTimer.stop (t : QTimer) : QTimer := { t with remaining := none }

/-- The timer after `ms` milliseconds have passed. -/
def QTimer.elapse (ms : Nat) (t : QTimer) : QTimer :=
  { t with remaining := t.remaining.map (fun r => r - ms) }

/-- The timer is active and its interval has run out: its timeout can be delivered. -/
def QTimer.isDue (t : QTimer) : Bool := t.remaining == some 0

/-- The timer at the moment its timeout is delivered: a single-shot timer is stopped before
the slot runs, any other timer starts its next interval. -/
def QTimer.timeout (t : QTimer) : QTimer := if t.singleShot then t.stop else t.start

/-- What the engine reports during one call of a dialog method. -/
structure MegaApi where
  numPendingUploads : Int := 0
  numPendingDownloads : Int := 0
  totalUploads : Int := 0
  totalDownloads : Int := 0
  blockedPath : Option String := none
  serversBusy : Bool := false
  downloadsPaused : Bool := false
  uploadsPaused : Bool := false
  deriving DecidableEq, Repr

/-- `MegaApi::areTransfersPaused(direction)`. -/
def MegaApi.areTransfersPaused (api : MegaApi) : TransferType → Bool
  | TransferType.TYPE_DOWNLOAD => api.downloadsPaused
  | TransferType.TYPE_UPLOAD => api.uploadsPaused

/-- The settings the dialog reads from `Preferences`, and the figures of the storage, in bytes
and in files, which it reads and writes there. -/
structure Preferences where
  logged : Bool := true
  downloadsPaused : Bool := false
  uploadsPaused : Bool := false
  totalStorage : Int := 0
  usedStorage : Int := 0
  cloudDriveStorage : Int := 0
  inShareStorage : Int := 0
  rubbishStorage : Int := 0
  inboxStorage : Int := 0
  cloudDriveFiles : Int := 0
  inShareFiles : Int := 0
  deriving DecidableEq, Repr

/-- Modelled from the spec: `Preferences::setInShareStorage(value)`, after which
`inShareStorage()` returns `value`. -/
def Preferences.setInShareStorage (p : Preferences) (value : Int) : Preferences :=
  { p with inShareStorage := value }

/-- Modelled from the spec: `Preferences::setInShareFiles(value)`, after which `inShareFiles()`
returns `value`. -/
def Preferences.setInShareFiles (p : Preferences) (value : Int) : Preferences :=
  { p with inShareFiles := value }

/-- Modelled from the spec: `Preferences::setCloudDriveStorage(value)`, after which
`cloudDriveStorage()` returns `value`. -/
def Preferences.setCloudDriveStorage (p : Preferences) (value : Int) : Preferences :=
  { p with cloudDriveStorage := value }

/-- Modelled from the spec: `Preferences::setCloudDriveFiles(value)`, after which
`cloudDriveFiles()` returns `value`. -/
def Preferences.setCloudDriveFiles (p : Preferences) (value : Int) : Preferences :=
  { p with cloudDriveFiles := value }

/-- Modelled from the spec: `Preferences::setUsedStorage(value)`, after which `usedStorage()`
returns `value`. -/
def Preferences.setUsedStorage (p : Preferences) (value : Int) : Preferences :=
  { p with usedStorage := value }

/-- An `ActiveTransfer` widget. -/
structure ActiveTransfer where
  active : Bool := false
  deriving DecidableEq, Repr

/-- `ActiveTransfer::isActive()`. -/
def ActiveTransfer.isActive (w : ActiveTransfer) : Bool := w.active

/-- `ActiveTransfer::hideTransfer()`: the widget shows no transfer any more. -/
def ActiveTransfer.hideTransfer (w : ActiveTransfer) : ActiveTransfer := { w with active := false }

/-- Modelled from the spec: the record of a recently transferred file that a `RecentFile`
widget holds (name, handle of the node, local path, key of the node, and the time it was
added, in milliseconds since the epoch). -/
structure RecentFileInfo where
  fileName : String := ""
  fileHandle : Int := 0
  localPath : String := ""
  nodeKey : String := ""
  dateTime : Int := 0
  deriving DecidableEq, Repr

/-- Modelled from the spec: a `RecentFile` widget, one slot of the list of recent files; it
holds a record, or nothing when it is empty. -/
structure RecentFile where
  info : Option RecentFileInfo := none
  deriving DecidableEq, Repr

/-- Modelled from the spec: `RecentFile::getFileInfo()`, the content of the slot. -/
def RecentFile.getFileInfo (w : RecentFile) : Option RecentFileInfo := w.info

/-- Modelled from the spec: `RecentFile::setFileInfo(info)`, which replaces the content of the
slot. -/
def RecentFile.setFileInfo (_w : RecentFile) (info : Option RecentFileInfo) : RecentFile :=
  { info := info }

/-- Modelled from the spec: `RecentFile::setFile(fileName, fileHandle, localPath, nodeKey,
time)`, which fills the slot with a new record. -/
def RecentFile.setFile (_w : RecentFile) (fileName : String) (fileHandle : Int)
    (localPath nodeKey : String) (time : Int) : RecentFile :=
  { info := some { fileName := fileName, fileHandle := fileHandle, localPath := localPath,
                   nodeKey := nodeKey, dateTime := time } }

/-- Modelled from the spec: `RecentFile::clear()`, which empties the slot. -/
def RecentFile.clear (_w : RecentFile) : RecentFile := { info := none }

/-- The `GuestWidget` shown instead of the transfer pages when nobody is logged in. -/
structure GuestWidget where
  idleState : Bool := true
  pauseState : Bool := false
  transfer : ActiveTransfer := {}
  remainingTime : String := ""
  downloadLabel : String := ""
  downloadsShown : Bool := false
  deriving DecidableEq, Repr

/-- The fields of `InfoDialog` and the widgets of its `ui` that its methods read or write.
A visibility flag is `true` for a shown widget.  `gWidget` is the guest widget, which
`regenerateLayout` creates before guest mode uses it; `hasGWidget` is the result of the test
`if (gWidget)`.  `log` records slot entries and outgoing calls, newest first. -/
structure InfoDialog where
  preferences : Preferences := {}
  downloadSpeed : Int := 0
  uploadSpeed : Int := 0
  currentUpload : Int := 0
  currentDownload : Int := 0
  totalUploads : Int := 0
  totalDownloads : Int := 0
  activeDownloadState : TransferState := TransferState.STATE_NONE
  activeUploadState : TransferState := TransferState.STATE_NONE
  remainingDownloadBytes : Int := 0
  remainingUploadBytes : Int := 0
  meanDownloadSpeed : Int := 0
  meanUploadSpeed : Int := 0
  remainingUploads : Int := 0
  remainingDownloads : Int := 0
  indexing : Bool := false
  waiting : Bool := false
  state : DialogState := DialogState.STATE_STARTING
  scanningTimer : QTimer := { singleShot := false, interval := 60 }
  scanningAnimationIndex : Int := 1
  uploadsFinishedTimer : QTimer := { singleShot := true, interval := 5000 }
  downloadsFinishedTimer : QTimer := { singleShot := true, interval := 5000 }
  transfersFinishedTimer : QTimer := { singleShot := true, interval := 5000 }
  recentFilesTimer : QTimer := { singleShot := true, interval := 200 }
  activeDownload : Option MegaTransfer := none
  activeUpload : Option MegaTransfer := none
  wRecent1 : RecentFile := {}
  wRecent2 : RecentFile := {}
  wRecent3 : RecentFile := {}
  visible : Bool := false
  bPause : Bool := false
  sActiveTransfers : Page := Page.pUpdated
  wTransfer1 : ActiveTransfer := {}
  wTransfer2 : ActiveTransfer := {}
  lDownloads : String := ""
  lUploads : String := ""
  lRemainingTimeD : String := ""
  lRemainingTimeU : String := ""
  lBlockedItem : BlockedItemText := BlockedItemText.empty
  lSyncUpdated : String := ""
  label : String := ""
  wDownloadDesc : Bool := false
  wUploadDesc : Bool := false
  overlay : Bool := false
  gWidget : GuestWidget := {}
  hasGWidget : Bool := false
  log : List Event := []

/-- The dialog as the constructor initialises it (lines 37-92 and 139), for the given
preferences: counters and speeds at 0, no flag set, `state = STATE_STARTING`, the page
`pUpdated`, both transfer widgets hidden, no guest widget, the scanning timer repeating every
60 ms, the three finish timers single-shot with 5000 ms and the timer of the recent files
single-shot with 200 ms, none of them started, no active transfer recorded.  The dialog is not
shown yet, and the texts and the list of recent files that `setupUi` installs are taken as
empty. -/
def InfoDialog.init (preferences : Preferences) : InfoDialog := { preferences := preferences }

/-- `tr("%1 of %2 (%3/s)").arg(current).arg(total).arg(size)`. -/
def pattern (current total : Int) (size : String) : String :=
  number current ++ " of " ++ number total ++ " (" ++ size ++ "/s)"

/-- `tr("%1 of %2 (paused)").arg(current).arg(total)`. -/
def pausedPattern (current total : Int) : String :=
  number current ++ " of " ++ number total ++ " (paused)"

/-- `tr("%1 of %2").arg(current).arg(total)`. -/
def invalidSpeedPattern (current total : Int) : String :=
  number current ++ " of " ++ number total

/-- The text `operation` of `updateTransfers`: a space is appended to a non-empty text that
does not end with one. -/
def operationText (operation : String) : String :=
  if operation.length ≠ 0 ∧ operation.back ≠ ' ' then operation.push ' ' else operation

/-- The download `fullPattern` with its two arguments. -/
def downloadFullPattern (operation text : String) : String :=
  "<span style=\"color: rgb(120, 178, 66); \">" ++ operation ++ "</span>" ++ text

/-- The upload `fullPattern` with its two arguments. -/
def uploadFullPattern (operation text : String) : String :=
  "<span style=\"color: rgb(119, 185, 217); \">" ++ operation ++ "</span>" ++ text

/-- The local `downloadString` of `updateTransfers` (lines 342-362). -/
def downloadString (numberOfHundredths : Int → String) (d : InfoDialog) : String :=
  if d.activeDownloadState = TransferState.STATE_PAUSED ∨ d.preferences.downloadsPaused = true then
    pausedPattern d.currentDownload d.totalDownloads
  else if d.downloadSpeed ≥ 20000 then
    pattern d.currentDownload d.totalDownloads
      (getSizeString numberOfHundredths (toUInt64 d.downloadSpeed))
  else if d.downloadSpeed ≥ 0 then
    invalidSpeedPattern d.currentDownload d.totalDownloads
  else
    pausedPattern d.currentDownload d.totalDownloads

/-- The local `uploadString` of `updateTransfers` (lines 427-445). -/
def uploadString (numberOfHundredths : Int → String) (d : InfoDialog) : String :=
  if d.activeUploadState = TransferState.STATE_PAUSED ∨ d.preferences.uploadsPaused = true then
    pausedPattern d.currentUpload d.totalUploads
  else if d.uploadSpeed ≥ 20000 then
    pattern d.currentUpload d.totalUploads
      (getSizeString numberOfHundredths (toUInt64 d.uploadSpeed))
  else if d.uploadSpeed ≥ 0 then
    invalidSpeedPattern d.currentUpload d.totalUploads
  else
    pausedPattern d.currentUpload d.totalUploads

/-! ## `InfoDialog::updateTransfers` (lines 281-471) -/

/-- What the branch `if (remainingDownloads)` does with the remaining-time text once it is
computed (lines 326-387).  In guest mode the texts go to the guest widget through the pointer
`gWidget`, which is not tested (line 326): without a guest widget there is no result. -/
def showDownloads (numberOfHundredths : Int → String) (remainingTime : String)
    (d : InfoDialog) : Option InfoDialog :=
  if d.preferences.logged = false ∧ d.hasGWidget = false then none
  else
    let d :=
      if d.preferences.logged = false then
        { d with gWidget := { d.gWidget with remainingTime := remainingTime } }
      else
        { d with lRemainingTimeD := remainingTime }
    let d := { d with wDownloadDesc := true }
    let operation := operationText "Downloading "
    let downloadString := downloadString numberOfHundredths d
    if d.preferences.logged = true then
      some { d with lDownloads := downloadFullPattern operation downloadString,
                    wDownloadDesc := d.wTransfer1.isActive }
    else
      some { d with gWidget := { d.gWidget with
                      downloadLabel := downloadFullPattern operation downloadString,
                      downloadsShown := d.gWidget.transfer.isActive } }

/-- The branch `if (remainingDownloads)` (lines 303-388). -/
def updateDownloads (numberOfHundredths : Int → String) (d : InfoDialog) : Option InfoDialog :=
  (remainingTime d.remainingDownloadBytes d.meanDownloadSpeed).bind fun remainingTime =>
    showDownloads numberOfHundredths remainingTime d

/-- What the branch `if (remainingUploads)` does with the remaining-time text once it is
computed (lines 413-456). -/
def showUploads (numberOfHundredths : Int → String) (remainingTime : String)
    (d : InfoDialog) : InfoDialog :=
  let d := { d with lRemainingTimeU := remainingTime, wUploadDesc := true }
  let operation := operationText "Uploading "
  let uploadString := uploadString numberOfHundredths d
  { d with lUploads := uploadFullPattern operation uploadString,
           wUploadDesc := d.wTransfer2.isActive }

/-- The branch `if (remainingUploads)` (lines 390-457). -/
def updateUploads (numberOfHundredths : Int → String) (d : InfoDialog) : Option InfoDialog :=
  (remainingTime d.remainingUploadBytes d.meanUploadSpeed).map fun remainingTime =>
    showUploads numberOfHundredths remainingTime d

/-- The branch `if (remainingUploads || remainingDownloads)` (lines 459-469).  In guest mode
its test reads the guest widget through the pointer `gWidget`, which is not tested (line 461):
without a guest widget there is no result. -/
def showUpdating (d : InfoDialog) : Option InfoDialog :=
  if d.remainingUploads ≠ 0 ∨ d.remainingDownloads ≠ 0 then
    if d.preferences.logged = false ∧ d.hasGWidget = false then none
    else if d.preferences.logged = false ∧ d.gWidget.transfer.isActive = true then
      some { d with gWidget := { d.gWidget with idleState := false } }
    else if d.wTransfer1.isActive = true ∨ d.wTransfer2.isActive = true then
      some { d with sActiveTransfers := Page.pUpdating }
    else some d
  else some d

/-- The first statements of `updateTransfers` (lines 283-299): the counters are read from the
engine, each total is raised to its pending count, and the current indices are computed. -/
def updateCounters (api : MegaApi) (d : InfoDialog) : InfoDialog :=
  let d := { d with remainingUploads := api.numPendingUploads,
                    remainingDownloads := api.numPendingDownloads,
                    totalUploads := api.totalUploads,
                    totalDownloads := api.totalDownloads }
  let d := if d.totalUploads < d.remainingUploads then
    { d with totalUploads := d.remainingUploads } else d
  let d := if d.totalDownloads < d.remainingDownloads then
    { d with totalDownloads := d.remainingDownloads } else d
  let d := { d with currentDownload := toInt32 (d.totalDownloads - d.remainingDownloads + 1) }
  { d with currentUpload := toInt32 (d.totalUploads - d.remainingUploads + 1) }

/-- `InfoDialog::updateTransfers()`. -/
def updateTransfers (numberOfHundredths : Int → String) (api : MegaApi) (d : InfoDialog) :
    Option InfoDialog :=
  let d := updateCounters api d
  if d.visible = true then
    (if d.remainingDownloads ≠ 0 then updateDownloads numberOfHundredths d else some d).bind
      fun d =>
    (if d.remainingUploads ≠ 0 then updateUploads numberOfHundredths d else some d).bind
      fun d =>
    showUpdating d
  else
    some d

/-! ## The "finished" slots (lines 966-1029) -/

/-- `InfoDialog::onAllUploadsFinished()`. -/
def onAllUploadsFinished (api : MegaApi) (d : InfoDialog) : InfoDialog :=
  let d := { d with log := Event.onAllUploadsFinished :: d.log }
  let d := { d with remainingUploads := api.numPendingUploads }
  if d.remainingUploads = 0 then
    { d with wTransfer2 := d.wTransfer2.hideTransfer,
             lUploads := "",
             wUploadDesc := false,
             uploadSpeed := 0,
             currentUpload := 0,
             totalUploads := 0,
             remainingUploadBytes := 0,
             meanUploadSpeed := 0,
             log := Event.resetTotalUploads :: d.log }
  else d

/-- `InfoDialog::onAllDownloadsFinished()`. -/
def onAllDownloadsFinished (api : MegaApi) (d : InfoDialog) : InfoDialog :=
  let d := { d with log := Event.onAllDownloadsFinished :: d.log }
  let d := { d with remainingDownloads := api.numPendingDownloads }
  if d.remainingDownloads = 0 then
    let d :=
      if d.preferences.logged = false then
        { d with gWidget := { d.gWidget with transfer := d.gWidget.transfer.hideTransfer,
                                             downloadLabel := "",
                                             downloadsShown := false } }
      else
        { d with wTransfer1 := d.wTransfer1.hideTransfer,
                 lDownloads := "",
                 wDownloadDesc := false }
    { d with downloadSpeed := 0,
             currentDownload := 0,
             totalDownloads := 0,
             remainingDownloadBytes := 0,
             meanDownloadSpeed := 0,
             log := Event.resetTotalDownloads :: d.log }
  else d

/-- `InfoDialog::onAllTransfersFinished()`. -/
def onAllTransfersFinished (d : InfoDialog) : InfoDialog :=
  let d := { d with log := Event.onAllTransfersFinished :: d.log }
  if d.remainingDownloads = 0 ∧ d.remainingUploads = 0 then
    let d :=
      if d.sActiveTransfers ≠ Page.pUpdated then
        { d with sActiveTransfers := Page.pUpdated }
      else if d.preferences.logged = false ∧ d.gWidget.idleState = false then
        { d with gWidget := { d.gWidget with idleState := true } }
      else d
    let d := if d.preferences.logged = true then
      { d with log := Event.updateUserStats :: d.log } else d
    { d with log := Event.showNotificationMessage "All transfers have been completed" :: d.log }
  else d

/-! ## `InfoDialog::transferFinished` (lines 473-537) -/

/-- The first `if` of `transferFinished` (lines 478-495), on the download timer. -/
def checkDownloadsFinished (api : MegaApi) (error : Int) (d : InfoDialog) : InfoDialog :=
  if d.remainingDownloads = 0 ∧ d.wTransfer1.isActive = true then
    if d.downloadsFinishedTimer.isActive = false then
      if error = 0 then
        { d with downloadsFinishedTimer := d.downloadsFinishedTimer.start }
      else
        onAllDownloadsFinished api d
    else d
  else
    { d with downloadsFinishedTimer := d.downloadsFinishedTimer.stop }

/-- The second `if` of `transferFinished` (lines 497-514), on the upload timer. -/
def checkUploadsFinished (api : MegaApi) (error : Int) (d : InfoDialog) : InfoDialog :=
  if d.remainingUploads = 0 ∧ d.wTransfer2.isActive = true then
    if d.uploadsFinishedTimer.isActive = false then
      if error = 0 then
        { d with uploadsFinishedTimer := d.uploadsFinishedTimer.start }
      else
        onAllUploadsFinished api d
    else d
  else
    { d with uploadsFinishedTimer := d.uploadsFinishedTimer.stop }

/-- The third `if` of `transferFinished` (lines 516-536), on the timer of all transfers. -/
def checkTransfersFinished (error : Int) (d : InfoDialog) : InfoDialog :=
  if d.remainingDownloads = 0 ∧ d.remainingUploads = 0
      ∧ (d.sActiveTransfers ≠ Page.pUpdated
          ∨ (d.preferences.logged = false ∧ d.gWidget.idleState = false)) then
    if d.transfersFinishedTimer.isActive = false then
      if error = 0 then
        { d with transfersFinishedTimer := d.transfersFinishedTimer.start }
      else
        onAllTransfersFinished d
    else d
  else
    { d with transfersFinishedTimer := d.transfersFinishedTimer.stop }

/-- The first two statements of `transferFinished` (lines 475-476): the pending counts are
read from the engine. -/
def readPending (api : MegaApi) (d : InfoDialog) : InfoDialog :=
  { d with remainingUploads := api.numPendingUploads,
           remainingDownloads := api.numPendingDownloads }

/-- `InfoDialog::transferFinished(int error)`. -/
def transferFinished (api : MegaApi) (error : Int) (d : InfoDialog) : InfoDialog :=
  checkTransfersFinished error
    (checkUploadsFinished api error
      (checkDownloadsFinished api error (readPending api d)))

/-! ## `InfoDialog::increaseUsedStorage` (lines 579-594) -/

/-- The `if` of `increaseUsedStorage` (lines 581-590), on the settings: the bytes and one file
are added to the figures of the incoming shares or to those of the cloud drive.  The sums are
those of `long long` values. -/
def increaseCategory (bytes : Int) (isInShare : Bool) (preferences : Preferences) :
    Preferences :=
  if isInShare = true then
    let preferences :=
      preferences.setInShareStorage (toInt64 (preferences.inShareStorage + bytes))
    preferences.setInShareFiles (toInt64 (preferences.inShareFiles + 1))
  else
    let preferences :=
      preferences.setCloudDriveStorage (toInt64 (preferences.cloudDriveStorage + bytes))
    preferences.setCloudDriveFiles (toInt64 (preferences.cloudDriveFiles + 1))

/-- `InfoDialog::increaseUsedStorage(bytes, isInShare)`.  Its last call, of `setUsage`, writes
the usage bar and its two labels, which are not part of `InfoDialog` here. -/
def increaseUsedStorage (bytes : Int) (isInShare : Bool) (d : InfoDialog) : InfoDialog :=
  let preferences := increaseCategory bytes isInShare d.preferences
  let preferences := preferences.setUsedStorage (toInt64 (preferences.usedStorage + bytes))
  { d with preferences := preferences }

/-! ## `InfoDialog::updateState` (lines 596-746) and the setters -/

/-- `InfoDialog::setIndexing(bool)`. -/
def setIndexing (indexing : Bool) (d : InfoDialog) : InfoDialog := { d with indexing := indexing }

/-- `InfoDialog::setWaiting(bool)`. -/
def setWaiting (waiting : Bool) (d : InfoDialog) : InfoDialog := { d with waiting := waiting }

/-- `InfoDialog::setPaused(bool)`: checks or unchecks the pause button. -/
def setPaused (paused : Bool) (d : InfoDialog) : InfoDialog := { d with bPause := paused }

/-- Guest mode with the pause toggle checked (lines 601-615). -/
def updateGuestPaused (d : InfoDialog) : InfoDialog :=
  if d.hasGWidget = true then
    if d.gWidget.idleState = false then
      { d with gWidget := { d.gWidget with pauseState := true } }
    else
      { d with gWidget := { d.gWidget with pauseState := false } }
  else d

/-- Guest mode with the pause toggle clear (lines 646-657). -/
def updateGuestRunning (d : InfoDialog) : InfoDialog :=
  if d.hasGWidget = true then
    let d := { d with gWidget := { d.gWidget with pauseState := false } }
    if d.gWidget.transfer.isActive = false then
      { d with gWidget := { d.gWidget with idleState := true } }
    else d
  else d

/-- Logged-in mode with the pause toggle checked (lines 617-642). -/
def updatePaused (d : InfoDialog) : InfoDialog :=
  let d := { d with downloadSpeed := -1, uploadSpeed := -1 }
  let d :=
    if d.state ≠ DialogState.STATE_PAUSED then
      let d := { d with state := DialogState.STATE_PAUSED }
      let d := if d.scanningTimer.isActive = true then
        { d with scanningTimer := d.scanningTimer.stop } else d
      { d with lSyncUpdated := "File transfers paused",
               label := ":/images/tray_paused_large_ico.png" }
    else d
  if d.sActiveTransfers ≠ Page.pUpdated then { d with overlay := true }
  else { d with overlay := false }

/-- The text given to `lBlockedItem` while waiting (lines 672-691). -/
def blockedItemText (api : MegaApi) : BlockedItemText :=
  match api.blockedPath with
  | some blockedPath => BlockedItemText.blockedFile blockedPath
  | none => if api.serversBusy = true then BlockedItemText.serversBusy else BlockedItemText.empty

/-- The branch `if (waiting)` (lines 670-708). -/
def updateWaiting (api : MegaApi) (d : InfoDialog) : InfoDialog :=
  let d := { d with lBlockedItem := blockedItemText api }
  if d.state ≠ DialogState.STATE_WAITING then
    let d := { d with state := DialogState.STATE_WAITING }
    let d := if d.scanningTimer.isActive = true then
      { d with scanningTimer := d.scanningTimer.stop } else d
    { d with lSyncUpdated := "MEGAsync is waiting",
             label := ":/images/tray_scanning_large_ico.png" }
  else d

/-- The branch `else if (indexing)` (lines 709-727). -/
def updateIndexing (d : InfoDialog) : InfoDialog :=
  if d.state ≠ DialogState.STATE_INDEXING then
    let d := { d with state := DialogState.STATE_INDEXING }
    let d := if d.scanningTimer.isActive = false then
      { d with scanningAnimationIndex := 1, scanningTimer := d.scanningTimer.start } else d
    { d with lSyncUpdated := "MEGAsync is scanning",
             label := ":/images/tray_scanning_large_ico.png" }
  else d

/-- The last branch (lines 728-744). -/
def updateUpdated (d : InfoDialog) : InfoDialog :=
  if d.state ≠ DialogState.STATE_UPDATED then
    let d := { d with state := DialogState.STATE_UPDATED }
    let d := if d.scanningTimer.isActive = true then
      { d with scanningTimer := d.scanningTimer.stop } else d
    { d with lSyncUpdated := "MEGAsync is up to date",
             label := ":/images/tray_updated_large_ico.png" }
  else d

/-- Logged-in mode with the pause toggle clear, up to the choice of the state (lines
658-668): the overlay is hidden, speeds of -1 left by a pause are reset, and the blocked-item
text is cleared unless the dialog is waiting. -/
def clearPaused (d : InfoDialog) : InfoDialog :=
  let d := { d with overlay := false }
  let d := if d.downloadSpeed < 0 ∧ d.uploadSpeed < 0 then
    { d with downloadSpeed := 0, uploadSpeed := 0 } else d
  if d.waiting = false then { d with lBlockedItem := BlockedItemText.empty } else d

/-- Logged-in mode with the pause toggle clear (lines 658-744). -/
def updateRunning (api : MegaApi) (d : InfoDialog) : InfoDialog :=
  let d := clearPaused d
  if d.waiting = true then updateWaiting api d
  else if d.indexing = true then updateIndexing d
  else updateUpdated d

/-- The statements of `updateState` after its call of `updateTransfers` (lines 599-745). -/
def resolveState (api : MegaApi) (d : InfoDialog) : InfoDialog :=
  if d.bPause = true then
    if d.preferences.logged = false then updateGuestPaused d
    else updatePaused d
  else
    if d.preferences.logged = false then updateGuestRunning d
    else updateRunning api d

/-- `InfoDialog::updateState()`. -/
def updateState (numberOfHundredths : Int → String) (api : MegaApi) (d : InfoDialog) :
    Option InfoDialog :=
  (updateTransfers numberOfHundredths api d).bind fun d => some (resolveState api d)

/-! ## Timers and the event loop -/

/-- `InfoDialog::scanningAnimationStep()` (lines 1352-1362). -/
def scanningAnimationStep (d : InfoDialog) : InfoDialog :=
  let d := { d with scanningAnimationIndex := Int.tmod d.scanningAnimationIndex 18 }
  let d := { d with scanningAnimationIndex := toInt32 (d.scanningAnimationIndex + 1) }
  { d with label := ":/images/scanning_anime" ++ number d.scanningAnimationIndex ++ ".png" }

/-- The event loop delivers the timeout of `downloadsFinishedTimer`, connected to
`onAllDownloadsFinished` (line 80).  Nothing happens unless the timer is due. -/
def downloadsFinishedTimeout (api : MegaApi) (d : InfoDialog) : InfoDialog :=
  if d.downloadsFinishedTimer.isDue = true then
    onAllDownloadsFinished api { d with downloadsFinishedTimer := d.downloadsFinishedTimer.timeout }
  else d

/-- The event loop delivers the timeout of `uploadsFinishedTimer`, connected to
`onAllUploadsFinished` (line 76).  Nothing happens unless the timer is due. -/
def uploadsFinishedTimeout (api : MegaApi) (d : InfoDialog) : InfoDialog :=
  if d.uploadsFinishedTimer.isDue = true then
    onAllUploadsFinished api { d with uploadsFinishedTimer := d.uploadsFinishedTimer.timeout }
  else d

/-- The event loop delivers the timeout of `transfersFinishedTimer`, connected to
`onAllTransfersFinished` (line 84).  Nothing happens unless the timer is due. -/
def transfersFinishedTimeout (d : InfoDialog) : InfoDialog :=
  if d.transfersFinishedTimer.isDue = true then
    onAllTransfersFinished { d with transfersFinishedTimer := d.transfersFinishedTimer.timeout }
  else d

/-- The event loop delivers the timeout of `scanningTimer`, connected to
`scanningAnimationStep` (line 72).  Nothing happens unless the timer is due. -/
def scanningTimeout (d : InfoDialog) : InfoDialog :=
  if d.scanningTimer.isDue = true then
    scanningAnimationStep { d with scanningTimer := d.scanningTimer.timeout }
  else d

/-- The passing of `ms` milliseconds, seen by every timer of the dialog. -/
def elapse (ms : Nat) (d : InfoDialog) : InfoDialog :=
  { d with scanningTimer := d.scanningTimer.elapse ms,
           uploadsFinishedTimer := d.uploadsFinishedTimer.elapse ms,
           downloadsFinishedTimer := d.downloadsFinishedTimer.elapse ms,
           transfersFinishedTimer := d.transfersFinishedTimer.elapse ms,
           recentFilesTimer := d.recentFilesTimer.elapse ms }

/-! ## The list of recent files (lines 247-279 and 1152-1157) -/

/-- `InfoDialog::updateRecentFiles()`. -/
def updateRecentFiles (d : InfoDialog) : InfoDialog :=
  if d.recentFilesTimer.isActive = false then
    { d with recentFilesTimer := d.recentFilesTimer.start }
  else d

/-- `InfoDialog::addRecentFile(fileName, fileHandle, localPath, nodeKey)`, where `now` is the
reading of `QDateTime::currentDateTime().toMSecsSinceEpoch()` during the call.  The block for
Apple systems, which shows the list, is left out. -/
def addRecentFile (fileName : String) (fileHandle : Int) (localPath nodeKey : String)
    (now : Int) (d : InfoDialog) : InfoDialog :=
  let info1 := d.wRecent1.getFileInfo
  let info2 := d.wRecent2.getFileInfo
  let d := { d with wRecent3 := d.wRecent3.setFileInfo info2 }
  let d := { d with wRecent2 := d.wRecent2.setFileInfo info1 }
  let d := { d with wRecent1 := d.wRecent1.setFile fileName fileHandle localPath nodeKey now }
  updateRecentFiles d

/-- `InfoDialog::clearRecentFiles()`.  The block for Apple systems, which hides the list, is
left out. -/
def clearRecentFiles (d : InfoDialog) : InfoDialog :=
  let d := { d with wRecent1 := d.wRecent1.clear }
  let d := { d with wRecent2 := d.wRecent2.clear }
  let d := { d with wRecent3 := d.wRecent3.clear }
  updateRecentFiles d

/-! ## Pause requests (lines 878-944) -/

/-- `InfoDialog::globalDownloadState()`. -/
def globalDownloadState (api : MegaApi) (d : InfoDialog) : InfoDialog :=
  if d.activeDownload = none then d
  else if api.areTransfersPaused TransferType.TYPE_DOWNLOAD = true then
    { d with log := Event.pauseTransfers false TransferType.TYPE_DOWNLOAD :: d.log }
  else
    { d with log := Event.pauseTransfers true TransferType.TYPE_DOWNLOAD :: d.log }

/-- `InfoDialog::downloadState()`. -/
def downloadState (d : InfoDialog) : InfoDialog :=
  match d.activeDownload with
  | none => d
  | some activeDownload =>
    if d.activeDownloadState = TransferState.STATE_PAUSED then
      { d with log := Event.pauseTransfer activeDownload false :: d.log }
    else
      { d with log := Event.pauseTransfer activeDownload true :: d.log }

/-- `InfoDialog::globalUploadState()`. -/
def globalUploadState (api : MegaApi) (d : InfoDialog) : InfoDialog :=
  if d.activeUpload = none then d
  else if api.areTransfersPaused TransferType.TYPE_UPLOAD = true then
    { d with log := Event.pauseTransfers false TransferType.TYPE_UPLOAD :: d.log }
  else
    { d with log := Event.pauseTransfers true TransferType.TYPE_UPLOAD :: d.log }

/-- `InfoDialog::uploadState()`. -/
def uploadState (d : InfoDialog) : InfoDialog :=
  match d.activeUpload with
  | none => d
  | some activeUpload =>
    if d.activeUploadState = TransferState.STATE_PAUSED then
      { d with log := Event.pauseTransfer activeUpload false :: d.log }
    else
      { d with log := Event.pauseTransfer activeUpload true :: d.log }

/-! ## `InfoDialog::changeEvent` (lines 1242-1259) and the events that change the status -/

/-- The texts of the `ui` that the dialog holds and that `retranslateUi` may install anew. -/
structure UiTexts where
  lDownloads : String
  lUploads : String
  lRemainingTimeD : String
  lRemainingTimeU : String
  lSyncUpdated : String
  lBlockedItem : BlockedItemText

/-- The texts of the dialog. -/
def InfoDialog.uiTexts (d : InfoDialog) : UiTexts :=
  { lDownloads := d.lDownloads, lUploads := d.lUploads, lRemainingTimeD := d.lRemainingTimeD,
    lRemainingTimeU := d.lRemainingTimeU, lSyncUpdated := d.lSyncUpdated,
    lBlockedItem := d.lBlockedItem }

/-- The dialog with the given texts. -/
def InfoDialog.setUiTexts (d : InfoDialog) (texts : UiTexts) : InfoDialog :=
  { d with lDownloads := texts.lDownloads, lUploads := texts.lUploads,
           lRemainingTimeD := texts.lRemainingTimeD, lRemainingTimeU := texts.lRemainingTimeU,
           lSyncUpdated := texts.lSyncUpdated, lBlockedItem := texts.lBlockedItem }

/-- `InfoDialog::changeEvent(event)`, where `languageChange` is the result of the test
`event->type() == QEvent::LanguageChange` and `retranslateUi` is what `ui->retranslateUi`,
generated from the form, does to the texts.  `setUsage` and `updateSyncsButton` write widgets
that are not part of `InfoDialog` here (the usage bar and its two labels, the button of the
synced folders), and so does `QDialog::changeEvent`. -/
def changeEvent (numberOfHundredths : Int → String) (retranslateUi : UiTexts → UiTexts)
    (api : MegaApi) (languageChange : Bool) (d : InfoDialog) : Option InfoDialog :=
  if languageChange = true then
    let d := d.setUiTexts (retranslateUi d.uiTexts)
    if d.preferences.logged = true then
      updateState numberOfHundredths api { d with state := DialogState.STATE_STARTING }
    else some d
  else some d

/-- An event that bears on the status of the dialog: a call of a setter, of `updateState` or
of `changeEvent`, the passing of time, the timeout of the scanning timer, and a change of the
settings made outside the dialog. -/
inductive StatusEvent
  | setIndexing (indexing : Bool)
  | setWaiting (waiting : Bool)
  | setPaused (paused : Bool)
  | updateState (api : MegaApi)
  | changeEvent (retranslateUi : UiTexts → UiTexts) (api : MegaApi) (languageChange : Bool)
  | elapse (ms : Nat)
  | scanningTimeout
  | settings (preferences : Preferences)

/-- The dialog after one event that bears on its status. -/
def StatusEvent.apply (numberOfHundredths : Int → String) (d : InfoDialog) :
    StatusEvent → Option InfoDialog
  | StatusEvent.setIndexing indexing => some (MEGASync.setIndexing indexing d)
  | StatusEvent.setWaiting waiting => some (MEGASync.setWaiting waiting d)
  | StatusEvent.setPaused paused => some (MEGASync.setPaused paused d)
  | StatusEvent.updateState api => MEGASync.updateState numberOfHundredths api d
  | StatusEvent.changeEvent retranslateUi api languageChange =>
    MEGASync.changeEvent numberOfHundredths retranslateUi api languageChange d
  | StatusEvent.elapse ms => some (MEGASync.elapse ms d)
  | StatusEvent.scanningTimeout => some (MEGASync.scanningTimeout d)
  | StatusEvent.settings preferences => some { d with preferences := preferences }

/-- The dialog after a sequence of events that bear on its status, first event first. -/
def runStatus (numberOfHundredths : Int → String) :
    List StatusEvent → InfoDialog → Option InfoDialog
  | [], d => some d
  | event :: events, d =>
    (event.apply numberOfHundredths d).bind (runStatus numberOfHundredths events)

/-! ## Directions, and what may happen between two calls of `transferFinished` -/

/-- An event of the dialog other than a call of `transferFinished`. -/
inductive Step
  | elapse (ms : Nat)
  | downloadsFinishedTimeout (api : MegaApi)
  | uploadsFinishedTimeout (api : MegaApi)
  | transfersFinishedTimeout
  | scanningTimeout
  | updateTransfers (api : MegaApi)
  | updateState (api : MegaApi)
  | setIndexing (indexing : Bool)
  | setWaiting (waiting : Bool)
  | setPaused (paused : Bool)
  deriving Repr

/-- The dialog after one event. -/
def Step.apply (numberOfHundredths : Int → String) (d : InfoDialog) : Step → Option InfoDialog
  | Step.elapse ms => some (MEGASync.elapse ms d)
  | Step.downloadsFinishedTimeout api => some (MEGASync.downloadsFinishedTimeout api d)
  | Step.uploadsFinishedTimeout api => some (MEGASync.uploadsFinishedTimeout api d)
  | Step.transfersFinishedTimeout => some (MEGASync.transfersFinishedTimeout d)
  | Step.scanningTimeout => some (MEGASync.scanningTimeout d)
  | Step.updateTransfers api => MEGASync.updateTransfers numberOfHundredths api d
  | Step.updateState api => MEGASync.updateState numberOfHundredths api d
  | Step.setIndexing indexing => some (MEGASync.setIndexing indexing d)
  | Step.setWaiting waiting => some (MEGASync.setWaiting waiting d)
  | Step.setPaused paused => some (MEGASync.setPaused paused d)

/-- The dialog after a sequence of events, first event first. -/
def run (numberOfHundredths : Int → String) : List Step → InfoDialog → Option InfoDialog
  | [], d => some d
  | step :: steps, d => (step.apply numberOfHundredths d).bind (run numberOfHundredths steps)

/-- The milliseconds that pass during an event. -/
def Step.ms : Step → Nat
  | Step.elapse ms => ms
  | _ => 0

/-- The remaining-time text of the downloads, where the current mode shows it. -/
def InfoDialog.downloadsRemainingTime (d : InfoDialog) : String :=
  if d.preferences.logged = true then d.lRemainingTimeD else d.gWidget.remainingTime

/-- The progress text of the downloads, where the current mode shows it. -/
def InfoDialog.downloadsText (d : InfoDialog) : String :=
  if d.preferences.logged = true then d.lDownloads else d.gWidget.downloadLabel

/-- Fields that `updateTransfers` and `updateState` leave alone. -/
structure SameFinish (d r : InfoDialog) : Prop where
  preferences : r.preferences = d.preferences
  visible : r.visible = d.visible
  hasGWidget : r.hasGWidget = d.hasGWidget
  remainingDownloadBytes : r.remainingDownloadBytes = d.remainingDownloadBytes
  remainingUploadBytes : r.remainingUploadBytes = d.remainingUploadBytes
  meanDownloadSpeed : r.meanDownloadSpeed = d.meanDownloadSpeed
  meanUploadSpeed : r.meanUploadSpeed = d.meanUploadSpeed
  downloadsFinishedTimer : r.downloadsFinishedTimer = d.downloadsFinishedTimer
  uploadsFinishedTimer : r.uploadsFinishedTimer = d.uploadsFinishedTimer
  transfersFinishedTimer : r.transfersFinishedTimer = d.transfersFinishedTimer
  wTransfer1 : r.wTransfer1 = d.wTransfer1
  wTransfer2 : r.wTransfer2 = d.wTransfer2
  log : r.log = d.log

/-- Fields that `updateTransfers` leaves alone. -/
structure SameStatus (d r : InfoDialog) extends SameFinish d r : Prop where
  state : r.state = d.state
  bPause : r.bPause = d.bPause
  waiting : r.waiting = d.waiting
  indexing : r.indexing = d.indexing
  scanningTimer : r.scanningTimer = d.scanningTimer
  scanningAnimationIndex : r.scanningAnimationIndex = d.scanningAnimationIndex
  downloadSpeed : r.downloadSpeed = d.downloadSpeed
  uploadSpeed : r.uploadSpeed = d.uploadSpeed
  activeDownloadState : r.activeDownloadState = d.activeDownloadState
  activeUploadState : r.activeUploadState = d.activeUploadState
  lSyncUpdated : r.lSyncUpdated = d.lSyncUpdated
  label : r.label = d.label
  lBlockedItem : r.lBlockedItem = d.lBlockedItem

/-- The counters, which the display part of `updateTransfers` leaves alone. -/
structure SameCounters (d r : InfoDialog) : Prop where
  remainingUploads : r.remainingUploads = d.remainingUploads
  remainingDownloads : r.remainingDownloads = d.remainingDownloads
  totalUploads : r.totalUploads = d.totalUploads
  totalDownloads : r.totalDownloads = d.totalDownloads
  currentUpload : r.currentUpload = d.currentUpload
  currentDownload : r.currentDownload = d.currentDownload

/-- The texts of the downloads. -/
structure SameDownloadTexts (d r : InfoDialog) : Prop where
  lRemainingTimeD : r.lRemainingTimeD = d.lRemainingTimeD
  lDownloads : r.lDownloads = d.lDownloads
  remainingTime : r.gWidget.remainingTime = d.gWidget.remainingTime
  downloadLabel : r.gWidget.downloadLabel = d.gWidget.downloadLabel

/-- The quotient of the two `long long` values fits a `long long`: it is not that of the least
value by -1. -/
def QuotientFits (a b : Int) : Prop := ¬ (a = -2 ^ 63 ∧ b = -1)

/-- What lets `updateTransfers` return whatever the engine reports: when the dialog is
visible, the quotients of the remaining bytes by the mean speed fit in both directions, and
in guest mode the guest widget exists. -/
def SafeToUpdate (d : InfoDialog) : Prop :=
  d.visible = true →
    QuotientFits d.remainingDownloadBytes d.meanDownloadSpeed
    ∧ QuotientFits d.remainingUploadBytes d.meanUploadSpeed
    ∧ (d.preferences.logged = false → d.hasGWidget = true)

instance (a b : Int) : Decidable (QuotientFits a b) := by
  unfold QuotientFits
  infer_instance

instance (d : InfoDialog) : Decidable (SafeToUpdate d) := by
  unfold SafeToUpdate
  infer_instance

/-- The flags and the settings are the same in both dialogs. -/
@[mk_iff]
structure SameFlags (d r : InfoDialog) : Prop where
  bPause : r.bPause = d.bPause
  waiting : r.waiting = d.waiting
  indexing : r.indexing = d.indexing
  preferences : r.preferences = d.preferences

/-- The state, the scanning animation and the status texts are the same in both dialogs. -/
@[mk_iff]
structure SameAnimation (d r : InfoDialog) : Prop where
  state : r.state = d.state
  scanningTimer : r.scanningTimer = d.scanningTimer
  scanningAnimationIndex : r.scanningAnimationIndex = d.scanningAnimationIndex
  lSyncUpdated : r.lSyncUpdated = d.lSyncUpdated
  label : r.label = d.label

/-- The two speeds are the same in both dialogs. -/
@[mk_iff]
structure SameSpeeds (d r : InfoDialog) : Prop where
  downloadSpeed : r.downloadSpeed = d.downloadSpeed
  uploadSpeed : r.uploadSpeed = d.uploadSpeed

/-! ## The specification's words, and sample dialogs -/

/-- The two decimal digits of a number below 100. -/
def twoDigits (n : Nat) : String := String.mk [Nat.digitChar (n / 10), Nat.digitChar (n % 10)]

/-- The text `HH:MM:SS`, each part with two digits. -/
def hhmmss (hh mm ss : Nat) : String :=
  twoDigits hh ++ ":" ++ twoDigits mm ++ ":" ++ twoDigits ss

/-- The progress text of one direction in the words of the specification: `text` is
"N of M (paused)" when the direction is paused or its speed is negative, "N of M (speed/s)"
when it is not paused and the speed is at least 20000, and "N of M" when it is not paused
and 0 ≤ speed < 20000; exactly one of the three cases applies. -/
structure ProgressTextSpec (numberOfHundredths : Int → String) (text : String) (paused : Prop)
    (speed current total : Int) : Prop where
  pausedText : paused ∨ speed < 0 →
    text = number current ++ " of " ++ number total ++ " (paused)"
  speedText : ¬ paused → 20000 ≤ speed →
    text = number current ++ " of " ++ number total ++ " ("
      ++ getSizeString numberOfHundredths (toUInt64 speed) ++ "/s)"
  plainText : ¬ paused → 0 ≤ speed → speed < 20000 →
    text = number current ++ " of " ++ number total
  exhaustive : (paused ∨ speed < 0) ∨ (¬ paused ∧ 20000 ≤ speed)
    ∨ (¬ paused ∧ 0 ≤ speed ∧ speed < 20000)
  exclusive : ¬ ((paused ∨ speed < 0) ∧ (¬ paused ∧ 20000 ≤ speed))
    ∧ ¬ ((paused ∨ speed < 0) ∧ (¬ paused ∧ 0 ≤ speed ∧ speed < 20000))
    ∧ ¬ ((¬ paused ∧ 20000 ≤ speed) ∧ (¬ paused ∧ 0 ≤ speed ∧ speed < 20000))

/-- The extension of a file name in the words of the specification: the text after the last
`.` of the name, empty when the name has no `.`. -/
def afterLastDot (file : String) : String :=
  match afterLast '.' file.data with
  | some extension => String.mk extension
  | none => ""

/-- The static hash after a sequence of calls `getExtensionPixmap(file, prefix)`, first call
first. -/
def iconsAfter : List (String × String) → QHash → QHash
  | [], icons => icons
  | call :: calls, icons => iconsAfter calls (getExtensionPixmap icons call.1 call.2).2

/-- The three slots of the list of recent files, first slot first. -/
def InfoDialog.recentFiles (d : InfoDialog) : List (Option RecentFileInfo) :=
  [d.wRecent1.getFileInfo, d.wRecent2.getFileInfo, d.wRecent3.getFileInfo]

/-- The dialog after `addRecentFile` has been called for each of the entries, in their order,
each with the clock reading that the entry records. -/
def addRecentFiles : List RecentFileInfo → InfoDialog → InfoDialog
  | [], d => d
  | entry :: entries, d =>
    addRecentFiles entries
      (addRecentFile entry.fileName entry.fileHandle entry.localPath entry.nodeKey
        entry.dateTime d)

/-- The state that the priority order of the specification selects: paused, then waiting,
then indexing, then up to date. -/
def selectedState (d : InfoDialog) : DialogState :=
  if d.bPause = true then DialogState.STATE_PAUSED
  else if d.waiting = true then DialogState.STATE_WAITING
  else if d.indexing = true then DialogState.STATE_INDEXING
  else DialogState.STATE_UPDATED

/-- The scanning timer repeats, and it is active exactly in the state `STATE_INDEXING`. -/
def ScanningWhileIndexing (d : InfoDialog) : Prop :=
  d.scanningTimer.singleShot = false ∧
  (d.scanningTimer.isActive = true ↔ d.state = DialogState.STATE_INDEXING)

/-- The value fits a `long long`. -/
def FitsInt64 (x : Int) : Prop := -2 ^ 63 ≤ x ∧ x < 2 ^ 63

/-- One item of a duration in the words of the specification: the number, and the letter of
the item in grey. -/
def itemText (value : Nat) (letter : String) : String :=
  toString value ++ " <span style=\"color:#777777; text-decoration:none;\">" ++ letter
    ++ "</span>"

/-- The character `"`. -/
def quote : Char := Char.ofNat 34

/-- The text is `before`, the pattern and `after`, and the pattern stands nowhere earlier in
it. -/
def FirstOccurrence (pattern before after text : List Char) : Prop :=
  text = before ++ pattern ++ after
  ∧ ∀ before2 after2, text = before2 ++ pattern ++ after2 → before.length ≤ before2.length

/-- A logged-in dialog with the pause toggle checked while both flags are set. -/
def pausedWaitingIndexing : InfoDialog :=
  { InfoDialog.init {} with bPause := true, waiting := true, indexing := true }

/-- A visible logged-in dialog downloading at 25000 bytes/s, with 4294967291 bytes left at a
mean speed of 1 byte/s. -/
def slowDownload : InfoDialog :=
  { InfoDialog.init {} with
      visible := true,
      wTransfer1 := { active := true },
      downloadSpeed := 25000,
      remainingDownloadBytes := 4294967291,
      meanDownloadSpeed := 1 }

/-- The engine reports one pending download out of three. -/
def oneOfThreeDownloads : MegaApi := { numPendingDownloads := 1, totalDownloads := 3 }

/-- The engine reports no pending transfer. -/
def nothingPending : MegaApi := {}

/-- A logged-in dialog whose two transfer widgets are active and whose finish timers are
idle. -/
def bothActive : InfoDialog :=
  { InfoDialog.init {} with
      wTransfer1 := { active := true },
      wTransfer2 := { active := true },
      sActiveTransfers := Page.pUpdating }

/-- A logged-in dialog that shows an upload and no download, its finish timers idle. -/
def uploadsOnly : InfoDialog :=
  { InfoDialog.init {} with
      wTransfer2 := { active := true },
      sActiveTransfers := Page.pUpdating }

/-- A logged-in dialog that is indexing, its scanning animation at the seventh picture and
20 ms before the next one. -/
def scanningSeventh : InfoDialog :=
  { InfoDialog.init {} with
      indexing := true,
      state := DialogState.STATE_INDEXING,
      scanningTimer := { singleShot := false, interval := 60, remaining := some 20 },
      scanningAnimationIndex := 7,
      lSyncUpdated := "MEGAsync is scanning",
      label := ":/images/scanning_anime7.png" }

/-- A logged-in dialog that is waiting, its pause toggle clear. -/
def waitingDialog : InfoDialog := { InfoDialog.init {} with waiting := true }

/-- The engine reports a blocked path and busy servers at once. -/
def blockedAndBusy : MegaApi := { blockedPath := some "/tmp/a.txt", serversBusy := true }

/-- A dialog in guest mode with its guest widget, the pause toggle checked and both flags
set. -/
def guestPaused : InfoDialog :=
  { InfoDialog.init { logged := false } with
      hasGWidget := true, bPause := true, waiting := true, indexing := true }

/-- The engine reports five pending downloads out of a total of two. -/
def fiveOfTwoDownloads : MegaApi := { numPendingDownloads := 5, totalDownloads := 2 }

/-- A logged-in dialog whose settings record 100 bytes used, 60 of them in one file of the
cloud drive and 30 in two files of incoming shares, out of 1000. -/
def storageSample : InfoDialog :=
  { InfoDialog.init { totalStorage := 1000, usedStorage := 100, cloudDriveStorage := 60,
                      cloudDriveFiles := 1, inShareStorage := 30, inShareFiles := 2,
                      rubbishStorage := 10 } with visible := true }

theorem sameFinish_refl (d : InfoDialog) : SameFinish d d := by constructor <;> rfl

theorem sameFinish_trans {a b c : InfoDialog} (h₁ : SameFinish a b) (h₂ : SameFinish b c) :
    SameFinish a c where
  preferences := h₂.preferences.trans h₁.preferences
  visible := h₂.visible.trans h₁.visible
  hasGWidget := h₂.hasGWidget.trans h₁.hasGWidget
  remainingDownloadBytes := h₂.remainingDownloadBytes.trans h₁.remainingDownloadBytes
  remainingUploadBytes := h₂.remainingUploadBytes.trans h₁.remainingUploadBytes
  meanDownloadSpeed := h₂.meanDownloadSpeed.trans h₁.meanDownloadSpeed
  meanUploadSpeed := h₂.meanUploadSpeed.trans h₁.meanUploadSpeed
  downloadsFinishedTimer := h₂.downloadsFinishedTimer.trans h₁.downloadsFinishedTimer
  uploadsFinishedTimer := h₂.uploadsFinishedTimer.trans h₁.uploadsFinishedTimer
  transfersFinishedTimer := h₂.transfersFinishedTimer.trans h₁.transfersFinishedTimer
  wTransfer1 := h₂.wTransfer1.trans h₁.wTransfer1
  wTransfer2 := h₂.wTransfer2.trans h₁.wTransfer2
  log := h₂.log.trans h₁.log

theorem sameStatus_refl (d : InfoDialog) : SameStatus d d := by
  constructor <;> first | rfl | exact sameFinish_refl d

theorem sameStatus_trans {a b c : InfoDialog} (h₁ : SameStatus a b) (h₂ : SameStatus b c) :
    SameStatus a c where
  toSameFinish := sameFinish_trans h₁.toSameFinish h₂.toSameFinish
  state := h₂.state.trans h₁.state
  bPause := h₂.bPause.trans h₁.bPause
  waiting := h₂.waiting.trans h₁.waiting
  indexing := h₂.indexing.trans h₁.indexing
  scanningTimer := h₂.scanningTimer.trans h₁.scanningTimer
  scanningAnimationIndex := h₂.scanningAnimationIndex.trans h₁.scanningAnimationIndex
  downloadSpeed := h₂.downloadSpeed.trans h₁.downloadSpeed
  uploadSpeed := h₂.uploadSpeed.trans h₁.uploadSpeed
  activeDownloadState := h₂.activeDownloadState.trans h₁.activeDownloadState
  activeUploadState := h₂.activeUploadState.trans h₁.activeUploadState
  lSyncUpdated := h₂.lSyncUpdated.trans h₁.lSyncUpdated
  label := h₂.label.trans h₁.label
  lBlockedItem := h₂.lBlockedItem.trans h₁.lBlockedItem

theorem sameCounters_refl (d : InfoDialog) : SameCounters d d := by constructor <;> rfl

theorem sameCounters_trans {a b c : InfoDialog} (h₁ : SameCounters a b)
    (h₂ : SameCounters b c) : SameCounters a c where
  remainingUploads := h₂.remainingUploads.trans h₁.remainingUploads
  remainingDownloads := h₂.remainingDownloads.trans h₁.remainingDownloads
  totalUploads := h₂.totalUploads.trans h₁.totalUploads
  totalDownloads := h₂.totalDownloads.trans h₁.totalDownloads
  currentUpload := h₂.currentUpload.trans h₁.currentUpload
  currentDownload := h₂.currentDownload.trans h₁.currentDownload

theorem sameDownloadTexts_refl (d : InfoDialog) : SameDownloadTexts d d := by
  constructor <;> rfl

theorem sameDownloadTexts_trans {a b c : InfoDialog} (h₁ : SameDownloadTexts a b)
    (h₂ : SameDownloadTexts b c) : SameDownloadTexts a c where
  lRemainingTimeD := h₂.lRemainingTimeD.trans h₁.lRemainingTimeD
  lDownloads := h₂.lDownloads.trans h₁.lDownloads
  remainingTime := h₂.remainingTime.trans h₁.remainingTime
  downloadLabel := h₂.downloadLabel.trans h₁.downloadLabel

theorem downloadString_congr (f : Int → String) {d r : InfoDialog} (hs : SameStatus d r)
    (hc : SameCounters d r) : downloadString f r = downloadString f d := by
  unfold downloadString
  rw [hs.activeDownloadState, hs.preferences, hs.downloadSpeed, hc.currentDownload,
    hc.totalDownloads]

theorem uploadString_congr (f : Int → String) {d r : InfoDialog} (hs : SameStatus d r)
    (hc : SameCounters d r) : uploadString f r = uploadString f d := by
  unfold uploadString
  rw [hs.activeUploadState, hs.preferences, hs.uploadSpeed, hc.currentUpload, hc.totalUploads]

theorem downloadsText_congr {d r : InfoDialog} (hs : SameStatus d r)
    (ht : SameDownloadTexts d r) : r.downloadsText = d.downloadsText := by
  unfold InfoDialog.downloadsText
  rw [hs.preferences, ht.lDownloads, ht.downloadLabel]

theorem downloadsRemainingTime_congr {d r : InfoDialog} (hs : SameStatus d r)
    (ht : SameDownloadTexts d r) : r.downloadsRemainingTime = d.downloadsRemainingTime := by
  unfold InfoDialog.downloadsRemainingTime
  rw [hs.preferences, ht.lRemainingTimeD, ht.remainingTime]

theorem operationText_downloading : operationText "Downloading " = "Downloading " := by decide

theorem operationText_uploading : operationText "Uploading " = "Uploading " := by decide

theorem showDownloads_same (f : Int → String) (t : String) (d r : InfoDialog)
    (h : showDownloads f t d = some r) :
    SameStatus d r ∧ SameCounters d r
      ∧ r.downloadsRemainingTime = t
      ∧ r.downloadsText = downloadFullPattern "Downloading " (downloadString f d) := by
  by_cases hn : d.preferences.logged = false ∧ d.hasGWidget = false
  · simp [showDownloads, hn] at h
  · rw [showDownloads, if_neg hn, operationText_downloading] at h
    rcases Bool.eq_false_or_eq_true d.preferences.logged with hl | hl
    · simp only [hl, if_true, Bool.false_eq_true, if_false, Bool.true_eq_false] at h
      obtain rfl := Option.some.inj h
      refine ⟨?_, ?_, ?_, ?_⟩ <;>
      first
        | (constructor <;> first | rfl | (constructor <;> rfl))
        | simp [hl, downloadString, InfoDialog.downloadsRemainingTime, InfoDialog.downloadsText]
    · simp only [hl, if_true, Bool.false_eq_true, if_false, Bool.true_eq_false] at h
      obtain rfl := Option.some.inj h
      refine ⟨?_, ?_, ?_, ?_⟩ <;>
      first
        | (constructor <;> first | rfl | (constructor <;> rfl))
        | simp [hl, downloadString, InfoDialog.downloadsRemainingTime, InfoDialog.downloadsText]

theorem showDownloads_returns (f : Int → String) (t : String) (d : InfoDialog)
    (hg : d.preferences.logged = false → d.hasGWidget = true) :
    ∃ r, showDownloads f t d = some r := by
  have hn : ¬ (d.preferences.logged = false ∧ d.hasGWidget = false) := by
    rintro ⟨a, b⟩
    rw [hg a] at b
    exact absurd b (by decide)
  rw [showDownloads, if_neg hn]
  simp only
  split_ifs <;> exact ⟨_, rfl⟩

/-- In guest mode without a guest widget, showing the downloads has no result. -/
theorem showDownloads_no_widget (f : Int → String) (t : String) (d : InfoDialog)
    (hl : d.preferences.logged = false) (hg : d.hasGWidget = false) :
    showDownloads f t d = none := by
  simp [showDownloads, hl, hg]

theorem showUploads_same (f : Int → String) (t : String) (d : InfoDialog) :
    SameStatus d (showUploads f t d) ∧ SameCounters d (showUploads f t d)
      ∧ SameDownloadTexts d (showUploads f t d) := by
  unfold showUploads
  refine ⟨?_, ?_, ?_⟩ <;> constructor <;> first | rfl | (constructor <;> rfl)

theorem showUploads_texts (f : Int → String) (t : String) (d : InfoDialog) :
    (showUploads f t d).lRemainingTimeU = t ∧
    (showUploads f t d).lUploads = uploadFullPattern "Uploading " (uploadString f d) := by
  unfold showUploads
  rw [operationText_uploading]
  simp [uploadString]

theorem showUpdating_same (d r : InfoDialog) (h : showUpdating d = some r) :
    SameStatus d r ∧ SameCounters d r
      ∧ SameDownloadTexts d r
      ∧ r.lRemainingTimeU = d.lRemainingTimeU
      ∧ r.lUploads = d.lUploads := by
  unfold showUpdating at h
  split_ifs at h <;> obtain rfl := Option.some.inj h <;>
    refine ⟨?_, ?_, ?_, rfl, rfl⟩ <;> constructor <;>
    first | rfl | (constructor <;> rfl)

theorem showUpdating_returns (d : InfoDialog)
    (hg : d.preferences.logged = false → d.hasGWidget = true) :
    ∃ r, showUpdating d = some r := by
  have hn : ¬ (d.preferences.logged = false ∧ d.hasGWidget = false) := by
    rintro ⟨a, b⟩
    rw [hg a] at b
    exact absurd b (by decide)
  unfold showUpdating
  simp only [hn, if_false]
  split_ifs <;> exact ⟨_, rfl⟩

theorem updateCounters_same (api : MegaApi) (d : InfoDialog) :
    SameStatus d (updateCounters api d) := by
  unfold updateCounters
  simp only
  split_ifs <;> constructor <;> first | rfl | (constructor <;> rfl)

theorem updateCounters_remaining (api : MegaApi) (d : InfoDialog) :
    (updateCounters api d).remainingUploads = api.numPendingUploads ∧
    (updateCounters api d).remainingDownloads = api.numPendingDownloads := by
  unfold updateCounters
  simp only
  split_ifs <;> exact ⟨rfl, rfl⟩

theorem totalRemainingSeconds_eq (remainingBytes meanSpeed : Int)
    (hq : QuotientFits remainingBytes meanSpeed) :
    totalRemainingSeconds remainingBytes meanSpeed
      = some (if meanSpeed = 0 then 0
              else toInt32 (toInt64 (Int.tdiv remainingBytes meanSpeed))) := by
  unfold QuotientFits at hq
  unfold totalRemainingSeconds llDiv
  by_cases h : meanSpeed = 0
  · simp [h]
  · simp only [ne_eq, h, not_false_eq_true, if_true, false_or, hq, if_false, Option.map_some']

/-- The one quotient that does not fit has no result: the division traps. -/
theorem totalRemainingSeconds_traps :
    totalRemainingSeconds (-2 ^ 63) (-1) = none := by
  decide

theorem remainingTime_isSome (remainingBytes meanSpeed : Int)
    (hq : QuotientFits remainingBytes meanSpeed) :
    ∃ text, remainingTime remainingBytes meanSpeed = some text := by
  unfold remainingTime
  rw [totalRemainingSeconds_eq _ _ hq]
  exact ⟨_, rfl⟩

theorem quotientFits_zero (a : Int) : QuotientFits a 0 := by
  unfold QuotientFits
  omega

theorem quotientFits_of_nonneg (a b : Int) (h : 0 ≤ b) : QuotientFits a b := by
  unfold QuotientFits
  omega

theorem safeToUpdate_of_hidden (d : InfoDialog) (hv : d.visible = false) : SafeToUpdate d := by
  intro h
  rw [hv] at h
  exact absurd h (by decide)

theorem safeToUpdate_congr {d r : InfoDialog} (h : SameFinish d r) (hs : SafeToUpdate d) :
    SafeToUpdate r := by
  unfold SafeToUpdate at hs ⊢
  rw [h.visible, h.remainingDownloadBytes, h.remainingUploadBytes, h.meanDownloadSpeed,
    h.meanUploadSpeed, h.preferences, h.hasGWidget]
  exact hs

/-- What a visible dialog shows after `updateTransfers`. -/
theorem updateTransfers_visible (f : Int → String) (api : MegaApi) (d r : InfoDialog)
    (hv : d.visible = true) (hr : updateTransfers f api d = some r) :
    SameStatus d r
      ∧ SameCounters (updateCounters api d) r
      ∧ (api.numPendingDownloads ≠ 0 →
          some r.downloadsRemainingTime
              = remainingTime d.remainingDownloadBytes d.meanDownloadSpeed
            ∧ r.downloadsText = downloadFullPattern "Downloading " (downloadString f r))
      ∧ (api.numPendingUploads ≠ 0 →
          some r.lRemainingTimeU = remainingTime d.remainingUploadBytes d.meanUploadSpeed
            ∧ r.lUploads = uploadFullPattern "Uploading " (uploadString f r)) := by
  have h0 := updateCounters_same api d
  obtain ⟨hru, hrd⟩ := updateCounters_remaining api d
  unfold updateTransfers at hr
  generalize updateCounters api d = d0 at h0 hru hrd hr ⊢
  have hv0 : d0.visible = true := by rw [h0.visible]; exact hv
  simp only [hv0, if_true] at hr
  obtain ⟨d1, e1, hr⟩ := Option.bind_eq_some.mp hr
  obtain ⟨d2, e2, e3⟩ := Option.bind_eq_some.mp hr
  -- the download branch
  have h1 : SameStatus d0 d1 ∧ SameCounters d0 d1
      ∧ (api.numPendingDownloads ≠ 0 →
          some d1.downloadsRemainingTime
            = remainingTime d.remainingDownloadBytes d.meanDownloadSpeed
          ∧ d1.downloadsText = downloadFullPattern "Downloading " (downloadString f d0)) := by
    by_cases hp : api.numPendingDownloads = 0
    · have : d1 = d0 := by simpa [hrd, hp] using e1.symm
      subst this
      exact ⟨sameStatus_refl _, sameCounters_refl _, fun h => absurd hp h⟩
    · have e1' : updateDownloads f d0 = some d1 := by simpa [hrd, hp] using e1
      obtain ⟨tD, htD, hsd⟩ := Option.bind_eq_some.mp e1'
      obtain ⟨s1, c1, a, b⟩ := showDownloads_same f tD d0 d1 hsd
      refine ⟨s1, c1, fun _ => ⟨?_, b⟩⟩
      rw [a, ← h0.remainingDownloadBytes, ← h0.meanDownloadSpeed, htD]
  obtain ⟨s1, c1, x1⟩ := h1
  -- the upload branch
  have h2 : SameStatus d1 d2 ∧ SameCounters d1 d2 ∧ SameDownloadTexts d1 d2
      ∧ (api.numPendingUploads ≠ 0 →
          some d2.lRemainingTimeU = remainingTime d.remainingUploadBytes d.meanUploadSpeed
          ∧ d2.lUploads = uploadFullPattern "Uploading " (uploadString f d1)) := by
    have hru1 : d1.remainingUploads = api.numPendingUploads := by
      rw [c1.remainingUploads]; exact hru
    by_cases hp : api.numPendingUploads = 0
    · have : d2 = d1 := by simpa [hru1, hp] using e2.symm
      subst this
      exact ⟨sameStatus_refl _, sameCounters_refl _, sameDownloadTexts_refl _,
        fun h => absurd hp h⟩
    · have e2' : updateUploads f d1 = some d2 := by simpa [hru1, hp] using e2
      obtain ⟨tU, htU, hsu⟩ := Option.map_eq_some'.mp e2'
      subst hsu
      refine ⟨(showUploads_same f tU d1).1, (showUploads_same f tU d1).2.1,
        (showUploads_same f tU d1).2.2, fun _ => ⟨?_, (showUploads_texts f tU d1).2⟩⟩
      rw [(showUploads_texts f tU d1).1, ← h0.remainingUploadBytes, ← h0.meanUploadSpeed,
        ← s1.remainingUploadBytes, ← s1.meanUploadSpeed, htU]
  obtain ⟨s2, c2, t2, x2⟩ := h2
  obtain ⟨s3, c3, t3, u3, v3⟩ := showUpdating_same d2 r e3
  have s23 := sameStatus_trans s2 s3
  have t23 := sameDownloadTexts_trans t2 t3
  have s123 := sameStatus_trans s1 s23
  have c123 := sameCounters_trans c1 (sameCounters_trans c2 c3)
  refine ⟨sameStatus_trans h0 s123, c123, ?_, ?_⟩
  · intro hp
    obtain ⟨a, b⟩ := x1 hp
    refine ⟨?_, ?_⟩
    · rw [downloadsRemainingTime_congr s23 t23, a]
    · rw [downloadsText_congr s23 t23, b, downloadString_congr f s123 c123]
  · intro hp
    obtain ⟨a, b⟩ := x2 hp
    refine ⟨?_, ?_⟩
    · rw [u3, a]
    · rw [v3, b, uploadString_congr f s3 c3, uploadString_congr f s2 c2]

/-- A hidden dialog only has its counters updated. -/
theorem updateTransfers_hidden (f : Int → String) (api : MegaApi) (d : InfoDialog)
    (hv : d.visible = false) : updateTransfers f api d = some (updateCounters api d) := by
  have h0 := updateCounters_same api d
  unfold updateTransfers
  simp [h0.visible, hv]

/-- `updateTransfers` returns when the quotients fit and, in guest mode, the guest widget
exists. -/
theorem updateTransfers_returns (f : Int → String) (api : MegaApi) (d : InfoDialog)
    (hs : SafeToUpdate d) : ∃ r, updateTransfers f api d = some r := by
  rcases Bool.eq_false_or_eq_true d.visible with hv | hv
  swap
  · exact ⟨_, updateTransfers_hidden f api d hv⟩
  obtain ⟨hqD, hqU, hg⟩ := hs hv
  have h0 := updateCounters_same api d
  obtain ⟨tD, htD⟩ := remainingTime_isSome d.remainingDownloadBytes d.meanDownloadSpeed hqD
  obtain ⟨tU, htU⟩ := remainingTime_isSome d.remainingUploadBytes d.meanUploadSpeed hqU
  have hg0 : (updateCounters api d).preferences.logged = false
      → (updateCounters api d).hasGWidget = true := by
    rw [h0.preferences, h0.hasGWidget]; exact hg
  unfold updateTransfers
  generalize updateCounters api d = d0 at h0 hg0 ⊢
  have hv0 : d0.visible = true := by rw [h0.visible]; exact hv
  simp only [hv0, if_true]
  have h1 : ∃ d1, (if d0.remainingDownloads ≠ 0 then updateDownloads f d0 else some d0) = some d1
      ∧ SameStatus d0 d1 := by
    by_cases hp : d0.remainingDownloads = 0
    · exact ⟨d0, by simp [hp], sameStatus_refl d0⟩
    · obtain ⟨d1, e1⟩ := showDownloads_returns f tD d0 hg0
      refine ⟨d1, ?_, (showDownloads_same f tD d0 d1 e1).1⟩
      simp [hp, updateDownloads, h0.remainingDownloadBytes, h0.meanDownloadSpeed, htD, e1]
  obtain ⟨d1, e1, s1⟩ := h1
  rw [e1, Option.some_bind]
  have h2 : ∃ d2, (if d1.remainingUploads ≠ 0 then updateUploads f d1 else some d1) = some d2
      ∧ SameStatus d1 d2 := by
    by_cases hp : d1.remainingUploads = 0
    · exact ⟨d1, by simp [hp], sameStatus_refl d1⟩
    · refine ⟨showUploads f tU d1, ?_, (showUploads_same f tU d1).1⟩
      simp [hp, updateUploads, s1.remainingUploadBytes, s1.meanUploadSpeed,
        h0.remainingUploadBytes, h0.meanUploadSpeed, htU]
  obtain ⟨d2, e2, s2⟩ := h2
  rw [e2, Option.some_bind]
  apply showUpdating_returns
  rw [s2.preferences, s2.hasGWidget, s1.preferences, s1.hasGWidget]
  exact hg0

/-- `updateTransfers` leaves the status fields alone. -/
theorem updateTransfers_same (f : Int → String) (api : MegaApi) (d r : InfoDialog)
    (hr : updateTransfers f api d = some r) :
    SameStatus d r
      ∧ (d.visible = false → r = updateCounters api d)
      ∧ SameCounters (updateCounters api d) r := by
  rcases Bool.eq_false_or_eq_true d.visible with hv | hv
  · obtain ⟨hs, hc, _⟩ := updateTransfers_visible f api d r hv hr
    exact ⟨hs, fun h => absurd (hv.symm.trans h) (by decide), hc⟩
  · rw [updateTransfers_hidden f api d hv] at hr
    obtain rfl := Option.some.inj hr
    exact ⟨updateCounters_same api d, fun _ => rfl, sameCounters_refl _⟩

/-- A visible dialog whose quotient of remaining bytes by mean speed does not fit has no
result when a download is pending: the division traps. -/
theorem updateTransfers_traps (f : Int → String) (api : MegaApi) (d : InfoDialog)
    (hv : d.visible = true) (hp : api.numPendingDownloads ≠ 0)
    (hb : d.remainingDownloadBytes = -2 ^ 63) (hm : d.meanDownloadSpeed = -1) :
    updateTransfers f api d = none := by
  have h0 := updateCounters_same api d
  obtain ⟨hru, hrd⟩ := updateCounters_remaining api d
  unfold updateTransfers
  generalize updateCounters api d = d0 at h0 hru hrd ⊢
  have hv0 : d0.visible = true := by rw [h0.visible]; exact hv
  have ht : remainingTime d0.remainingDownloadBytes d0.meanDownloadSpeed = none := by
    rw [h0.remainingDownloadBytes, h0.meanDownloadSpeed, hb, hm]
    decide
  simp [hv0, hrd, hp, updateDownloads, ht]

/-- A visible dialog in guest mode without a guest widget has no result when a transfer is
pending: the null pointer is dereferenced. -/
theorem updateTransfers_no_widget (f : Int → String) (api : MegaApi) (d : InfoDialog)
    (hv : d.visible = true) (hp : api.numPendingDownloads ≠ 0 ∨ api.numPendingUploads ≠ 0)
    (hl : d.preferences.logged = false) (hg : d.hasGWidget = false) :
    updateTransfers f api d = none := by
  cases h : updateTransfers f api d with
  | none => rfl
  | some r =>
    exfalso
    have h0 := updateCounters_same api d
    obtain ⟨hru, hrd⟩ := updateCounters_remaining api d
    unfold updateTransfers at h
    generalize updateCounters api d = d0 at h0 hru hrd h
    have hv0 : d0.visible = true := by rw [h0.visible]; exact hv
    simp only [hv0, if_true] at h
    obtain ⟨d1, e1, h⟩ := Option.bind_eq_some.mp h
    obtain ⟨d2, e2, e3⟩ := Option.bind_eq_some.mp h
    have s1 : SameStatus d0 d1 ∧ SameCounters d0 d1 := by
      by_cases hp : d0.remainingDownloads = 0
      · have : d1 = d0 := by simpa [hp] using e1.symm
        subst this
        exact ⟨sameStatus_refl _, sameCounters_refl _⟩
      · have e1' : updateDownloads f d0 = some d1 := by simpa [hp] using e1
        obtain ⟨tD, htD, hsd⟩ := Option.bind_eq_some.mp e1'
        exact ⟨(showDownloads_same f tD d0 d1 hsd).1, (showDownloads_same f tD d0 d1 hsd).2.1⟩
    have s2 : SameStatus d1 d2 ∧ SameCounters d1 d2 := by
      by_cases hp : d1.remainingUploads = 0
      · have : d2 = d1 := by simpa [hp] using e2.symm
        subst this
        exact ⟨sameStatus_refl _, sameCounters_refl _⟩
      · have e2' : updateUploads f d1 = some d2 := by simpa [hp] using e2
        obtain ⟨tU, htU, hsu⟩ := Option.map_eq_some'.mp e2'
        subst hsu
        exact ⟨(showUploads_same f tU d1).1, (showUploads_same f tU d1).2.1⟩
    have hl2 : d2.preferences.logged = false := by
      rw [s2.1.preferences, s1.1.preferences, h0.preferences]; exact hl
    have hg2 : d2.hasGWidget = false := by
      rw [s2.1.hasGWidget, s1.1.hasGWidget, h0.hasGWidget]; exact hg
    have hc2 : d2.remainingUploads ≠ 0 ∨ d2.remainingDownloads ≠ 0 := by
      rw [s2.2.remainingUploads, s1.2.remainingUploads, s2.2.remainingDownloads,
        s1.2.remainingDownloads, hru, hrd]
      exact hp.symm
    simp [showUpdating, hc2, hl2, hg2] at e3


/-! ## Lemmas: the state chosen by `updateState` -/

theorem updatePaused_state (d : InfoDialog) :
    (updatePaused d).state = DialogState.STATE_PAUSED := by
  by_cases h1 : d.state = DialogState.STATE_PAUSED <;>
  by_cases h2 : d.scanningTimer.isActive = true <;>
  by_cases h3 : d.sActiveTransfers = Page.pUpdated <;>
  simp [updatePaused, h1, h2, h3]

theorem updateWaiting_state (api : MegaApi) (d : InfoDialog) :
    (updateWaiting api d).state = DialogState.STATE_WAITING := by
  by_cases h1 : d.state = DialogState.STATE_WAITING <;>
  by_cases h2 : d.scanningTimer.isActive = true <;>
  simp [updateWaiting, h1, h2]

theorem updateIndexing_state (d : InfoDialog) :
    (updateIndexing d).state = DialogState.STATE_INDEXING := by
  by_cases h1 : d.state = DialogState.STATE_INDEXING <;>
  by_cases h2 : d.scanningTimer.isActive = true <;>
  simp [updateIndexing, h1, h2]

theorem updateUpdated_state (d : InfoDialog) :
    (updateUpdated d).state = DialogState.STATE_UPDATED := by
  by_cases h1 : d.state = DialogState.STATE_UPDATED <;>
  by_cases h2 : d.scanningTimer.isActive = true <;>
  simp [updateUpdated, h1, h2]

theorem clearPaused_same (d : InfoDialog) :
    SameFinish d (clearPaused d) ∧ (clearPaused d).waiting = d.waiting
      ∧ (clearPaused d).indexing = d.indexing ∧ (clearPaused d).state = d.state
      ∧ (clearPaused d).scanningTimer = d.scanningTimer
      ∧ (clearPaused d).scanningAnimationIndex = d.scanningAnimationIndex := by
  unfold clearPaused
  by_cases h1 : d.downloadSpeed < 0 ∧ d.uploadSpeed < 0 <;>
  cases h2 : d.waiting <;>
  refine ⟨?_, ?_, ?_, ?_, ?_, ?_⟩ <;> first | (constructor <;> simp [h1, h2]) | simp [h1, h2]

theorem updateRunning_state (api : MegaApi) (d : InfoDialog) :
    (updateRunning api d).state =
      if d.waiting = true then DialogState.STATE_WAITING
      else if d.indexing = true then DialogState.STATE_INDEXING
      else DialogState.STATE_UPDATED := by
  obtain ⟨_, hw, hi, _⟩ := clearPaused_same d
  unfold updateRunning
  simp only [hw, hi]
  split_ifs
  · exact updateWaiting_state api _
  · exact updateIndexing_state _
  · exact updateUpdated_state _

theorem resolveState_state (api : MegaApi) (d : InfoDialog) (hl : d.preferences.logged = true) :
    (resolveState api d).state =
      if d.bPause = true then DialogState.STATE_PAUSED
      else if d.waiting = true then DialogState.STATE_WAITING
      else if d.indexing = true then DialogState.STATE_INDEXING
      else DialogState.STATE_UPDATED := by
  unfold resolveState
  by_cases hp : d.bPause = true
  · simp [hp, hl, updatePaused_state]
  · simp [hp, hl, updateRunning_state]

/-! ## Lemmas: counters and texts -/

theorem updateCounters_totals (api : MegaApi) (d : InfoDialog) :
    (updateCounters api d).totalUploads
        = (if api.totalUploads < api.numPendingUploads then api.numPendingUploads
           else api.totalUploads) ∧
    (updateCounters api d).totalDownloads
        = (if api.totalDownloads < api.numPendingDownloads then api.numPendingDownloads
           else api.totalDownloads) := by
  unfold updateCounters
  simp only
  split_ifs <;> exact ⟨rfl, rfl⟩

theorem updateCounters_current (api : MegaApi) (d : InfoDialog) :
    (updateCounters api d).currentDownload
        = toInt32 ((updateCounters api d).totalDownloads
            - (updateCounters api d).remainingDownloads + 1) ∧
    (updateCounters api d).currentUpload
        = toInt32 ((updateCounters api d).totalUploads
            - (updateCounters api d).remainingUploads + 1) :=
  ⟨rfl, rfl⟩

/-- The counters after `updateTransfers`. -/
theorem updateTransfers_counters (f : Int → String) (api : MegaApi) (d r : InfoDialog)
    (hr : updateTransfers f api d = some r) :
    r.remainingUploads = api.numPendingUploads
      ∧ r.remainingDownloads = api.numPendingDownloads
      ∧ r.totalUploads = (if api.totalUploads < api.numPendingUploads
          then api.numPendingUploads else api.totalUploads)
      ∧ r.totalDownloads = (if api.totalDownloads < api.numPendingDownloads
          then api.numPendingDownloads else api.totalDownloads)
      ∧ r.currentDownload = toInt32 (r.totalDownloads - r.remainingDownloads + 1)
      ∧ r.currentUpload = toInt32 (r.totalUploads - r.remainingUploads + 1) := by
  obtain ⟨_, _, hc⟩ := updateTransfers_same f api d r hr
  obtain ⟨hu, hd⟩ := updateCounters_remaining api d
  obtain ⟨tu, td⟩ := updateCounters_totals api d
  obtain ⟨cd, cu⟩ := updateCounters_current api d
  refine ⟨hc.remainingUploads.trans hu, hc.remainingDownloads.trans hd,
    hc.totalUploads.trans tu, hc.totalDownloads.trans td, ?_, ?_⟩
  · rw [hc.currentDownload, hc.totalDownloads, hc.remainingDownloads]; exact cd
  · rw [hc.currentUpload, hc.totalUploads, hc.remainingUploads]; exact cu

theorem downloadString_spec (f : Int → String) (d : InfoDialog) :
    ProgressTextSpec f (downloadString f d)
      (d.activeDownloadState = TransferState.STATE_PAUSED ∨ d.preferences.downloadsPaused = true)
      d.downloadSpeed d.currentDownload d.totalDownloads := by
  unfold downloadString pausedPattern pattern invalidSpeedPattern
  constructor
  · intro h
    rcases h with h | h
    · rw [if_pos h]
    · split_ifs <;> first | rfl | omega
  · intro hp hs
    rw [if_neg hp, if_pos hs]
  · intro hp h0 hs
    rw [if_neg hp, if_neg (by omega), if_pos h0]
  · by_cases hp : d.activeDownloadState = TransferState.STATE_PAUSED
        ∨ d.preferences.downloadsPaused = true
    · exact Or.inl (Or.inl hp)
    · by_cases h0 : d.downloadSpeed < 0
      · exact Or.inl (Or.inr h0)
      · by_cases hs : 20000 ≤ d.downloadSpeed
        · exact Or.inr (Or.inl ⟨hp, hs⟩)
        · exact Or.inr (Or.inr ⟨hp, by omega, by omega⟩)
  · refine ⟨?_, ?_, ?_⟩
    · rintro ⟨h | h, hp, hs⟩
      · exact hp h
      · omega
    · rintro ⟨h | h, hp, h0, hs⟩
      · exact hp h
      · omega
    · rintro ⟨⟨_, hs⟩, _, _, hs'⟩
      omega

theorem uploadString_spec (f : Int → String) (d : InfoDialog) :
    ProgressTextSpec f (uploadString f d)
      (d.activeUploadState = TransferState.STATE_PAUSED ∨ d.preferences.uploadsPaused = true)
      d.uploadSpeed d.currentUpload d.totalUploads := by
  unfold uploadString pausedPattern pattern invalidSpeedPattern
  constructor
  · intro h
    rcases h with h | h
    · rw [if_pos h]
    · split_ifs <;> first | rfl | omega
  · intro hp hs
    rw [if_neg hp, if_pos hs]
  · intro hp h0 hs
    rw [if_neg hp, if_neg (by omega), if_pos h0]
  · by_cases hp : d.activeUploadState = TransferState.STATE_PAUSED
        ∨ d.preferences.uploadsPaused = true
    · exact Or.inl (Or.inl hp)
    · by_cases h0 : d.uploadSpeed < 0
      · exact Or.inl (Or.inr h0)
      · by_cases hs : 20000 ≤ d.uploadSpeed
        · exact Or.inr (Or.inl ⟨hp, hs⟩)
        · exact Or.inr (Or.inr ⟨hp, by omega, by omega⟩)
  · refine ⟨?_, ?_, ?_⟩
    · rintro ⟨h | h, hp, hs⟩
      · exact hp h
      · omega
    · rintro ⟨h | h, hp, h0, hs⟩
      · exact hp h
      · omega
    · rintro ⟨⟨_, hs⟩, _, _, hs'⟩
      omega

/-! ## Lemmas: the remaining time -/

set_option maxRecDepth 100000 in
theorem argZeroFilled_twoDigits_fin :
    ∀ n : Fin 100, argZeroFilled (n.val : Int) 2 = twoDigits n.val := by decide

theorem argZeroFilled_twoDigits (n : Nat) (h : n < 100) :
    argZeroFilled (n : Int) 2 = twoDigits n :=
  argZeroFilled_twoDigits_fin ⟨n, h⟩

theorem toInt32_of_small (q : Int) (h0 : 0 ≤ q) (h : q ≤ 359999) :
    toInt32 (toInt64 q) = q := by
  unfold toInt32 toInt64
  omega

theorem remainingTimeText_hhmmss (n : Nat) (h0 : 0 < n) (h : n ≤ 359999) :
    remainingTimeText (n : Int) = hhmmss (n / 3600) (n % 3600 / 60) (n % 60) := by
  unfold remainingTimeText hhmmss
  have e1 : Int.tdiv (n : Int) 3600 = ((n / 3600 : Nat) : Int) := (Int.ofNat_tdiv n 3600).symm
  have hh : n / 3600 < 100 := by omega
  have c : ¬ ((((n / 3600 : Nat) : Int) < 0) ∨ (((n / 3600 : Nat) : Int) > 99)) := by omega
  have hn : ¬ ((n : Int) = 0) := by omega
  simp only [e1, c, if_false, ne_eq, hn, not_false_eq_true, if_true]
  have e0 : Int.tmod (n : Int) 3600 = ((n % 3600 : Nat) : Int) := (Int.ofNat_tmod n 3600).symm
  have e2 : Int.tdiv (Int.tmod (n : Int) 3600) 60 = ((n % 3600 / 60 : Nat) : Int) := by
    rw [e0]; exact (Int.ofNat_tdiv _ 60).symm
  have e3 : Int.tmod (n : Int) 60 = ((n % 60 : Nat) : Int) := (Int.ofNat_tmod n 60).symm
  rw [e2, e3, argZeroFilled_twoDigits _ hh, argZeroFilled_twoDigits _ (by omega),
    argZeroFilled_twoDigits _ (by omega)]

theorem remainingTimeText_zero : remainingTimeText 0 = noRemainingTime := by decide


/-! ## Lemmas: the three blocks of `transferFinished` -/

theorem updateGuestPaused_finish (d : InfoDialog) : SameFinish d (updateGuestPaused d) := by
  unfold updateGuestPaused
  split_ifs <;> constructor <;> rfl

theorem updateGuestRunning_finish (d : InfoDialog) : SameFinish d (updateGuestRunning d) := by
  unfold updateGuestRunning
  simp only
  split_ifs <;> constructor <;> rfl

theorem updatePaused_finish (d : InfoDialog) : SameFinish d (updatePaused d) := by
  by_cases h1 : d.state = DialogState.STATE_PAUSED <;>
  cases h2 : d.scanningTimer.isActive <;>
  by_cases h3 : d.sActiveTransfers = Page.pUpdated <;>
  constructor <;> simp [updatePaused, h1, h2, h3]

theorem updateWaiting_finish (api : MegaApi) (d : InfoDialog) :
    SameFinish d (updateWaiting api d) := by
  by_cases h1 : d.state = DialogState.STATE_WAITING <;>
  cases h2 : d.scanningTimer.isActive <;>
  constructor <;> simp [updateWaiting, h1, h2]

theorem updateIndexing_finish (d : InfoDialog) : SameFinish d (updateIndexing d) := by
  by_cases h1 : d.state = DialogState.STATE_INDEXING <;>
  cases h2 : d.scanningTimer.isActive <;>
  constructor <;> simp [updateIndexing, h1, h2]

theorem updateUpdated_finish (d : InfoDialog) : SameFinish d (updateUpdated d) := by
  by_cases h1 : d.state = DialogState.STATE_UPDATED <;>
  cases h2 : d.scanningTimer.isActive <;>
  constructor <;> simp [updateUpdated, h1, h2]

theorem updateRunning_finish (api : MegaApi) (d : InfoDialog) :
    SameFinish d (updateRunning api d) := by
  obtain ⟨hx, _⟩ := clearPaused_same d
  unfold updateRunning
  simp only
  split_ifs
  · exact sameFinish_trans hx (updateWaiting_finish api _)
  · exact sameFinish_trans hx (updateIndexing_finish _)
  · exact sameFinish_trans hx (updateUpdated_finish _)

theorem resolveState_finish (api : MegaApi) (d : InfoDialog) :
    SameFinish d (resolveState api d) := by
  unfold resolveState
  split_ifs
  · exact updateGuestPaused_finish d
  · exact updatePaused_finish d
  · exact updateGuestRunning_finish d
  · exact updateRunning_finish api d

/-- What `updateState` returns is the state resolved after `updateTransfers`. -/
theorem updateState_eq_some (f : Int → String) (api : MegaApi) (d r : InfoDialog)
    (hr : updateState f api d = some r) :
    ∃ t, updateTransfers f api d = some t ∧ r = resolveState api t := by
  obtain ⟨t, ht, e⟩ := Option.bind_eq_some.mp hr
  exact ⟨t, ht, (Option.some.inj e).symm⟩

/-- `updateState` returns when the quotients fit and, in guest mode, the guest widget
exists. -/
theorem updateState_returns (f : Int → String) (api : MegaApi) (d : InfoDialog)
    (hs : SafeToUpdate d) : ∃ r, updateState f api d = some r := by
  obtain ⟨t, ht⟩ := updateTransfers_returns f api d hs
  exact ⟨resolveState api t, by simp [updateState, ht]⟩

theorem updateState_finish (f : Int → String) (api : MegaApi) (d r : InfoDialog)
    (hr : updateState f api d = some r) : SameFinish d r := by
  obtain ⟨t, ht, rfl⟩ := updateState_eq_some f api d r hr
  exact sameFinish_trans (updateTransfers_same f api d t ht).1.toSameFinish
    (resolveState_finish api t)


/-! ## Lemmas: the debounce invariant -/

/-! ## Lemmas: the extension of a file name and the table of icons -/
theorem afterLast_cons (c x : Char) (rest : List Char) :
    afterLast c (x :: rest) =
      (afterLast c rest).orElse fun _ => if x = c then some rest else none := by
  simp only [afterLast]
  cases afterLast c rest <;> rfl

theorem afterLast_append (c : Char) (a b : List Char) :
    afterLast c (a ++ b) =
      (afterLast c b).orElse fun _ => (afterLast c a).map fun t => t ++ b := by
  induction a with
  | nil => cases h : afterLast c b <;> simp [afterLast, h]
  | cons x a ih =>
    rw [List.cons_append, afterLast_cons, afterLast_cons, ih]
    cases afterLast c b <;> cases afterLast c a <;> simp

theorem afterLast_eq_none (c : Char) (l : List Char) : afterLast c l = none ↔ c ∉ l := by
  induction l with
  | nil => simp [afterLast]
  | cons x l ih =>
    simp only [afterLast, List.mem_cons, not_or]
    cases h : afterLast c l with
    | some t =>
      have : ¬ c ∉ l := fun hn => by simp [ih.mpr hn] at h
      simp [this]
    | none =>
      have := ih.mp h
      by_cases hx : x = c
      · simp [hx]
      · simp [hx, this, Ne.symm hx]

theorem afterLast_some (c : Char) (l t : List Char) (h : afterLast c l = some t) :
    c ∉ t ∧ ∃ pre, l = pre ++ c :: t := by
  induction l with
  | nil => simp [afterLast] at h
  | cons x l ih =>
    simp only [afterLast] at h
    cases hl : afterLast c l with
    | some u =>
      rw [hl] at h
      simp only [Option.some.injEq] at h
      subst h
      obtain ⟨h1, pre, h2⟩ := ih hl
      exact ⟨h1, x :: pre, by simp [h2]⟩
    | none =>
      rw [hl] at h
      by_cases hx : x = c
      · simp only [hx, if_true, Option.some.injEq] at h
        subst h
        exact ⟨(afterLast_eq_none c l).mp hl, [], by simp [hx]⟩
      · simp [hx] at h

theorem suffix_eq (file : String) :
    suffix file = if '/' ∈ (afterLastDot file).data then "" else afterLastDot file := by
  unfold suffix afterLastDot fileName
  cases hd : afterLast '.' file.data with
  | none =>
    have nd := (afterLast_eq_none _ _).mp hd
    cases hs : afterLast '/' file.data with
    | none => simp [hd]
    | some name =>
      obtain ⟨_, pre, e⟩ := afterLast_some _ _ _ hs
      have : '.' ∉ name := fun hm => nd (by rw [e]; simp [hm])
      simp [(afterLast_eq_none _ _).mpr this]
  | some r =>
    obtain ⟨nr, pre, e⟩ := afterLast_some _ _ _ hd
    have hr : afterLast '.' ('.' :: r) = some r := by
      simp [afterLast, (afterLast_eq_none _ _).mpr nr]
    by_cases hm : '/' ∈ r
    · cases hs : afterLast '/' r with
      | none => exact absurd ((afterLast_eq_none _ _).mp hs) (not_not.mpr hm)
      | some r2 =>
        obtain ⟨_, pre2, e2⟩ := afterLast_some _ _ _ hs
        have h2 : afterLast '/' file.data = some r2 := by
          rw [e, afterLast_append]; simp [afterLast, hs]
        have : '.' ∉ r2 := fun hh => nr (by rw [e2]; simp [hh])
        simp [h2, hm, (afterLast_eq_none _ _).mpr this]
    · have hs : afterLast '/' ('.' :: r) = none := by
        simp [afterLast, (afterLast_eq_none _ _).mpr hm]
      have h2 : afterLast '/' file.data = (afterLast '/' pre).map fun t => t ++ '.' :: r := by
        rw [e, afterLast_append, hs]; rfl
      cases hp : afterLast '/' pre with
      | none => simp [h2, hp, hd, hm]
      | some p2 =>
        have : afterLast '.' (p2 ++ '.' :: r) = some r := by rw [afterLast_append, hr]; rfl
        simp [h2, hp, this, hm]

theorem toLower_slash (c : Char) (h : Char.toLower c = '/') : c = '/' := by
  by_cases hc : c.toNat ≥ 65 ∧ c.toNat ≤ 90
  · exfalso
    have e : c = Char.ofNat c.toNat := (Char.ofNat_toNat c).symm
    obtain ⟨h1, h2⟩ := hc
    generalize c.toNat = n at e h1 h2
    subst e
    revert h
    interval_cases n <;> decide
  · simpa [Char.toLower, hc] using h

theorem toLower_mem_slash (text : String) :
    '/' ∈ (toLower text).data ↔ '/' ∈ text.data := by
  simp only [toLower, List.mem_map]
  constructor
  · rintro ⟨c, hc, e⟩
    rwa [← toLower_slash c e]
  · intro h
    exact ⟨'/', h, by decide⟩

theorem suffix_congr (f g : String)
    (h : toLower (afterLastDot f) = toLower (afterLastDot g)) :
    toLower (suffix f) = toLower (suffix g) := by
  have hs : '/' ∈ (afterLastDot f).data ↔ '/' ∈ (afterLastDot g).data := by
    rw [← toLower_mem_slash, ← toLower_mem_slash (afterLastDot g), h]
  rw [suffix_eq, suffix_eq]
  by_cases hf : '/' ∈ (afterLastDot f).data
  · rw [if_pos hf, if_pos (hs.mp hf)]
  · rw [if_neg hf, if_neg (fun hg => hf (hs.mpr hg)), h]

theorem afterLastDot_empty (file : String)
    (h : '.' ∉ file.data ∨ afterLastDot file = "" ∨ file = "") : afterLastDot file = "" := by
  rcases h with h | h | h
  · simp [afterLastDot, (afterLast_eq_none _ _).mpr h]
  · exact h
  · subst h; rfl

theorem suffix_empty (file : String) (h : afterLastDot file = "") : suffix file = "" := by
  rw [suffix_eq, h]; rfl

theorem index_of_contains (hash : QHash) (key : String) (h : hash.contains key = true) :
    hash.index key = (hash.value key, hash) := by
  simp [QHash.index, h]

theorem getExtensionPixmap_filled (icons : QHash) (file prefixText : String)
    (h : icons.isEmpty = false) :
    getExtensionPixmap icons file prefixText =
      (if icons.contains (toLower (suffix file)) then
          prefixText ++ icons.value (toLower (suffix file))
        else prefixText ++ "generic.png", icons) := by
  unfold getExtensionPixmap
  simp only [h, Bool.false_eq_true, if_false]
  by_cases hc : icons.contains (toLower (suffix file)) = true
  · simp [hc, index_of_contains _ _ hc]
  · simp [hc]

theorem initializeExtensions_filled :
    (initializeExtensions extensionIcons).isEmpty = false := by decide

theorem getExtensionPixmap_first (file prefixText : String) :
    getExtensionPixmap extensionIcons file prefixText =
      getExtensionPixmap (initializeExtensions extensionIcons) file prefixText := by
  rw [getExtensionPixmap_filled _ _ _ initializeExtensions_filled]
  have e : extensionIcons.isEmpty = true := rfl
  unfold getExtensionPixmap
  simp only [e, if_true]
  by_cases hc : (initializeExtensions extensionIcons).contains (toLower (suffix file)) = true
  · simp [hc, index_of_contains _ _ hc]
  · simp [hc]

set_option maxRecDepth 100000 in
theorem initializeExtensions_no_empty_key :
    (initializeExtensions extensionIcons).contains "" = false := by decide

set_option maxRecDepth 100000 in
theorem initializeExtensions_keys_all :
    (initializeExtensions extensionIcons).all (fun entry => !entry.1.data.elem '/') = true := by
  decide

theorem initializeExtensions_keys :
    ∀ entry ∈ initializeExtensions extensionIcons, '/' ∉ entry.1.data := by
  intro entry hm
  have := List.all_eq_true.mp initializeExtensions_keys_all entry hm
  simpa using this

theorem contains_no_slash (key : String)
    (h : (initializeExtensions extensionIcons).contains key = true) : '/' ∉ key.data := by
  simp only [QHash.contains, List.any_eq_true, beq_iff_eq] at h
  obtain ⟨entry, hm, e⟩ := h
  exact e ▸ initializeExtensions_keys entry hm


/-! ## Lemmas: the list of recent files -/

theorem take_three_append {α : Type} (l : List α) (a b c x : α) :
    (l ++ [a, b, c, x]).take 3 = (l ++ [a, b, c]).take 3 := by
  match l with
  | [] => rfl
  | [_] => rfl
  | [_, _] => rfl
  | _ :: _ :: _ :: _ => rfl

theorem updateRecentFiles_recentFiles (d : InfoDialog) :
    (updateRecentFiles d).recentFiles = d.recentFiles := by
  unfold updateRecentFiles
  cases h : d.recentFilesTimer.isActive <;> simp [InfoDialog.recentFiles]

theorem addRecentFile_recentFiles (fileName : String) (fileHandle : Int)
    (localPath nodeKey : String) (now : Int) (d : InfoDialog) :
    (addRecentFile fileName fileHandle localPath nodeKey now d).recentFiles =
      [some { fileName := fileName, fileHandle := fileHandle, localPath := localPath,
              nodeKey := nodeKey, dateTime := now },
        d.wRecent1.getFileInfo, d.wRecent2.getFileInfo] := by
  unfold addRecentFile
  simp only [updateRecentFiles_recentFiles]
  rfl

theorem clearRecentFiles_recentFiles (d : InfoDialog) :
    (clearRecentFiles d).recentFiles = [none, none, none] := by
  unfold clearRecentFiles
  simp only [updateRecentFiles_recentFiles]
  rfl

theorem addRecentFiles_recentFiles (entries : List RecentFileInfo) (d : InfoDialog) :
    (addRecentFiles entries d).recentFiles =
      (entries.reverse.map some ++ d.recentFiles).take 3 := by
  induction entries generalizing d with
  | nil => rfl
  | cons entry entries ih =>
    rw [addRecentFiles, ih, addRecentFile_recentFiles]
    simp only [List.reverse_cons, List.map_append, List.map_cons, List.map_nil,
      List.append_assoc, List.singleton_append, InfoDialog.recentFiles]
    exact (take_three_append _ _ _ _ _).symm

/-! ## Lemmas: the counters after the finished handlers -/

theorem sameFlags_trans {a b c : InfoDialog} (h₁ : SameFlags a b) (h₂ : SameFlags b c) :
    SameFlags a c :=
  ⟨h₂.bPause.trans h₁.bPause, h₂.waiting.trans h₁.waiting, h₂.indexing.trans h₁.indexing,
    h₂.preferences.trans h₁.preferences⟩

theorem sameAnimation_trans {a b c : InfoDialog} (h₁ : SameAnimation a b)
    (h₂ : SameAnimation b c) : SameAnimation a c :=
  ⟨h₂.state.trans h₁.state, h₂.scanningTimer.trans h₁.scanningTimer,
    h₂.scanningAnimationIndex.trans h₁.scanningAnimationIndex,
    h₂.lSyncUpdated.trans h₁.lSyncUpdated, h₂.label.trans h₁.label⟩

theorem sameSpeeds_trans {a b c : InfoDialog} (h₁ : SameSpeeds a b) (h₂ : SameSpeeds b c) :
    SameSpeeds a c :=
  ⟨h₂.downloadSpeed.trans h₁.downloadSpeed, h₂.uploadSpeed.trans h₁.uploadSpeed⟩

theorem sameStatus_flags {d r : InfoDialog} (h : SameStatus d r) :
    SameFlags d r ∧ SameAnimation d r ∧ SameSpeeds d r :=
  ⟨⟨h.bPause, h.waiting, h.indexing, h.preferences⟩,
    ⟨h.state, h.scanningTimer, h.scanningAnimationIndex, h.lSyncUpdated, h.label⟩,
    ⟨h.downloadSpeed, h.uploadSpeed⟩⟩

theorem selectedState_congr {d r : InfoDialog} (h : SameFlags d r) :
    selectedState r = selectedState d := by
  unfold selectedState
  rw [h.bPause, h.waiting, h.indexing]

theorem scanningWhileIndexing_congr {d r : InfoDialog} (h : SameAnimation d r)
    (hd : ScanningWhileIndexing d) : ScanningWhileIndexing r := by
  unfold ScanningWhileIndexing
  rw [h.scanningTimer, h.state]
  exact hd

theorem updateGuestPaused_status (d : InfoDialog) :
    SameFlags d (updateGuestPaused d) ∧ SameAnimation d (updateGuestPaused d)
      ∧ SameSpeeds d (updateGuestPaused d) := by
  cases h1 : d.hasGWidget <;> cases h2 : d.gWidget.idleState <;>
    simp [updateGuestPaused, h1, h2, sameFlags_iff, sameAnimation_iff, sameSpeeds_iff]

theorem updateGuestRunning_status (d : InfoDialog) :
    SameFlags d (updateGuestRunning d) ∧ SameAnimation d (updateGuestRunning d)
      ∧ SameSpeeds d (updateGuestRunning d) := by
  cases h1 : d.hasGWidget <;> cases h2 : d.gWidget.transfer.isActive <;>
    simp [updateGuestRunning, h1, h2, sameFlags_iff, sameAnimation_iff, sameSpeeds_iff]

theorem clearPaused_status (d : InfoDialog) :
    SameFlags d (clearPaused d) ∧ SameAnimation d (clearPaused d)
      ∧ (clearPaused d).downloadSpeed
          = (if d.downloadSpeed < 0 ∧ d.uploadSpeed < 0 then 0 else d.downloadSpeed)
      ∧ (clearPaused d).uploadSpeed
          = (if d.downloadSpeed < 0 ∧ d.uploadSpeed < 0 then 0 else d.uploadSpeed) := by
  unfold clearPaused
  by_cases h1 : d.downloadSpeed < 0 ∧ d.uploadSpeed < 0 <;> cases h2 : d.waiting <;>
    simp [h1, h2, sameFlags_iff, sameAnimation_iff]

theorem stop_isActive (t : QTimer) : t.stop.isActive = false := rfl

theorem start_isActive (t : QTimer) : t.start.isActive = true := rfl

theorem stop_singleShot (t : QTimer) : t.stop.singleShot = t.singleShot := rfl

theorem start_singleShot (t : QTimer) : t.start.singleShot = t.singleShot := rfl

theorem updatePaused_status (d : InfoDialog) :
    SameFlags d (updatePaused d)
      ∧ (updatePaused d).downloadSpeed = -1 ∧ (updatePaused d).uploadSpeed = -1
      ∧ (d.state = DialogState.STATE_PAUSED → SameAnimation d (updatePaused d))
      ∧ (d.scanningTimer.singleShot = false →
          (d.state = DialogState.STATE_PAUSED → ScanningWhileIndexing d) →
          ScanningWhileIndexing (updatePaused d)) := by
  by_cases h1 : d.state = DialogState.STATE_PAUSED <;>
  cases h2 : d.scanningTimer.isActive <;>
  by_cases h3 : d.sActiveTransfers = Page.pUpdated <;>
  simp [updatePaused, h1, h2, h3, sameFlags_iff, sameAnimation_iff, ScanningWhileIndexing,
    stop_isActive, stop_singleShot]

theorem updateWaiting_status (api : MegaApi) (d : InfoDialog) :
    SameFlags d (updateWaiting api d) ∧ SameSpeeds d (updateWaiting api d)
      ∧ (d.state = DialogState.STATE_WAITING → SameAnimation d (updateWaiting api d))
      ∧ (d.scanningTimer.singleShot = false →
          (d.state = DialogState.STATE_WAITING → ScanningWhileIndexing d) →
          ScanningWhileIndexing (updateWaiting api d)) := by
  by_cases h1 : d.state = DialogState.STATE_WAITING <;>
  cases h2 : d.scanningTimer.isActive <;>
  simp [updateWaiting, h1, h2, sameFlags_iff, sameAnimation_iff, sameSpeeds_iff,
    ScanningWhileIndexing, stop_isActive, stop_singleShot]

theorem updateIndexing_status (d : InfoDialog) :
    SameFlags d (updateIndexing d) ∧ SameSpeeds d (updateIndexing d)
      ∧ (d.state = DialogState.STATE_INDEXING → SameAnimation d (updateIndexing d))
      ∧ (d.scanningTimer.singleShot = false →
          (d.state = DialogState.STATE_INDEXING → ScanningWhileIndexing d) →
          ScanningWhileIndexing (updateIndexing d)) := by
  by_cases h1 : d.state = DialogState.STATE_INDEXING <;>
  cases h2 : d.scanningTimer.isActive <;>
  simp [updateIndexing, h1, h2, sameFlags_iff, sameAnimation_iff, sameSpeeds_iff,
    ScanningWhileIndexing, start_isActive, start_singleShot]

theorem updateUpdated_status (d : InfoDialog) :
    SameFlags d (updateUpdated d) ∧ SameSpeeds d (updateUpdated d)
      ∧ (d.state = DialogState.STATE_UPDATED → SameAnimation d (updateUpdated d))
      ∧ (d.scanningTimer.singleShot = false →
          (d.state = DialogState.STATE_UPDATED → ScanningWhileIndexing d) →
          ScanningWhileIndexing (updateUpdated d)) := by
  by_cases h1 : d.state = DialogState.STATE_UPDATED <;>
  cases h2 : d.scanningTimer.isActive <;>
  simp [updateUpdated, h1, h2, sameFlags_iff, sameAnimation_iff, sameSpeeds_iff,
    ScanningWhileIndexing, stop_isActive, stop_singleShot]

theorem updateRunning_status (api : MegaApi) (d : InfoDialog) :
    SameFlags d (updateRunning api d)
      ∧ (updateRunning api d).downloadSpeed
          = (if d.downloadSpeed < 0 ∧ d.uploadSpeed < 0 then 0 else d.downloadSpeed)
      ∧ (updateRunning api d).uploadSpeed
          = (if d.downloadSpeed < 0 ∧ d.uploadSpeed < 0 then 0 else d.uploadSpeed)
      ∧ (d.bPause = false → selectedState d = d.state → SameAnimation d (updateRunning api d))
      ∧ (d.scanningTimer.singleShot = false →
          (d.state ≠ DialogState.STATE_STARTING → ScanningWhileIndexing d) →
          ScanningWhileIndexing (updateRunning api d)) := by
  obtain ⟨hf, ha, hs1, hs2⟩ := clearPaused_status d
  have hw := hf.waiting
  have hi := hf.indexing
  have inv : ∀ state : DialogState, state ≠ DialogState.STATE_STARTING →
      (d.state ≠ DialogState.STATE_STARTING → ScanningWhileIndexing d) →
      (clearPaused d).state = state → ScanningWhileIndexing (clearPaused d) :=
    fun state hne hd e =>
      scanningWhileIndexing_congr ha (hd (by rw [← ha.state, e]; exact hne))
  have single : d.scanningTimer.singleShot = false →
      (clearPaused d).scanningTimer.singleShot = false := fun h => by
    rw [ha.scanningTimer]; exact h
  unfold updateRunning selectedState
  simp only [hw, hi]
  cases hw2 : d.waiting
  · cases hi2 : d.indexing
    · obtain ⟨b1, b2, b3, b4⟩ := updateUpdated_status (clearPaused d)
      simp only [Bool.false_eq_true, if_false]
      exact ⟨sameFlags_trans hf b1, b2.downloadSpeed.trans hs1, b2.uploadSpeed.trans hs2,
        fun hp hs => sameAnimation_trans ha (b3 (by rw [ha.state, ← hs, hp]; rfl)),
        fun h hd => b4 (single h) (inv _ (by decide) hd)⟩
    · obtain ⟨b1, b2, b3, b4⟩ := updateIndexing_status (clearPaused d)
      simp only [Bool.false_eq_true, if_false, if_true]
      exact ⟨sameFlags_trans hf b1, b2.downloadSpeed.trans hs1, b2.uploadSpeed.trans hs2,
        fun hp hs => sameAnimation_trans ha (b3 (by rw [ha.state, ← hs, hp]; rfl)),
        fun h hd => b4 (single h) (inv _ (by decide) hd)⟩
  · obtain ⟨b1, b2, b3, b4⟩ := updateWaiting_status api (clearPaused d)
    simp only [if_true]
    exact ⟨sameFlags_trans hf b1, b2.downloadSpeed.trans hs1, b2.uploadSpeed.trans hs2,
      fun hp hs => sameAnimation_trans ha (b3 (by rw [ha.state, ← hs, hp]; rfl)),
      fun h hd => b4 (single h) (inv _ (by decide) hd)⟩

/-- What `updateState` does after `updateTransfers`, in the logged-in mode. -/
theorem resolveState_logged (api : MegaApi) (d : InfoDialog)
    (hl : d.preferences.logged = true) :
    SameFlags d (resolveState api d)
      ∧ (resolveState api d).downloadSpeed
          = (if d.bPause = true then -1
             else if d.downloadSpeed < 0 ∧ d.uploadSpeed < 0 then 0 else d.downloadSpeed)
      ∧ (resolveState api d).uploadSpeed
          = (if d.bPause = true then -1
             else if d.downloadSpeed < 0 ∧ d.uploadSpeed < 0 then 0 else d.uploadSpeed)
      ∧ (selectedState d = d.state → SameAnimation d (resolveState api d))
      ∧ (d.scanningTimer.singleShot = false →
          (d.state ≠ DialogState.STATE_STARTING → ScanningWhileIndexing d) →
          ScanningWhileIndexing (resolveState api d)) := by
  unfold resolveState
  cases hp : d.bPause
  · obtain ⟨b1, b2, b3, b4, b5⟩ := updateRunning_status api d
    simp only [hl, Bool.false_eq_true, if_false, Bool.true_eq_false]
    exact ⟨b1, b2, b3, b4 hp, b5⟩
  · obtain ⟨b1, b2, b3, b4, b5⟩ := updatePaused_status d
    simp only [hl, if_true, Bool.true_eq_false, if_false]
    exact ⟨b1, b2, b3, fun hs => b4 (by rw [← hs]; simp [selectedState, hp]),
      fun h hd => b5 h (fun e => hd (by rw [e]; decide))⟩

/-- What `updateState` does after `updateTransfers`, in the guest mode. -/
theorem resolveState_guest (api : MegaApi) (d : InfoDialog)
    (hl : d.preferences.logged = false) :
    SameFlags d (resolveState api d) ∧ SameAnimation d (resolveState api d)
      ∧ SameSpeeds d (resolveState api d) := by
  unfold resolveState
  cases hp : d.bPause
  · simp only [hl, Bool.false_eq_true, if_false, if_true]
    exact updateGuestRunning_status d
  · simp only [hl, if_true]
    exact updateGuestPaused_status d

theorem updateState_resolve (f : Int → String) (api : MegaApi) (d r : InfoDialog)
    (hr : updateState f api d = some r) :
    ∃ t, SameStatus d t ∧ r = resolveState api t := by
  obtain ⟨t, ht, e⟩ := updateState_eq_some f api d r hr
  exact ⟨t, (updateTransfers_same f api d t ht).1, e⟩

theorem resolveState_selected (api : MegaApi) (d : InfoDialog)
    (hl : d.preferences.logged = true) :
    (resolveState api d).state = selectedState d := by
  rw [resolveState_state api d hl]; rfl

theorem resolveState_twice (api : MegaApi) (t1 t2 : InfoDialog)
    (hs : SameStatus (resolveState api t1) t2) :
    SameAnimation (resolveState api t1) (resolveState api t2)
      ∧ SameSpeeds (resolveState api t1) (resolveState api t2) := by
  obtain ⟨f2, a2, s2⟩ := sameStatus_flags hs
  cases hl : t1.preferences.logged
  · obtain ⟨g1, _, _⟩ := resolveState_guest api t1 hl
    obtain ⟨_, g2, g3⟩ := resolveState_guest api t2
      (by rw [f2.preferences, g1.preferences]; exact hl)
    exact ⟨sameAnimation_trans a2 g2, sameSpeeds_trans s2 g3⟩
  · obtain ⟨g1, d1, u1, _, _⟩ := resolveState_logged api t1 hl
    have hl2 : t2.preferences.logged = true := by
      rw [f2.preferences, g1.preferences]; exact hl
    obtain ⟨_, d2, u2, g4, _⟩ := resolveState_logged api t2 hl2
    have hsel : selectedState t2 = t2.state := by
      rw [selectedState_congr f2, selectedState_congr g1, a2.state,
        resolveState_selected api t1 hl]
    refine ⟨sameAnimation_trans a2 (g4 hsel), ?_, ?_⟩
    · rw [d2, f2.bPause, g1.bPause, s2.downloadSpeed, s2.uploadSpeed, d1, u1]
      cases t1.bPause
      · simp only [Bool.false_eq_true, if_false]
        split_ifs <;> rfl
      · rfl
    · rw [u2, f2.bPause, g1.bPause, s2.downloadSpeed, s2.uploadSpeed, d1, u1]
      cases t1.bPause
      · simp only [Bool.false_eq_true, if_false]
        split_ifs <;> rfl
      · rfl

/-! ## Lemmas: the scanning timer over the events -/

theorem elapse_isActive (ms : Nat) (t : QTimer) : (t.elapse ms).isActive = t.isActive := by
  cases h : t.remaining <;> simp [QTimer.elapse, QTimer.isActive, h]

theorem isActive_of_isDue (t : QTimer) (h : t.isDue = true) : t.isActive = true := by
  simp only [QTimer.isDue, beq_iff_eq] at h
  simp [QTimer.isActive, h]

theorem updateState_scanning (f : Int → String) (api : MegaApi) (d r : InfoDialog)
    (hs : d.scanningTimer.singleShot = false)
    (hd : ScanningWhileIndexing d
      ∨ (d.preferences.logged = true ∧ d.state = DialogState.STATE_STARTING))
    (hr : updateState f api d = some r) : ScanningWhileIndexing r := by
  obtain ⟨t, hst, rfl⟩ := updateState_resolve f api d r hr
  obtain ⟨ft, at_, _⟩ := sameStatus_flags hst
  have single : t.scanningTimer.singleShot = false := by rw [at_.scanningTimer]; exact hs
  cases hl : t.preferences.logged
  · obtain ⟨_, g2, _⟩ := resolveState_guest api t hl
    rcases hd with hd | ⟨hl2, _⟩
    · exact scanningWhileIndexing_congr (sameAnimation_trans at_ g2) hd
    · rw [ft.preferences, hl2] at hl; exact absurd hl (by decide)
  · obtain ⟨_, _, _, _, g5⟩ := resolveState_logged api t hl
    refine g5 single fun hne => ?_
    rcases hd with hd | ⟨_, hst2⟩
    · exact scanningWhileIndexing_congr at_ hd
    · exact absurd (at_.state.trans hst2) hne

theorem changeEvent_scanning (f : Int → String) (retranslateUi : UiTexts → UiTexts)
    (api : MegaApi) (languageChange : Bool) (d r : InfoDialog) (hd : ScanningWhileIndexing d)
    (hr : changeEvent f retranslateUi api languageChange d = some r) :
    ScanningWhileIndexing r := by
  unfold changeEvent at hr
  cases languageChange
  · obtain rfl := Option.some.inj hr
    exact hd
  · simp only [if_true] at hr
    rcases Bool.eq_false_or_eq_true (d.setUiTexts (retranslateUi d.uiTexts)).preferences.logged
      with hl | hl
    · rw [if_pos hl] at hr
      exact updateState_scanning f api
        { d.setUiTexts (retranslateUi d.uiTexts) with state := DialogState.STATE_STARTING } r
        hd.1 (Or.inr ⟨hl, rfl⟩) hr
    · rw [if_neg (by rw [hl]; decide)] at hr
      obtain rfl := Option.some.inj hr
      exact hd

/-- A hidden dialog stays hidden over the events that bear on the status, and each of them
returns. -/
theorem statusEvent_hidden (f : Int → String) (event : StatusEvent) (d : InfoDialog)
    (hv : d.visible = false) :
    ∃ r, event.apply f d = some r ∧ r.visible = false := by
  cases event with
  | setIndexing indexing => exact ⟨_, rfl, hv⟩
  | setWaiting waiting => exact ⟨_, rfl, hv⟩
  | setPaused paused => exact ⟨_, rfl, hv⟩
  | updateState api =>
    obtain ⟨r, hr⟩ := updateState_returns f api d (safeToUpdate_of_hidden d hv)
    exact ⟨r, hr, (updateState_finish f api d r hr).visible.trans hv⟩
  | changeEvent retranslateUi api languageChange =>
    show ∃ r, changeEvent f retranslateUi api languageChange d = some r ∧ r.visible = false
    unfold changeEvent
    cases languageChange
    · exact ⟨d, rfl, hv⟩
    · simp only [if_true]
      split_ifs
      · obtain ⟨r, hr⟩ := updateState_returns f api
          { d.setUiTexts (retranslateUi d.uiTexts) with state := DialogState.STATE_STARTING }
          (safeToUpdate_of_hidden _ hv)
        exact ⟨r, hr, (updateState_finish f api _ r hr).visible.trans hv⟩
      · exact ⟨_, rfl, hv⟩
  | elapse ms => exact ⟨_, rfl, hv⟩
  | scanningTimeout =>
    refine ⟨_, rfl, ?_⟩
    unfold scanningTimeout scanningAnimationStep
    split_ifs
    · exact hv
    · exact hv
  | settings preferences => exact ⟨_, rfl, hv⟩

theorem runStatus_hidden (f : Int → String) (events : List StatusEvent) (d : InfoDialog)
    (hv : d.visible = false) : ∃ r, runStatus f events d = some r := by
  induction events generalizing d with
  | nil => exact ⟨d, rfl⟩
  | cons event events ih =>
    obtain ⟨m, hm, hi⟩ := statusEvent_hidden f event d hv
    obtain ⟨r, hr⟩ := ih m hi
    exact ⟨r, by simp [runStatus, hm, hr]⟩

theorem scanningTimeout_scanning (d : InfoDialog) (hd : ScanningWhileIndexing d) :
    ScanningWhileIndexing (scanningTimeout d) := by
  unfold scanningTimeout
  cases h : d.scanningTimer.isDue
  · exact hd
  · have ha := isActive_of_isDue _ h
    have hi := hd.2.mp ha
    simp only [if_true]
    refine ⟨?_, ?_⟩
    · show d.scanningTimer.timeout.singleShot = false
      simp [QTimer.timeout, hd.1, start_singleShot]
    · show d.scanningTimer.timeout.isActive = true ↔ d.state = DialogState.STATE_INDEXING
      simp [QTimer.timeout, hd.1, start_isActive, hi]

theorem statusEvent_scanning (f : Int → String) (event : StatusEvent) (d r : InfoDialog)
    (hd : ScanningWhileIndexing d) (hr : event.apply f d = some r) :
    ScanningWhileIndexing r := by
  cases event with
  | setIndexing indexing => obtain rfl := Option.some.inj hr; exact hd
  | setWaiting waiting => obtain rfl := Option.some.inj hr; exact hd
  | setPaused paused => obtain rfl := Option.some.inj hr; exact hd
  | updateState api => exact updateState_scanning f api d r hd.1 (Or.inl hd) hr
  | changeEvent retranslateUi api languageChange =>
    exact changeEvent_scanning f retranslateUi api languageChange d r hd hr
  | elapse ms =>
    obtain rfl := Option.some.inj hr
    refine ⟨?_, ?_⟩
    · exact hd.1
    · show (d.scanningTimer.elapse ms).isActive = true ↔ d.state = DialogState.STATE_INDEXING
      rw [elapse_isActive]; exact hd.2
  | scanningTimeout => obtain rfl := Option.some.inj hr; exact scanningTimeout_scanning d hd
  | settings preferences => obtain rfl := Option.some.inj hr; exact hd

theorem runStatus_scanning (f : Int → String) (events : List StatusEvent) (d r : InfoDialog)
    (hd : ScanningWhileIndexing d) (hr : runStatus f events d = some r) :
    ScanningWhileIndexing r := by
  induction events generalizing d with
  | nil => obtain rfl := Option.some.inj hr; exact hd
  | cons event events ih =>
    obtain ⟨m, hm, hr1⟩ := Option.bind_eq_some.mp hr
    exact ih m (statusEvent_scanning f event d m hd hm) hr1

/-! ## Lemmas: the blocked-item text and the guest widget -/

theorem clearPaused_blocked (d : InfoDialog) :
    (clearPaused d).lBlockedItem
      = (if d.waiting = true then d.lBlockedItem else BlockedItemText.empty) := by
  unfold clearPaused
  by_cases h1 : d.downloadSpeed < 0 ∧ d.uploadSpeed < 0 <;> cases h2 : d.waiting <;>
    simp [h1, h2]

theorem updateRunning_blocked (api : MegaApi) (d : InfoDialog) :
    (updateRunning api d).lBlockedItem
      = (if d.waiting = true then blockedItemText api else BlockedItemText.empty) := by
  obtain ⟨hf, _⟩ := clearPaused_status d
  have hb := clearPaused_blocked d
  unfold updateRunning
  simp only [hf.waiting, hf.indexing]
  cases hw : d.waiting
  · rw [hw] at hb
    cases hi : d.indexing
    · simp only [Bool.false_eq_true, if_false]
      by_cases h1 : (clearPaused d).state = DialogState.STATE_UPDATED <;>
      cases h2 : (clearPaused d).scanningTimer.isActive <;>
      simp [updateUpdated, h1, h2, hb]
    · simp only [Bool.false_eq_true, if_false, if_true]
      by_cases h1 : (clearPaused d).state = DialogState.STATE_INDEXING <;>
      cases h2 : (clearPaused d).scanningTimer.isActive <;>
      simp [updateIndexing, h1, h2, hb]
  · simp only [if_true]
    by_cases h1 : (clearPaused d).state = DialogState.STATE_WAITING <;>
    cases h2 : (clearPaused d).scanningTimer.isActive <;>
    simp [updateWaiting, h1, h2]

theorem resolveState_guest_widget (api : MegaApi) (d : InfoDialog)
    (hl : d.preferences.logged = false) :
    ∃ pauseState idleState,
      resolveState api d =
        { d with gWidget := { d.gWidget with pauseState := pauseState,
                                             idleState := idleState } } := by
  rcases Bool.eq_false_or_eq_true d.bPause with hp | hp <;>
  rcases Bool.eq_false_or_eq_true d.hasGWidget with h1 | h1
  · cases h2 : d.gWidget.idleState
    · exact ⟨true, false, by simp [resolveState, updateGuestPaused, hp, hl, h1, h2]⟩
    · exact ⟨false, true, by simp [resolveState, updateGuestPaused, hp, hl, h1, h2]⟩
  · have e : resolveState api d = d := by
      simp [resolveState, updateGuestPaused, hp, hl, h1]
    exact ⟨d.gWidget.pauseState, d.gWidget.idleState, e.trans rfl⟩
  · cases h2 : d.gWidget.transfer.isActive
    · exact ⟨false, true, by simp [resolveState, updateGuestRunning, hp, hl, h1, h2]⟩
    · exact ⟨false, d.gWidget.idleState,
        by simp [resolveState, updateGuestRunning, hp, hl, h1, h2]⟩
  · have e : resolveState api d = d := by
      simp [resolveState, updateGuestRunning, hp, hl, h1]
    exact ⟨d.gWidget.pauseState, d.gWidget.idleState, e.trans rfl⟩

/-! ## Lemmas: machine integers in range -/

theorem toInt32_of_range (x : Int) (h1 : -2 ^ 31 ≤ x) (h2 : x < 2 ^ 31) : toInt32 x = x := by
  unfold toInt32
  omega

theorem toInt64_of_range (x : Int) (h1 : -2 ^ 63 ≤ x) (h2 : x < 2 ^ 63) : toInt64 x = x := by
  unfold toInt64
  omega

theorem lookup_contains (hash : QHash) (key value : String)
    (h : List.lookup key hash = some value) :
    hash.contains key = true ∧ hash.value key = value := by
  refine ⟨?_, by simp [QHash.value, h]⟩
  induction hash with
  | nil => simp at h
  | cons entry hash ih =>
    obtain ⟨k, v⟩ := entry
    by_cases hk : key = k
    · simp [QHash.contains, hk]
    · have hk2 : (key == k) = false := by simpa using hk
      rw [List.lookup_cons, hk2] at h
      have := ih h
      simp only [QHash.contains, List.any_cons, Bool.or_eq_true] at this ⊢
      exact Or.inr this

theorem assign_value (hash : QHash) (key value : String) :
    (hash.assign key value).contains key = true ∧ (hash.assign key value).value key = value :=
  lookup_contains _ key value (by simp [QHash.assign, List.lookup_cons])

set_option maxRecDepth 100000 in
theorem initializeExtensions_html :
    List.lookup "html" (initializeExtensions extensionIcons) = some "web_data.png"
    ∧ List.lookup "dhtml" (initializeExtensions extensionIcons) = some "web_data.png"
    ∧ List.lookup "htm" (initializeExtensions extensionIcons) = some "html.png"
    ∧ List.lookup "xhtml" (initializeExtensions extensionIcons) = some "html.png" := by
  decide

theorem getExtensionPixmap_of_lookup (file prefixText key value : String)
    (hs : toLower (suffix file) = key)
    (h : List.lookup key (initializeExtensions extensionIcons) = some value) :
    (getExtensionPixmap extensionIcons file prefixText).1 = prefixText ++ value
    ∧ (getExtensionPixmap (initializeExtensions extensionIcons) file prefixText).1
        = prefixText ++ value := by
  obtain ⟨hc, hv⟩ := lookup_contains _ key value h
  rw [getExtensionPixmap_first, getExtensionPixmap_filled _ _ _ initializeExtensions_filled, hs,
    hc, hv]
  simp

/-! ## Lemmas: decimal numbers and trimmed texts -/

theorem digitChar_not_space (k : Nat) (h : k < 10) : (Nat.digitChar k).isWhitespace = false := by
  interval_cases k <;> decide

theorem toDigitsCore_head (fuel n : Nat) (ds : List Char)
    (hd : ds = [] ∨ ∃ c xs, ds = c :: xs ∧ c.isWhitespace = false)
    (hf : fuel ≠ 0 ∨ ds ≠ []) :
    ∃ c xs, Nat.toDigitsCore 10 fuel n ds = c :: xs ∧ c.isWhitespace = false := by
  induction fuel generalizing n ds with
  | zero =>
    rcases hd with hd | hd
    · rcases hf with hf | hf
      · exact absurd rfl hf
      · exact absurd hd hf
    · simpa [Nat.toDigitsCore] using hd
  | succ fuel ih =>
    simp only [Nat.toDigitsCore]
    have hc := digitChar_not_space (n % 10) (Nat.mod_lt _ (by decide))
    split_ifs
    · exact ⟨_, _, rfl, hc⟩
    · exact ih _ _ (Or.inr ⟨_, _, rfl, hc⟩) (Or.inr (by simp))

theorem number_head (n : Nat) :
    ∃ c xs, (toString n).data = c :: xs ∧ c.isWhitespace = false := by
  have := toDigitsCore_head (n + 1) n [] (Or.inl rfl) (Or.inl (by simp))
  simpa [toString, Nat.repr, Nat.toDigits, List.asString] using this

theorem number_ofNat (n : Nat) : number (n : Int) = toString n := rfl

theorem dropWhile_reverse_last (l : List Char) (e : Char) (he : e.isWhitespace = false) :
    ((l ++ [e]).reverse.dropWhile Char.isWhitespace).reverse = l ++ [e] := by
  simp [List.dropWhile, he]

theorem trimmed_blank (c e : Char) (middle : List Char) (hc : c.isWhitespace = false)
    (he : e.isWhitespace = false) :
    trimmed (String.mk (' ' :: c :: (middle ++ [e]))) = String.mk (c :: (middle ++ [e])) := by
  unfold trimmed
  have h1 : (' ' :: c :: (middle ++ [e])).dropWhile Char.isWhitespace = c :: (middle ++ [e]) := by
    have hs : Char.isWhitespace ' ' = true := by decide
    simp [List.dropWhile, hs, hc]
  simp only [h1]
  have := dropWhile_reverse_last (c :: middle) e he
  simp only [List.cons_append] at this
  rw [this]

theorem timeItem_eq (n : Nat) (letter : String) :
    timeItem (n : Int) letter = " " ++ itemText n letter := by
  simp [timeItem, itemText, number_ofNat, String.append_assoc]

theorem itemText_data (n : Nat) (letter : String) :
    ∃ c middle, (itemText n letter).data = c :: (middle ++ ['>']) ∧ c.isWhitespace = false := by
  obtain ⟨c, xs, hx, hc⟩ := number_head n
  refine ⟨c, xs ++ " <span style=\"color:#777777; text-decoration:none;\">".data ++ letter.data
    ++ ['<', '/', 's', 'p', 'a', 'n'], ?_, hc⟩
  have e : "</span>".data = ['<', '/', 's', 'p', 'a', 'n', '>'] := rfl
  simp [itemText, String.data_append, hx, e]

theorem trimmed_item (n : Nat) (letter : String) :
    trimmed (" " ++ itemText n letter) = itemText n letter := by
  obtain ⟨c, middle, hd, hc⟩ := itemText_data n letter
  have e1 : " " ++ itemText n letter = String.mk (' ' :: c :: (middle ++ ['>'])) := by
    apply String.ext
    simp [String.data_append, hd]
  have e2 : itemText n letter = String.mk (c :: (middle ++ ['>'])) := String.ext hd
  rw [e1, trimmed_blank c '>' middle hc (by decide), ← e2]

theorem trimmed_items (n k : Nat) (first second : String) :
    trimmed (" " ++ itemText n first ++ (" " ++ itemText k second))
      = itemText n first ++ " " ++ itemText k second := by
  obtain ⟨c, middle, hd, hc⟩ := itemText_data n first
  obtain ⟨c2, middle2, hd2, _⟩ := itemText_data k second
  have e1 : " " ++ itemText n first ++ (" " ++ itemText k second)
      = String.mk (' ' :: c :: ((middle ++ ['>'] ++ [' '] ++ c2 :: middle2) ++ ['>'])) := by
    apply String.ext
    have : " ".data = [' '] := rfl
    simp [String.data_append, hd, hd2, this]
  have e2 : itemText n first ++ " " ++ itemText k second
      = String.mk (c :: ((middle ++ ['>'] ++ [' '] ++ c2 :: middle2) ++ ['>'])) := by
    apply String.ext
    have : " ".data = [' '] := rfl
    simp [String.data_append, hd, hd2, this]
  rw [e1, trimmed_blank c '>' _ hc (by decide), ← e2]

theorem trimmed_empty : trimmed "" = "" := by decide

theorem getTimeString_values (n : Nat) (h : n < 2 ^ 31) :
    Int.tmod (toInt32 (n : Int)) 60 = ((n % 60 : Nat) : Int)
    ∧ toInt32 (Int.tmod (Int.tdiv (n : Int) 60) 60) = ((n / 60 % 60 : Nat) : Int)
    ∧ Int.tmod (toInt32 (Int.tdiv (n : Int) (60 * 60))) 24 = ((n / 3600 % 24 : Nat) : Int)
    ∧ toInt32 (Int.tdiv (n : Int) (60 * 60 * 24)) = ((n / 86400 : Nat) : Int) := by
  have h' : n < 2147483648 := by norm_num at h; exact h
  have e1 : toInt32 (n : Int) = (n : Int) := toInt32_of_range _ (by omega) (by omega)
  have e2 : Int.tdiv (n : Int) 60 = ((n / 60 : Nat) : Int) := (Int.ofNat_tdiv n 60).symm
  have e3 : Int.tdiv (n : Int) (60 * 60) = ((n / 3600 : Nat) : Int) :=
    (Int.ofNat_tdiv n 3600).symm
  have e4 : Int.tdiv (n : Int) (60 * 60 * 24) = ((n / 86400 : Nat) : Int) :=
    (Int.ofNat_tdiv n 86400).symm
  have e5 : Int.tmod (n : Int) 60 = ((n % 60 : Nat) : Int) := (Int.ofNat_tmod n 60).symm
  have e6 : Int.tmod ((n / 60 : Nat) : Int) 60 = ((n / 60 % 60 : Nat) : Int) :=
    (Int.ofNat_tmod (n / 60) 60).symm
  have e7 : Int.tmod ((n / 3600 : Nat) : Int) 24 = ((n / 3600 % 24 : Nat) : Int) :=
    (Int.ofNat_tmod (n / 3600) 24).symm
  refine ⟨by rw [e1, e5], ?_, ?_, ?_⟩
  · rw [e2, e6]; exact toInt32_of_range _ (by omega) (by omega)
  · rw [e3, toInt32_of_range _ (by omega) (by omega), e7]
  · rw [e4]; exact toInt32_of_range _ (by omega) (by omega)

/-! ## Lemmas: searching a text -/

theorem indexOfFrom_cases (pattern : List Char) (text : List Char) (position : Nat) :
    (indexOfFrom pattern text position = -1 ∧ ∀ i ≤ text.length, ¬ pattern <+: text.drop i)
    ∨ ∃ i ≤ text.length, indexOfFrom pattern text position = ((position + i : Nat) : Int)
        ∧ pattern <+: text.drop i ∧ ∀ j < i, ¬ pattern <+: text.drop j := by
  induction text generalizing position with
  | nil =>
    by_cases hp : pattern = []
    · exact Or.inr ⟨0, le_refl _, by simp [indexOfFrom, hp], by simp [hp], by simp⟩
    · refine Or.inl ⟨by simp [indexOfFrom, hp], fun i _ => ?_⟩
      simpa using hp
  | cons c rest ih =>
    by_cases hc : pattern.isPrefixOf (c :: rest) = true
    · exact Or.inr ⟨0, Nat.zero_le _, by simp [indexOfFrom, hc],
        by simpa using List.isPrefixOf_iff_prefix.mp hc, by simp⟩
    · have hn : ¬ pattern <+: c :: rest := fun h => hc (List.isPrefixOf_iff_prefix.mpr h)
      rcases ih (position + 1) with ⟨e, none⟩ | ⟨i, hi, e, found, least⟩
      · refine Or.inl ⟨by simp [indexOfFrom, hc, e], fun i hi => ?_⟩
        cases i with
        | zero => simpa using hn
        | succ i => simpa using none i (by simpa using hi)
      · refine Or.inr ⟨i + 1, by simpa using hi, ?_, by simpa using found, fun j hj => ?_⟩
        · simp only [indexOfFrom, hc, Bool.false_eq_true, if_false, e]
          congr 1
          omega
        · cases j with
          | zero => simpa using hn
          | succ j => simpa using least j (by omega)

theorem indexOfFrom_first (pattern before after text : List Char)
    (h : FirstOccurrence pattern before after text) :
    indexOfFrom pattern text 0 = (before.length : Int) := by
  obtain ⟨e, first⟩ := h
  have hb : pattern <+: text.drop before.length := by
    rw [e, List.append_assoc, List.drop_left]
    exact List.prefix_append _ _
  rcases indexOfFrom_cases pattern text 0 with ⟨_, none⟩ | ⟨i, hi, ei, found, least⟩
  · exact absurd hb (none _ (by rw [e]; simp))
  · obtain ⟨after2, e2⟩ := found
    have h1 : before.length ≤ i := by
      have := first (text.take i) after2
        (by rw [List.append_assoc, e2, List.take_append_drop])
      simpa [List.length_take, Nat.min_eq_left hi] using this
    have h2 : ¬ before.length < i := fun hlt => least _ hlt hb
    rw [ei]
    congr 1
    omega

theorem indexOfFrom_absent (pattern text : List Char) (h : ¬ pattern <:+: text) :
    indexOfFrom pattern text 0 = -1 := by
  rcases indexOfFrom_cases pattern text 0 with ⟨e, _⟩ | ⟨i, _, _, found, _⟩
  · exact e
  · exact absurd ((found.isInfix).trans (List.drop_suffix i text).isInfix) h

theorem indexOfFrom_char (c : Char) (value after : List Char) (position : Nat)
    (h : c ∉ value) :
    indexOfFrom [c] (value ++ c :: after) position = ((position + value.length : Nat) : Int) := by
  induction value generalizing position with
  | nil => simp [indexOfFrom, List.isPrefixOf]
  | cons x value ih =>
    have hx : ¬ c = x := fun e => h (by simp [e])
    have hv : c ∉ value := fun hm => h (by simp [hm])
    have e : indexOfFrom [c] (x :: (value ++ c :: after)) position
        = indexOfFrom [c] (value ++ c :: after) (position + 1) := by
      simp [indexOfFrom, List.isPrefixOf, hx]
    rw [List.cons_append, e, ih (position + 1) hv, List.length_cons]
    congr 1
    omega

theorem indexOfFrom_char_absent (c : Char) (text : List Char) (position : Nat)
    (h : c ∉ text) : indexOfFrom [c] text position = -1 := by
  induction text generalizing position with
  | nil => simp [indexOfFrom]
  | cons x text ih =>
    have hx : ¬ c = x := fun e => h (by simp [e])
    have hv : c ∉ text := fun hm => h (by simp [hm])
    simp [indexOfFrom, List.isPrefixOf, hx, ih (position + 1) hv]

theorem indexOf_zero (text pattern : String) :
    indexOf text pattern 0 = indexOfFrom pattern.data text.data 0 := by
  simp [indexOf]

theorem indexOf_after (text pattern : String) (start : Nat) (h : start ≤ text.length) :
    indexOf text pattern (start : Int)
      = indexOfFrom pattern.data (text.data.drop start) start := by
  have h1 : ¬ ((start : Int) < 0) := by omega
  have h2 : ¬ ((start : Int) > (text.length : Int)) := by omega
  simp [indexOf, h1, h2]

theorem mid_inside (text : String) (start n : Nat) (h : start + n ≤ text.length) :
    mid text (start : Int) (n : Int) = String.mk ((text.data.drop start).take n) := by
  have h1 : ¬ ((start : Int) > (text.length : Int)) := by omega
  have h2 : ¬ ((n : Int) < 0 ∨ (n : Int) > (text.length : Int) - (start : Int)) := by omega
  simp [mid, h1, h2]

theorem drop_after (before pattern after : List Char) :
    (before ++ pattern ++ after).drop (before.length + pattern.length) = after := by
  rw [← List.length_append]
  exact List.drop_left _ _

theorem quote_data : "\"".data = [quote] := by decide

theorem first_position (json pattern : String) (before after : List Char)
    (h : FirstOccurrence pattern.data before after json.data) :
    indexOf json pattern 0 = (before.length : Int)
    ∧ json.length = before.length + pattern.length + after.length
    ∧ json.data.drop (before.length + pattern.length) = after := by
  refine ⟨by rw [indexOf_zero, indexOfFrom_first _ _ _ _ h], ?_, ?_⟩
  · show json.data.length = before.length + pattern.data.length + after.length
    rw [h.1]
    simp only [List.length_append]
  · show json.data.drop (before.length + pattern.data.length) = after
    rw [h.1]
    exact drop_after _ _ _

theorem indexOf_absent (json pattern : String) (h : ¬ pattern.data <:+: json.data) :
    indexOf json pattern 0 = -1 := by
  rw [indexOf_zero, indexOfFrom_absent _ _ h]

/-! ## Lemmas: runs of digits -/

/-- C1: in logged-in mode, whatever the previous `state` and whatever the pause toggle, the
`waiting` flag and the `indexing` flag, every call of `updateState` that returns leaves `state`
equal to `STATE_PAUSED` if the pause toggle is checked, else `STATE_WAITING` if `waiting` is
set, else `STATE_INDEXING` if `indexing` is set, else `STATE_UPDATED`.  The call returns when
the dialog is hidden, and when it is visible and neither quotient of remaining bytes by mean
speed is that of the least `long long` by -1, the one division that traps. -/
theorem updateState_priority (f : Int → String) (api : MegaApi) (d : InfoDialog)
    (hl : d.preferences.logged = true) :
    (SafeToUpdate d → ∃ r, updateState f api d = some r)
    ∧ ∀ r, updateState f api d = some r →
      r.state =
        if d.bPause = true then DialogState.STATE_PAUSED
        else if d.waiting = true then DialogState.STATE_WAITING
        else if d.indexing = true then DialogState.STATE_INDEXING
        else DialogState.STATE_UPDATED := by
  refine ⟨updateState_returns f api d, fun r hr => ?_⟩
  obtain ⟨t, hs, rfl⟩ := updateState_resolve f api d r hr
  rw [resolveState_state api t (by rw [hs.preferences]; exact hl), hs.bPause, hs.waiting,
    hs.indexing]

/-- Witness of C1: with the pause toggle checked and both flags set, the call returns and the
state is paused. -/
theorem updateState_priority_witness :
    pausedWaitingIndexing.preferences.logged = true ∧ SafeToUpdate pausedWaitingIndexing ∧
    ∃ r, updateState hundredthsText nothingPending pausedWaitingIndexing = some r ∧
      r.state = DialogState.STATE_PAUSED := by
  obtain ⟨returns, post⟩ :=
    updateState_priority hundredthsText nothingPending pausedWaitingIndexing rfl
  obtain ⟨r, hr⟩ := returns (by decide)
  exact ⟨rfl, by decide, r, hr, post r hr⟩

/-! ## C2: an error fires the handler at once, unless the timer is pending -/

/-- C4 (the code fails it): with 4294967291 bytes left at a mean speed of 1 byte/s the quotient
does not fit an `int` and is narrowed to -5, whose hours are 0, so that the dialog shows
"00:00:-5" instead of the dashes; the same text comes from -5 bytes at 1 byte/s, and
4294967396 bytes at 1 byte/s, more than a million hours, are shown as "00:01:40". -/
theorem updateTransfers_negative_seconds :
    (∃ r, updateTransfers hundredthsText oneOfThreeDownloads slowDownload = some r
        ∧ r.lRemainingTimeD = "00:00:-5")
    ∧ remainingTime 4294967291 1 = some "00:00:-5"
    ∧ remainingTime (-5) 1 = some "00:00:-5"
    ∧ remainingTime 4294967396 1 = some "00:01:40" := by
  refine ⟨?_, by decide, by decide, by decide⟩
  obtain ⟨r, hr⟩ :=
    updateTransfers_returns hundredthsText oneOfThreeDownloads slowDownload (by decide)
  obtain ⟨hs, _, hD, _⟩ :=
    updateTransfers_visible hundredthsText oneOfThreeDownloads slowDownload r rfl hr
  refine ⟨r, hr, ?_⟩
  have h := (hD (by decide)).1
  have hl : r.preferences.logged = true := by rw [hs.preferences]; rfl
  have e : remainingTime slowDownload.remainingDownloadBytes slowDownload.meanDownloadSpeed
      = some "00:00:-5" := by decide
  rw [e] at h
  simpa [InfoDialog.downloadsRemainingTime, hl] using h

/-! ## C5: the totals are raised to the pending counts -/

/-- C5: for all counts reported by the engine, every call of `updateTransfers` that returns
leaves `remainingUploads` and `remainingDownloads` as reported, with each total raised to the
pending count when it is smaller and kept as reported otherwise, so that
`totalUploads ≥ remainingUploads` and `totalDownloads ≥ remainingDownloads`.  The call returns
when the dialog is hidden, and when it is visible, no quotient of remaining bytes by mean speed
is the one that traps and, in guest mode, the guest widget exists. -/
theorem updateTransfers_totals (f : Int → String) (api : MegaApi) (d : InfoDialog) :
    (SafeToUpdate d → ∃ r, updateTransfers f api d = some r)
    ∧ ∀ r, updateTransfers f api d = some r →
      r.remainingUploads = api.numPendingUploads
      ∧ r.remainingDownloads = api.numPendingDownloads
      ∧ r.totalUploads = (if api.totalUploads < api.numPendingUploads
          then api.numPendingUploads else api.totalUploads)
      ∧ r.totalDownloads = (if api.totalDownloads < api.numPendingDownloads
          then api.numPendingDownloads else api.totalDownloads)
      ∧ r.totalUploads ≥ r.remainingUploads
      ∧ r.totalDownloads ≥ r.remainingDownloads := by
  refine ⟨updateTransfers_returns f api d, fun r hr => ?_⟩
  obtain ⟨e1, e2, e3, e4, _⟩ := updateTransfers_counters f api d r hr
  refine ⟨e1, e2, e3, e4, ?_, ?_⟩
  · rw [e1, e3]; split_ifs <;> omega
  · rw [e2, e4]; split_ifs <;> omega

/-- Witness of C5: when the engine reports five pending downloads out of two, the call on a
visible dialog returns with five pending downloads out of five. -/
theorem updateTransfers_totals_witness :
    SafeToUpdate slowDownload ∧
    ∃ r, updateTransfers hundredthsText fiveOfTwoDownloads slowDownload = some r
      ∧ r.remainingDownloads = 5 ∧ r.totalDownloads = 5
      ∧ r.totalDownloads ≥ r.remainingDownloads := by
  obtain ⟨returns, post⟩ :=
    updateTransfers_totals hundredthsText fiveOfTwoDownloads slowDownload
  obtain ⟨r, hr⟩ := returns (by decide)
  obtain ⟨_, e2, _, e4, _, e6⟩ := post r hr
  exact ⟨by decide, r, hr, e2, e4.trans (by decide), e6⟩

/-! ## C6: the progress text -/

/-- C6: after every call of `updateTransfers` that returns, a visible dialog shows, for each
direction with pending transfers, the progress text of that direction after the operation's
name; the text is "N of M (paused)" when the active transfer is paused, or the direction's
paused preference is set, or the stored speed is negative, "N of M (speed/s)" when none of
these holds and the speed is at least 20000, and "N of M" when none holds and
0 ≤ speed < 20000, with N the current index and M the total; the three cases are exhaustive
and mutually exclusive.  The call returns when the dialog is hidden, and when it is visible, no
quotient of remaining bytes by mean speed is the one that traps and, in guest mode, the guest
widget exists. -/
theorem updateTransfers_progress_text (f : Int → String) (api : MegaApi) (d : InfoDialog) :
    (SafeToUpdate d → ∃ r, updateTransfers f api d = some r)
    ∧ ∀ r, updateTransfers f api d = some r →
      (d.visible = true → api.numPendingDownloads ≠ 0 →
          r.downloadsText = downloadFullPattern "Downloading " (downloadString f r))
      ∧ (d.visible = true → api.numPendingUploads ≠ 0 →
          r.lUploads = uploadFullPattern "Uploading " (uploadString f r))
      ∧ ProgressTextSpec f (downloadString f r)
          (d.activeDownloadState = TransferState.STATE_PAUSED
            ∨ d.preferences.downloadsPaused = true)
          d.downloadSpeed r.currentDownload r.totalDownloads
      ∧ ProgressTextSpec f (uploadString f r)
          (d.activeUploadState = TransferState.STATE_PAUSED
            ∨ d.preferences.uploadsPaused = true)
          d.uploadSpeed r.currentUpload r.totalUploads := by
  refine ⟨updateTransfers_returns f api d, fun r hr => ?_⟩
  have spec : ∀ r, SameStatus d r →
      ProgressTextSpec f (downloadString f r)
          (d.activeDownloadState = TransferState.STATE_PAUSED
            ∨ d.preferences.downloadsPaused = true)
          d.downloadSpeed r.currentDownload r.totalDownloads
      ∧ ProgressTextSpec f (uploadString f r)
          (d.activeUploadState = TransferState.STATE_PAUSED
            ∨ d.preferences.uploadsPaused = true)
          d.uploadSpeed r.currentUpload r.totalUploads := by
    intro r hs
    have h1 := downloadString_spec f r
    have h2 := uploadString_spec f r
    rw [hs.activeDownloadState, hs.preferences, hs.downloadSpeed] at h1
    rw [hs.activeUploadState, hs.preferences, hs.uploadSpeed] at h2
    exact ⟨h1, h2⟩
  have hs := (updateTransfers_same f api d r hr).1
  refine ⟨fun hv h => ?_, fun hv h => ?_, spec r hs⟩
  · exact ((updateTransfers_visible f api d r hv hr).2.2.1 h).2
  · exact ((updateTransfers_visible f api d r hv hr).2.2.2 h).2

/-- Witness of C6: a visible dialog downloading the third of three files at 25000 bytes/s
shows "3 of 3 (24.41 KB/s)" after the operation's name. -/
theorem updateTransfers_progress_text_witness :
    SafeToUpdate slowDownload ∧
    slowDownload.visible = true ∧ oneOfThreeDownloads.numPendingDownloads ≠ 0 ∧
    ∃ r, updateTransfers hundredthsText oneOfThreeDownloads slowDownload = some r
      ∧ r.downloadsText = downloadFullPattern "Downloading " (downloadString hundredthsText r)
      ∧ downloadString hundredthsText r = "3 of 3 (24.41 KB/s)" := by
  obtain ⟨returns, post⟩ :=
    updateTransfers_progress_text hundredthsText oneOfThreeDownloads slowDownload
  obtain ⟨r, hr⟩ := returns (by decide)
  obtain ⟨hD, _, hspec, _⟩ := post r hr
  obtain ⟨_, e2, _, e4, e5, _⟩ :=
    updateTransfers_counters hundredthsText oneOfThreeDownloads slowDownload r hr
  refine ⟨by decide, rfl, by decide, r, hr, hD rfl (by decide), ?_⟩
  rw [hspec.speedText (by decide) (by decide), e5, e4, e2]
  decide

/-! ## C7: the text `HH:MM:SS` -/

/-- C7: when the mean speed is positive and the quotient `q` of the remaining bytes by the
mean speed satisfies `0 < q ≤ 359999`, the remaining-time text is `HH:MM:SS` in two-digit
parts with `MM < 60`, `SS < 60` and `HH * 3600 + MM * 60 + SS = q`; it is the text that a
visible dialog shows, after every call of `updateTransfers` that returns, for a direction
with pending transfers whose remaining bytes and mean speed these are.  The call returns when
no quotient of remaining bytes by mean speed is the one that traps and, in guest mode, the
guest widget exists. -/
theorem remainingTime_hhmmss (remainingBytes meanSpeed : Int) (hs : 0 < meanSpeed)
    (hq0 : 0 < Int.tdiv remainingBytes meanSpeed)
    (hq : Int.tdiv remainingBytes meanSpeed ≤ 359999) :
    ∃ hh mm ss : Nat, hh ≤ 99 ∧ mm < 60 ∧ ss < 60
      ∧ ((hh * 3600 + mm * 60 + ss : Nat) : Int) = Int.tdiv remainingBytes meanSpeed
      ∧ remainingTime remainingBytes meanSpeed = some (hhmmss hh mm ss)
      ∧ ∀ (f : Int → String) (api : MegaApi) (d : InfoDialog), d.visible = true →
          (SafeToUpdate d → ∃ r, updateTransfers f api d = some r)
          ∧ ∀ r, updateTransfers f api d = some r →
            (api.numPendingDownloads ≠ 0 → d.remainingDownloadBytes = remainingBytes →
                d.meanDownloadSpeed = meanSpeed → r.downloadsRemainingTime = hhmmss hh mm ss)
            ∧ (api.numPendingUploads ≠ 0 → d.remainingUploadBytes = remainingBytes →
                d.meanUploadSpeed = meanSpeed → r.lRemainingTimeU = hhmmss hh mm ss) := by
  obtain ⟨n, hn⟩ := Int.eq_ofNat_of_zero_le (le_of_lt hq0)
  rw [hn] at hq0 hq
  have h0 : 0 < n := by omega
  have h1 : n ≤ 359999 := by omega
  have ht : remainingTime remainingBytes meanSpeed
      = some (hhmmss (n / 3600) (n % 3600 / 60) (n % 60)) := by
    unfold remainingTime
    rw [totalRemainingSeconds_eq _ _ (quotientFits_of_nonneg _ _ (le_of_lt hs)),
      if_neg (by omega), hn, toInt32_of_small _ (by omega) (by omega), Option.map_some',
      remainingTimeText_hhmmss n h0 h1]
  refine ⟨n / 3600, n % 3600 / 60, n % 60, by omega, by omega, by omega, ?_, ht, ?_⟩
  · rw [hn]; congr 1; omega
  · intro f api d hv
    refine ⟨updateTransfers_returns f api d, fun r hr => ?_⟩
    obtain ⟨_, _, hD, hU⟩ := updateTransfers_visible f api d r hv hr
    refine ⟨fun hp hb hm => ?_, fun hp hb hm => ?_⟩
    · have h := (hD hp).1
      rw [hb, hm, ht] at h
      exact Option.some.inj h
    · have h := (hU hp).1
      rw [hb, hm, ht] at h
      exact Option.some.inj h

/-- Witness of C7: 3725 bytes at 1 byte/s are shown as 01:02:05, also by a visible dialog
with a pending download. -/
theorem remainingTime_hhmmss_witness :
    (0 : Int) < 1 ∧ 0 < Int.tdiv 3725 1 ∧ Int.tdiv 3725 1 ≤ 359999 ∧
    remainingTime 3725 1 = some "01:02:05" ∧
    ∃ hh mm ss : Nat, hh ≤ 99 ∧ mm < 60 ∧ ss < 60
      ∧ ((hh * 3600 + mm * 60 + ss : Nat) : Int) = Int.tdiv 3725 1
      ∧ remainingTime 3725 1 = some (hhmmss hh mm ss)
      ∧ ∃ r, updateTransfers hundredthsText oneOfThreeDownloads
            { slowDownload with remainingDownloadBytes := 3725 } = some r
          ∧ r.downloadsRemainingTime = hhmmss hh mm ss := by
  obtain ⟨hh, mm, ss, a, b, c, e, t, shown⟩ :=
    remainingTime_hhmmss 3725 1 (by decide) (by decide) (by decide)
  obtain ⟨returns, post⟩ := shown hundredthsText oneOfThreeDownloads
    { slowDownload with remainingDownloadBytes := 3725 } rfl
  obtain ⟨r, hr⟩ := returns (by decide)
  exact ⟨by decide, by decide, by decide, by decide, hh, mm, ss, a, b, c, e, t, r, hr,
    (post r hr).1 (by decide) rfl rfl⟩

/-! ## C8: no division by zero -/

/-- C8: the only division of `updateTransfers` is never evaluated with a zero divisor: with a
mean speed of 0 the quotient is not formed and the remaining seconds are 0, and the remaining
seconds have no value only for the least `long long` divided by -1.  With a mean speed of 0
or no bytes left the remaining-time text is the dashed placeholder, and after every call that
returns that is the text a visible dialog shows for a direction with pending transfers.  The
call returns when the dialog is hidden, and when it is visible, no quotient of remaining bytes
by mean speed is the one that traps and, in guest mode, the guest widget exists. -/
theorem updateTransfers_no_division_by_zero (f : Int → String) (api : MegaApi)
    (d : InfoDialog) (remainingBytes meanSpeed : Int) :
    (totalRemainingSeconds remainingBytes meanSpeed = none
        ↔ remainingBytes = -2 ^ 63 ∧ meanSpeed = -1)
    ∧ llDiv remainingBytes 0 = none
    ∧ totalRemainingSeconds remainingBytes 0 = some 0
    ∧ remainingTime remainingBytes 0 = some "--:--:--"
    ∧ remainingTime 0 meanSpeed = some "--:--:--"
    ∧ (SafeToUpdate d → ∃ r, updateTransfers f api d = some r)
    ∧ ∀ r, updateTransfers f api d = some r →
        (d.visible = true → api.numPendingDownloads ≠ 0 →
            d.meanDownloadSpeed = 0 ∨ d.remainingDownloadBytes = 0 →
            r.downloadsRemainingTime = "--:--:--")
        ∧ (d.visible = true → api.numPendingUploads ≠ 0 →
            d.meanUploadSpeed = 0 ∨ d.remainingUploadBytes = 0 →
            r.lRemainingTimeU = "--:--:--") := by
  have hz : ∀ b : Int, remainingTime b 0 = some "--:--:--" := by
    intro b
    unfold remainingTime
    rw [totalRemainingSeconds_eq _ _ (quotientFits_zero b), if_pos rfl, Option.map_some',
      remainingTimeText_zero]
    rfl
  have hb : ∀ m : Int, remainingTime 0 m = some "--:--:--" := by
    intro m
    unfold remainingTime
    rw [totalRemainingSeconds_eq _ _ (by unfold QuotientFits; omega)]
    have : (if m = 0 then (0 : Int) else toInt32 (toInt64 (Int.tdiv 0 m))) = 0 := by
      split_ifs
      · rfl
      · rw [Int.zero_tdiv]; rfl
    rw [this, Option.map_some', remainingTimeText_zero]
    rfl
  have hcase : ∀ b m : Int, m = 0 ∨ b = 0 → remainingTime b m = some "--:--:--" := by
    intro b m h
    rcases h with h | h
    · rw [h]; exact hz b
    · rw [h]; exact hb m
  refine ⟨?_, by simp [llDiv], ?_, hz _, hb _, updateTransfers_returns f api d,
    fun r hr => ⟨fun hv hp hc => ?_, fun hv hp hc => ?_⟩⟩
  · constructor
    · intro h
      by_contra hn
      rw [totalRemainingSeconds_eq _ _ hn] at h
      cases h
    · rintro ⟨rfl, rfl⟩
      exact totalRemainingSeconds_traps
  · rw [totalRemainingSeconds_eq _ _ (quotientFits_zero _), if_pos rfl]
  · have h := ((updateTransfers_visible f api d r hv hr).2.2.1 hp).1
    rw [hcase _ _ hc] at h
    exact Option.some.inj h
  · have h := ((updateTransfers_visible f api d r hv hr).2.2.2 hp).1
    rw [hcase _ _ hc] at h
    exact Option.some.inj h

/-- Witness of C8: a visible dialog with a pending upload whose mean speed is 0 shows the
dashes. -/
theorem updateTransfers_no_division_by_zero_witness :
    ∃ r, updateTransfers hundredthsText { numPendingUploads := 1 }
          { bothActive with visible := true, remainingUploadBytes := 1000 } = some r
      ∧ r.lRemainingTimeU = "--:--:--" := by
  obtain ⟨_, _, _, _, _, returns, post⟩ :=
    updateTransfers_no_division_by_zero hundredthsText { numPendingUploads := 1 }
      { bothActive with visible := true, remainingUploadBytes := 1000 } 1000 0
  obtain ⟨r, hr⟩ := returns (by decide)
  exact ⟨r, hr, (post r hr).2 rfl (by decide) (Or.inl rfl)⟩

/-! ## C9: pending transfers cancel the debounce -/

/-- C11 (the code fails it): a dialog that shows an upload is told, with nothing pending, that
a transfer has finished, which starts the timer of the uploads and the timer of all
transfers; 5000 ms later the engine reports `n` pending downloads, for any `n`, and no
upload.  The upload handler runs and reads the engine; `onAllTransfersFinished` then runs, tests
the counts that the dialog stored, still 0, and not the engine, shows "All transfers have
been completed" and switches to the up-to-date page. -/
theorem onAllTransfersFinished_stale_counts (f : Int → String) (n : Int) :
    ∃ r, run f [Step.elapse 5000, Step.uploadsFinishedTimeout { numPendingDownloads := n },
          Step.transfersFinishedTimeout] (transferFinished nothingPending 0 uploadsOnly) = some r
      ∧ r.log.head? = some (Event.showNotificationMessage "All transfers have been completed")
      ∧ r.sActiveTransfers = Page.pUpdated
      ∧ r.remainingDownloads = 0 :=
  ⟨_, rfl, rfl, rfl, rfl⟩


/-! ## C12: the lookup ignores the letter case of the extension -/

/-- C12: for any contents of the table and any prefix, two file names whose extensions (the text
after the last `.`) are equal up to letter case get the same text from `getExtensionPixmap`,
and leave the same table behind. -/
theorem getExtensionPixmap_case_insensitive (icons : QHash) (prefixText f g : String)
    (h : toLower (afterLastDot f) = toLower (afterLastDot g)) :
    getExtensionPixmap icons f prefixText = getExtensionPixmap icons g prefixText := by
  unfold getExtensionPixmap
  rw [suffix_congr f g h]

set_option maxRecDepth 100000 in
/-- C12 at the names `Photo.JPG` and `photo.jpg`: both get the icon of images. -/
theorem getExtensionPixmap_case_insensitive_witness :
    toLower (afterLastDot "Photo.JPG") = toLower (afterLastDot "photo.jpg") ∧
    getExtensionPixmap extensionIcons "Photo.JPG" "://images/small_" =
      getExtensionPixmap extensionIcons "photo.jpg" "://images/small_" ∧
    (getExtensionPixmap extensionIcons "photo.jpg" "://images/small_").1 =
      "://images/small_image.png" :=
  ⟨by decide,
    getExtensionPixmap_case_insensitive extensionIcons "://images/small_" "Photo.JPG"
      "photo.jpg" (by decide),
    by decide⟩

/-! ## C13: names without an extension get the generic icon -/

/-- C13: a file name that has no `.`, or whose extension is empty, or that is the empty text,
gets `prefix + "generic.png"`, on the first call (from the empty table) and on every later
call (on the initialised table); the function returns a value on every input. -/
theorem getExtensionPixmap_generic (prefixText file : String)
    (h : '.' ∉ file.data ∨ afterLastDot file = "" ∨ file = "") :
    (getExtensionPixmap extensionIcons file prefixText).1 = prefixText ++ "generic.png" ∧
    (getExtensionPixmap (initializeExtensions extensionIcons) file prefixText).1 =
      prefixText ++ "generic.png" := by
  have e : toLower (suffix file) = "" := by
    rw [suffix_empty file (afterLastDot_empty file h)]; rfl
  rw [getExtensionPixmap_first, getExtensionPixmap_filled _ _ _ initializeExtensions_filled, e,
    initializeExtensions_no_empty_key]
  simp

/-- C13 at the names `Makefile`, `archive.` and the empty name. -/
theorem getExtensionPixmap_generic_witness :
    ('.' ∉ "Makefile".data ∨ afterLastDot "Makefile" = "" ∨ "Makefile" = "") ∧
    (getExtensionPixmap extensionIcons "Makefile" "p_").1 = "p_" ++ "generic.png" ∧
    (getExtensionPixmap extensionIcons "archive." "p_").1 = "p_" ++ "generic.png" ∧
    (getExtensionPixmap extensionIcons "" "p_").1 = "p_" ++ "generic.png" :=
  ⟨Or.inl (by decide),
    (getExtensionPixmap_generic "p_" "Makefile" (Or.inl (by decide))).1,
    (getExtensionPixmap_generic "p_" "archive." (Or.inr (Or.inl (by decide)))).1,
    (getExtensionPixmap_generic "p_" "" (Or.inr (Or.inr rfl))).1⟩

/-! ## C14: only the whole extension is looked up -/

set_option maxRecDepth 100000 in
/-- C14: on the first call and on every later one, the text returned is the prefix followed by
the icon stored under the whole lower-cased extension (the text after the last `.`) when that
text is a key of the table, and `prefix + "generic.png"` otherwise; so `jp` and `jpgx` get the
generic icon and `archive.tar.gz` is looked up under `gz`. -/
theorem getExtensionPixmap_whole_extension :
    (∀ prefixText file : String,
      (getExtensionPixmap extensionIcons file prefixText).1 =
        (if (initializeExtensions extensionIcons).contains (toLower (afterLastDot file)) then
          prefixText ++ (initializeExtensions extensionIcons).value (toLower (afterLastDot file))
        else prefixText ++ "generic.png") ∧
      (getExtensionPixmap (initializeExtensions extensionIcons) file prefixText).1 =
        (getExtensionPixmap extensionIcons file prefixText).1) ∧
    (getExtensionPixmap extensionIcons "a.jp" "p_").1 = "p_generic.png" ∧
    (getExtensionPixmap extensionIcons "a.jpgx" "p_").1 = "p_generic.png" ∧
    (getExtensionPixmap extensionIcons "a.jpg" "p_").1 = "p_image.png" ∧
    (getExtensionPixmap extensionIcons "archive.tar.gz" "p_").1 = "p_compressed.png" ∧
    (initializeExtensions extensionIcons).value "gz" = "compressed.png" := by
  refine ⟨fun prefixText file => ⟨?_, by rw [getExtensionPixmap_first]⟩,
    by decide, by decide, by decide, by decide, by decide⟩
  rw [getExtensionPixmap_first, getExtensionPixmap_filled _ _ _ initializeExtensions_filled,
    suffix_eq]
  by_cases hm : '/' ∈ (afterLastDot file).data
  · have hn : (initializeExtensions extensionIcons).contains (toLower (afterLastDot file)) =
        false := by
      cases hc : (initializeExtensions extensionIcons).contains (toLower (afterLastDot file))
      · rfl
      · exact absurd ((toLower_mem_slash _).mpr hm) (contains_no_slash _ hc)
    have e : toLower "" = "" := rfl
    simp [hm, hn, e, initializeExtensions_no_empty_key]
  · simp [hm]

/-! ## C15: the table is filled once -/

/-- C15: the table is empty before the first call; the first call, whatever its arguments,
leaves the table that `initializeExtensions` builds; every later call leaves that table
exactly as it was; so after any sequence of one or more calls the table is the initialised
one. -/
theorem getExtensionPixmap_lazy_initialisation :
    extensionIcons.isEmpty = true ∧
    (initializeExtensions extensionIcons).isEmpty = false ∧
    (∀ file prefixText : String,
      (getExtensionPixmap extensionIcons file prefixText).2 =
        initializeExtensions extensionIcons) ∧
    (∀ file prefixText : String,
      (getExtensionPixmap (initializeExtensions extensionIcons) file prefixText).2 =
        initializeExtensions extensionIcons) ∧
    (∀ (call : String × String) (calls : List (String × String)),
      iconsAfter (call :: calls) extensionIcons = initializeExtensions extensionIcons) := by
  have later : ∀ file prefixText : String,
      (getExtensionPixmap (initializeExtensions extensionIcons) file prefixText).2 =
        initializeExtensions extensionIcons := fun file prefixText => by
    rw [getExtensionPixmap_filled _ _ _ initializeExtensions_filled]
  have first : ∀ file prefixText : String,
      (getExtensionPixmap extensionIcons file prefixText).2 =
        initializeExtensions extensionIcons := fun file prefixText => by
    rw [getExtensionPixmap_first, later]
  have all : ∀ calls : List (String × String),
      iconsAfter calls (initializeExtensions extensionIcons) =
        initializeExtensions extensionIcons := fun calls => by
    induction calls with
    | nil => rfl
    | cons call calls ih => rw [iconsAfter, later, ih]
  exact ⟨rfl, initializeExtensions_filled, first, later,
    fun call calls => by rw [iconsAfter, first, all]⟩

/-! ## C16: the list of recent files keeps the last three -/

/-- C16: `clearRecentFiles` empties the three slots; after `addRecentFile` has then been called
for the entries `e1 .. en` in this order, the slots hold the first three items of
`en, .., e1` followed by empty slots, that is `en`, `e(n-1)` and `e(n-2)` where these exist;
so adding `a`, `b`, `c`, `e` leaves `e`, `c`, `b` and `a` is gone. -/
theorem addRecentFile_keeps_last_three (d : InfoDialog) (entries : List RecentFileInfo) :
    (clearRecentFiles d).recentFiles = [none, none, none] ∧
    (addRecentFiles entries (clearRecentFiles d)).recentFiles =
      (entries.reverse.map some ++ [none, none, none]).take 3 ∧
    (∀ a b c e : RecentFileInfo,
      (addRecentFiles [a, b, c, e] (clearRecentFiles d)).recentFiles
        = [some e, some c, some b]) := by
  refine ⟨clearRecentFiles_recentFiles d, ?_, fun a b c e => ?_⟩
  · rw [addRecentFiles_recentFiles, clearRecentFiles_recentFiles]
  · rw [addRecentFiles_recentFiles, clearRecentFiles_recentFiles]; rfl

/-! ## C17: entering the same state again -/

/-- C17: in the logged-in mode, when the state that `updateState` selects is the state of the
dialog, every call that returns leaves the state, the scanning timer, `scanningAnimationIndex`,
the status text and the icon as they were.  In both modes every second call with the same
readings of the engine that returns leaves the state, the scanning timer (hence its active
flag), `scanningAnimationIndex`, the status text, the icon, `downloadSpeed` and `uploadSpeed`
as the first call left them.  The two calls return when the dialog is hidden, and when it is
visible, no quotient of remaining bytes by mean speed is the one that traps and, in guest
mode, the guest widget exists. -/
theorem updateState_reentry (f : Int → String) (api : MegaApi) (d : InfoDialog) :
    (SafeToUpdate d →
      ∃ r1 r2, updateState f api d = some r1 ∧ updateState f api r1 = some r2)
    ∧ ∀ r1, updateState f api d = some r1 →
      (d.preferences.logged = true → selectedState d = d.state → SameAnimation d r1)
      ∧ ∀ r2, updateState f api r1 = some r2 →
          SameAnimation r1 r2 ∧ SameSpeeds r1 r2
          ∧ r2.scanningTimer.isActive = r1.scanningTimer.isActive := by
  refine ⟨fun safe => ?_, fun r1 e1 => ⟨fun hl hs => ?_, fun r2 e2 => ?_⟩⟩
  · obtain ⟨r1, e1⟩ := updateState_returns f api d safe
    obtain ⟨r2, e2⟩ := updateState_returns f api r1
      (safeToUpdate_congr (updateState_finish f api d r1 e1) safe)
    exact ⟨r1, r2, e1, e2⟩
  · obtain ⟨t1, hs1, rfl⟩ := updateState_resolve f api d r1 e1
    obtain ⟨f1, a1, _⟩ := sameStatus_flags hs1
    obtain ⟨_, _, _, g4, _⟩ := resolveState_logged api t1 (by rw [f1.preferences]; exact hl)
    exact sameAnimation_trans a1 (g4 (by rw [selectedState_congr f1, a1.state]; exact hs))
  · obtain ⟨t1, hs1, rfl⟩ := updateState_resolve f api d r1 e1
    obtain ⟨t2, hs2, rfl⟩ := updateState_resolve f api (resolveState api t1) r2 e2
    obtain ⟨h1, h2⟩ := resolveState_twice api t1 t2 hs2
    exact ⟨h1, h2, by rw [h1.scanningTimer]⟩

/-- C17 at a dialog that is indexing, with the seventh picture of the animation shown and its
timer 20 ms before the next timeout: `updateState` keeps the picture, the index and the
timer. -/
theorem updateState_reentry_witness :
    SafeToUpdate scanningSeventh ∧
    scanningSeventh.preferences.logged = true ∧
    selectedState scanningSeventh = scanningSeventh.state ∧
    ∃ r1 r2, updateState hundredthsText nothingPending scanningSeventh = some r1
      ∧ updateState hundredthsText nothingPending r1 = some r2
      ∧ r1.state = DialogState.STATE_INDEXING
      ∧ r1.scanningAnimationIndex = 7
      ∧ r1.label = ":/images/scanning_anime7.png"
      ∧ r1.scanningTimer.remaining = some 20
      ∧ r2.scanningAnimationIndex = 7
      ∧ r2.scanningTimer.remaining = some 20 := by
  obtain ⟨returns, post⟩ :=
    updateState_reentry hundredthsText nothingPending scanningSeventh
  obtain ⟨r1, r2, h1, h2⟩ := returns (by decide)
  have a := (post r1 h1).1 rfl (by decide)
  have b := ((post r1 h1).2 r2 h2).1
  exact ⟨by decide, rfl, by decide, r1, r2, h1, h2, a.state, a.scanningAnimationIndex,
    a.label, by rw [a.scanningTimer]; rfl,
    by rw [b.scanningAnimationIndex, a.scanningAnimationIndex]; rfl,
    by rw [b.scanningTimer, a.scanningTimer]; rfl⟩

/-! ## C18: the pause slots forward one request -/

/-- C18: `globalDownloadState` leaves the dialog as it is when no download is active, and
otherwise sends the engine the single request `pauseTransfers(p, TYPE_DOWNLOAD)` with `p` the
negation of what `areTransfersPaused(TYPE_DOWNLOAD)` reports; `globalUploadState` does the same
for uploads; `downloadState` and `uploadState` leave the dialog as it is when their direction
has no active transfer, and otherwise send the single request `pauseTransfer(active, p)` with
`p` true exactly when the recorded state of the active transfer is not `STATE_PAUSED`. -/
theorem pause_slots_forward (api : MegaApi) (d : InfoDialog) :
    globalDownloadState api d =
      (if d.activeDownload.isSome = true then
        { d with log := Event.pauseTransfers (!api.areTransfersPaused TransferType.TYPE_DOWNLOAD)
                          TransferType.TYPE_DOWNLOAD :: d.log }
      else d) ∧
    globalUploadState api d =
      (if d.activeUpload.isSome = true then
        { d with log := Event.pauseTransfers (!api.areTransfersPaused TransferType.TYPE_UPLOAD)
                          TransferType.TYPE_UPLOAD :: d.log }
      else d) ∧
    downloadState d =
      (match d.activeDownload with
        | some active =>
          { d with log := Event.pauseTransfer active
                            (decide (d.activeDownloadState ≠ TransferState.STATE_PAUSED)) :: d.log }
        | none => d) ∧
    uploadState d =
      (match d.activeUpload with
        | some active =>
          { d with log := Event.pauseTransfer active
                            (decide (d.activeUploadState ≠ TransferState.STATE_PAUSED)) :: d.log }
        | none => d) := by
  refine ⟨?_, ?_, ?_, ?_⟩
  · unfold globalDownloadState
    cases h : d.activeDownload <;>
    cases hp : api.areTransfersPaused TransferType.TYPE_DOWNLOAD <;> simp
  · unfold globalUploadState
    cases h : d.activeUpload <;>
    cases hp : api.areTransfersPaused TransferType.TYPE_UPLOAD <;> simp
  · unfold downloadState
    cases h : d.activeDownload
    · rfl
    · by_cases hp : d.activeDownloadState = TransferState.STATE_PAUSED <;> simp [hp]
  · unfold uploadState
    cases h : d.activeUpload
    · rfl
    · by_cases hp : d.activeUploadState = TransferState.STATE_PAUSED <;> simp [hp]

/-! ## C19: the scanning timer is active exactly while indexing -/

/-- C19: from the dialog as the constructor leaves it, for any settings, every sequence of
calls of `setIndexing`, `setWaiting`, `setPaused`, `updateState` and `changeEvent`, of
timeouts of the scanning timer, of lapses of time and of changes of the settings returns, and
in the dialog it leads to the scanning timer is active if and only if the state is
`STATE_INDEXING`: the state is `STATE_INDEXING` or the timer is stopped. -/
theorem scanningTimer_active_iff_indexing (f : Int → String) (preferences : Preferences)
    (events : List StatusEvent) :
    ∃ r, runStatus f events (InfoDialog.init preferences) = some r
      ∧ (r.scanningTimer.isActive = true ↔ r.state = DialogState.STATE_INDEXING)
      ∧ (r.state = DialogState.STATE_INDEXING ∨ r.scanningTimer.isActive = false) := by
  obtain ⟨r, hr⟩ := runStatus_hidden f events (InfoDialog.init preferences) rfl
  have h := runStatus_scanning f events (InfoDialog.init preferences) r
    ⟨rfl, by simp [InfoDialog.init, QTimer.isActive]⟩ hr
  refine ⟨r, hr, h.2, ?_⟩
  by_cases hi : r.state = DialogState.STATE_INDEXING
  · exact Or.inl hi
  · exact Or.inr (by
      cases ha : r.scanningTimer.isActive
      · rfl
      · exact absurd (h.2.mp ha) hi)

/-! ## C20: the totals bound the pending counts where they are clamped -/

/-- C21: in the logged-in mode with the pause toggle clear, after every call of `updateState`
that returns the blocked-item text is empty when `waiting` is false; when `waiting` is true it
is the "Blocked file" message for the path that the engine reports, whether the servers are
busy or not, the busy message when the engine reports no blocked path but busy servers, and
empty when it reports neither.  The call returns when the dialog is hidden, and when it is
visible and neither quotient of remaining bytes by mean speed is the one that traps. -/
theorem updateState_blocked_item (f : Int → String) (api : MegaApi) (d : InfoDialog)
    (hl : d.preferences.logged = true) (hp : d.bPause = false) :
    (SafeToUpdate d → ∃ r, updateState f api d = some r)
    ∧ ∀ r, updateState f api d = some r →
      (d.waiting = false → r.lBlockedItem = BlockedItemText.empty)
      ∧ (d.waiting = true → ∀ blockedPath, api.blockedPath = some blockedPath →
          r.lBlockedItem = BlockedItemText.blockedFile blockedPath)
      ∧ (d.waiting = true → api.blockedPath = none → api.serversBusy = true →
          r.lBlockedItem = BlockedItemText.serversBusy)
      ∧ (d.waiting = true → api.blockedPath = none → api.serversBusy = false →
          r.lBlockedItem = BlockedItemText.empty) := by
  refine ⟨updateState_returns f api d, fun r e => ?_⟩
  obtain ⟨t, hs, rfl⟩ := updateState_resolve f api d r e
  have hr : (resolveState api t).lBlockedItem
      = (if d.waiting = true then blockedItemText api else BlockedItemText.empty) := by
    unfold resolveState
    simp only [hs.bPause, hp, hs.preferences, hl, Bool.false_eq_true, if_false,
      Bool.true_eq_false]
    rw [updateRunning_blocked, hs.waiting]
  refine ⟨?_, ?_, ?_, ?_⟩
  · intro hw; rw [hr, hw]; rfl
  · intro hw p hb; rw [hr, hw]; simp [blockedItemText, hb]
  · intro hw hb hbusy; rw [hr, hw]; simp [blockedItemText, hb, hbusy]
  · intro hw hb hbusy; rw [hr, hw]; simp [blockedItemText, hb, hbusy]

/-- C21 at a waiting dialog while the engine reports a blocked path and busy servers: the
blocked path is shown. -/
theorem updateState_blocked_item_witness :
    waitingDialog.preferences.logged = true ∧ waitingDialog.bPause = false ∧
    SafeToUpdate waitingDialog ∧
    ∃ r, updateState hundredthsText blockedAndBusy waitingDialog = some r
      ∧ r.lBlockedItem = BlockedItemText.blockedFile "/tmp/a.txt" := by
  obtain ⟨returns, post⟩ :=
    updateState_blocked_item hundredthsText blockedAndBusy waitingDialog rfl rfl
  obtain ⟨r, hr⟩ := returns (by decide)
  exact ⟨rfl, rfl, by decide, r, hr, (post r hr).2.1 rfl _ rfl⟩

/-! ## C22: the guest mode leaves the status alone -/

/-- C22: when nobody is logged in, for every value of the pause toggle and of the two flags,
every call of `updateState` that returns leaves `state`, `downloadSpeed`, `uploadSpeed`, the
scanning timer and `scanningAnimationIndex` as they were; what it does after `updateTransfers`
is to give the guest widget a pause flag and an idle flag, and nothing else.  The call returns
when the dialog is hidden, and when it is visible, the guest widget exists and neither
quotient of remaining bytes by mean speed is the one that traps; a visible dialog without a
guest widget has no result when a transfer is pending, the null pointer being dereferenced. -/
theorem updateState_guest_frame (f : Int → String) (api : MegaApi) (d : InfoDialog)
    (hl : d.preferences.logged = false) :
    (SafeToUpdate d → ∃ r, updateState f api d = some r)
    ∧ (d.visible = true → d.hasGWidget = false →
        api.numPendingDownloads ≠ 0 ∨ api.numPendingUploads ≠ 0 →
        updateState f api d = none)
    ∧ ∀ r, updateState f api d = some r →
      r.state = d.state ∧ r.downloadSpeed = d.downloadSpeed ∧ r.uploadSpeed = d.uploadSpeed
      ∧ r.scanningTimer = d.scanningTimer
      ∧ r.scanningAnimationIndex = d.scanningAnimationIndex
      ∧ ∃ t, updateTransfers f api d = some t ∧ ∃ pauseState idleState,
          r = { t with gWidget := { t.gWidget with pauseState := pauseState,
                                                   idleState := idleState } } := by
  refine ⟨updateState_returns f api d, fun hv hg hp => ?_, fun r hr => ?_⟩
  · simp [updateState, updateTransfers_no_widget f api d hv hp hl hg]
  · obtain ⟨t, ht, rfl⟩ := updateState_eq_some f api d r hr
    have hs := (updateTransfers_same f api d t ht).1
    have hlt : t.preferences.logged = false := by rw [hs.preferences]; exact hl
    obtain ⟨_, ha, hsp⟩ := resolveState_guest api t hlt
    exact ⟨ha.state.trans hs.state,
      hsp.downloadSpeed.trans hs.downloadSpeed, hsp.uploadSpeed.trans hs.uploadSpeed,
      ha.scanningTimer.trans hs.scanningTimer,
      ha.scanningAnimationIndex.trans hs.scanningAnimationIndex,
      t, ht, resolveState_guest_widget api t hlt⟩

/-- C22 at a visible guest dialog with its guest widget, the pause toggle checked and both
flags set, while a download is pending. -/
theorem updateState_guest_frame_witness :
    guestPaused.preferences.logged = false ∧
    SafeToUpdate { guestPaused with visible := true } ∧
    ∃ r, updateState hundredthsText oneOfThreeDownloads { guestPaused with visible := true }
          = some r
      ∧ r.state = DialogState.STATE_STARTING ∧ r.downloadSpeed = 0 ∧ r.uploadSpeed = 0
      ∧ r.scanningTimer.isActive = false ∧ r.scanningAnimationIndex = 1 := by
  obtain ⟨returns, _, post⟩ :=
    updateState_guest_frame hundredthsText oneOfThreeDownloads
      { guestPaused with visible := true } rfl
  obtain ⟨r, hr⟩ := returns (by decide)
  obtain ⟨h1, h2, h3, h4, h5, _⟩ := post r hr
  exact ⟨rfl, by decide, r, hr, h1, h2, h3, by rw [h4]; rfl, h5⟩

/-! ## C23: the current index lies between 1 and the total -/

/-- C23: for counts of the engine that are values of an `int`, after every call of
`updateTransfers` that returns, for each direction with at least one pending transfer the
current index is `total - remaining + 1`, at least 1 and at most the total, also when the
engine reports a total below its pending count.  The call returns when the dialog is hidden,
and when it is visible, no quotient of remaining bytes by mean speed is the one that traps
and, in guest mode, the guest widget exists. -/
theorem updateTransfers_current_index (f : Int → String) (api : MegaApi) (d : InfoDialog)
    (hd : api.totalDownloads < 2 ^ 31) (hpd : api.numPendingDownloads < 2 ^ 31)
    (hu : api.totalUploads < 2 ^ 31) (hpu : api.numPendingUploads < 2 ^ 31) :
    (SafeToUpdate d → ∃ r, updateTransfers f api d = some r)
    ∧ ∀ r, updateTransfers f api d = some r →
      (1 ≤ api.numPendingDownloads →
          r.currentDownload = r.totalDownloads - r.remainingDownloads + 1
          ∧ 1 ≤ r.currentDownload ∧ r.currentDownload ≤ r.totalDownloads)
      ∧ (1 ≤ api.numPendingUploads →
          r.currentUpload = r.totalUploads - r.remainingUploads + 1
          ∧ 1 ≤ r.currentUpload ∧ r.currentUpload ≤ r.totalUploads) := by
  refine ⟨updateTransfers_returns f api d, fun r hr => ?_⟩
  obtain ⟨_, _, hc⟩ := updateTransfers_same f api d r hr
  obtain ⟨c1, c2⟩ := updateCounters_current api d
  obtain ⟨t1, t2⟩ := updateCounters_totals api d
  obtain ⟨r1, r2⟩ := updateCounters_remaining api d
  refine ⟨fun h => ?_, fun h => ?_⟩
  · rw [hc.currentDownload, hc.totalDownloads, hc.remainingDownloads, c1, t2, r2]
    have e : toInt32 ((if api.totalDownloads < api.numPendingDownloads
        then api.numPendingDownloads else api.totalDownloads) - api.numPendingDownloads + 1)
        = (if api.totalDownloads < api.numPendingDownloads
        then api.numPendingDownloads else api.totalDownloads) - api.numPendingDownloads + 1 := by
      apply toInt32_of_range <;> split_ifs <;> omega
    rw [e]
    refine ⟨rfl, ?_, ?_⟩ <;> split_ifs <;> omega
  · rw [hc.currentUpload, hc.totalUploads, hc.remainingUploads, c2, t1, r1]
    have e : toInt32 ((if api.totalUploads < api.numPendingUploads
        then api.numPendingUploads else api.totalUploads) - api.numPendingUploads + 1)
        = (if api.totalUploads < api.numPendingUploads
        then api.numPendingUploads else api.totalUploads) - api.numPendingUploads + 1 := by
      apply toInt32_of_range <;> split_ifs <;> omega
    rw [e]
    refine ⟨rfl, ?_, ?_⟩ <;> split_ifs <;> omega

/-- C23 while the engine reports five pending downloads out of a total of two: the dialog
counts the first of five. -/
theorem updateTransfers_current_index_witness :
    fiveOfTwoDownloads.totalDownloads < 2 ^ 31 ∧
    fiveOfTwoDownloads.numPendingDownloads < 2 ^ 31 ∧
    fiveOfTwoDownloads.totalUploads < 2 ^ 31 ∧ fiveOfTwoDownloads.numPendingUploads < 2 ^ 31 ∧
    1 ≤ fiveOfTwoDownloads.numPendingDownloads ∧
    SafeToUpdate slowDownload ∧
    ∃ r, updateTransfers hundredthsText fiveOfTwoDownloads slowDownload = some r
      ∧ r.currentDownload = r.totalDownloads - r.remainingDownloads + 1
      ∧ 1 ≤ r.currentDownload ∧ r.currentDownload ≤ r.totalDownloads := by
  obtain ⟨returns, post⟩ :=
    updateTransfers_current_index hundredthsText fiveOfTwoDownloads slowDownload
      (by decide) (by decide) (by decide) (by decide)
  obtain ⟨r, hr⟩ := returns (by decide)
  exact ⟨by decide, by decide, by decide, by decide, by decide, by decide, r, hr,
    (post r hr).1 (by decide)⟩

/-! ## C24: what the finished handlers write -/

/-- C26: for `0 ≤ secs < 2 ^ 31`, with `d = secs / 86400`, `h = secs / 3600 % 24`,
`m = secs / 60 % 60` and `s = secs % 60`, `getTimeString` gives the days and the hours when
`d > 0`; else the hours and the minutes when `h > 0`; else, when `m > 0`, the minutes and the
seconds with second precision and the minutes alone without it; else the seconds with second
precision and the empty text without it. -/
theorem getTimeString_two_items (secs : Nat) (secondPrecision : Bool) (h : secs < 2 ^ 31) :
    getTimeString (secs : Int) secondPrecision =
      (if 0 < secs / 86400 then
        itemText (secs / 86400) "d" ++ " " ++ itemText (secs / 3600 % 24) "h"
      else if 0 < secs / 3600 % 24 then
        itemText (secs / 3600 % 24) "h" ++ " " ++ itemText (secs / 60 % 60) "m"
      else if 0 < secs / 60 % 60 then
        (if secondPrecision = true then
          itemText (secs / 60 % 60) "m" ++ " " ++ itemText (secs % 60) "s"
        else itemText (secs / 60 % 60) "m")
      else if secondPrecision = true then itemText (secs % 60) "s"
      else "") := by
  obtain ⟨v1, v2, v3, v4⟩ := getTimeString_values secs h
  unfold getTimeString
  simp only [v1, v2, v3, v4, timeItem_eq]
  generalize secs / 86400 = days
  generalize secs / 3600 % 24 = hours
  generalize secs / 60 % 60 = minutes
  generalize secs % 60 = seconds
  rcases Nat.eq_zero_or_pos days with hd | hd
  · rcases Nat.eq_zero_or_pos hours with hh | hh
    · rcases Nat.eq_zero_or_pos minutes with hm | hm
      · subst hd hh hm
        cases secondPrecision <;> simp [trimmed_empty, trimmed_item]
      · subst hd hh
        have hm2 : minutes ≠ 0 := by omega
        cases secondPrecision <;> simp [hm, hm2, trimmed_item, trimmed_items]
    · subst hd
      have hh2 : hours ≠ 0 := by omega
      simp [hh, hh2, trimmed_items]
  · have hd2 : days ≠ 0 := by omega
    simp [hd, hd2, trimmed_items]

/-- C26 at one day, one hour, one minute and one second, and at 59 seconds without second
precision. -/
theorem getTimeString_two_items_witness :
    90061 < 2 ^ 31 ∧
    getTimeString 90061 true = itemText 1 "d" ++ " " ++ itemText 1 "h" ∧
    getTimeString 59 false = "" :=
  ⟨by norm_num,
    (getTimeString_two_items 90061 true (by norm_num)).trans (by decide),
    (getTimeString_two_items 59 false (by norm_num)).trans (by decide)⟩

/-! ## C27: the text of a field of a JSON text -/

/-- C27: `extractJSONString` gives the empty text when the name followed by `":"` does not
stand in the JSON text; when it does, and `after` is what follows its first occurrence, the
result is empty when no `"` stands in `after`, and is the text before the first `"` of `after`
otherwise.  So the field `"name":"v"` gives `v`, and with the name `id` the value of an earlier
key `uid` is returned. -/
theorem extractJSONString_between (json name : String) :
    (¬ (name ++ "\":\"").data <:+: json.data → extractJSONString json name = "")
    ∧ (∀ before after : List Char,
        FirstOccurrence (name ++ "\":\"").data before after json.data →
        (quote ∉ after → extractJSONString json name = "")
        ∧ (∀ value rest : List Char, after = value ++ quote :: rest → quote ∉ value →
            extractJSONString json name = String.mk value))
    ∧ extractJSONString "\"name\":\"v\"" "name" = "v"
    ∧ extractJSONString "\"uid\":\"7\",\"id\":\"9\"" "id" = "7"
    ∧ extractJSONString "\"id\":\"9" "id" = ""
    ∧ extractJSONString "\"id\":9" "id" = "" := by
  refine ⟨fun h => ?_, fun before after h => ?_, by decide, by decide, by decide, by decide⟩
  · unfold extractJSONString
    simp only [indexOf_absent _ _ h]
    rfl
  · unfold extractJSONString
    generalize name ++ "\":\"" = pattern at h ⊢
    obtain ⟨hpos, hlen, hdrop⟩ := first_position json pattern before after h
    have h0 : ¬ ((before.length : Int) < 0) := by omega
    have hc : (before.length : Int) + (pattern.length : Int)
        = ((before.length + pattern.length : Nat) : Int) := by push_cast; rfl
    have hend := indexOf_after json "\"" (before.length + pattern.length) (by omega)
    rw [quote_data, hdrop] at hend
    simp only [hpos, h0, if_false, hc, hend]
    refine ⟨fun hq => ?_, fun value rest e hq => ?_⟩
    · rw [indexOfFrom_char_absent quote after _ hq]
      rfl
    · rw [e, indexOfFrom_char quote value rest _ hq]
      have hn : ¬ (((before.length + pattern.length + value.length : Nat) : Int) < 0) := by
        omega
      have hv : ((before.length + pattern.length + value.length : Nat) : Int)
          - (before.length : Int) - (pattern.length : Int) = (value.length : Int) := by
        push_cast; omega
      have hl : after.length = value.length + (rest.length + 1) := by
        rw [e]; simp
      rw [if_neg hn, ← hc, hv, hc, mid_inside _ _ _ (by omega), hdrop, e]
      simp

/-- C27 at a text that starts with the pattern. -/
theorem extractJSONString_between_witness :
    FirstOccurrence ("id" ++ "\":\"").data [] ['7', quote, ','] "id\":\"7\",".data ∧
    quote ∉ ['7'] ∧
    extractJSONString "id\":\"7\"," "id" = "7" :=
  have h : FirstOccurrence ("id" ++ "\":\"").data [] ['7', quote, ','] "id\":\"7\",".data :=
    ⟨by decide, fun _ _ _ => Nat.zero_le _⟩
  ⟨h, by decide,
    ((extractJSONString_between "id\":\"7\"," "id").2.1 [] ['7', quote, ','] h).2
      ['7'] [','] rfl (by decide)⟩

/-! ## C28: the number of a field of a JSON text -/

/-- C29: an assignment to a key of the hash replaces what an earlier one stored there; in the
table that `initializeExtensions` builds, `html` and `dhtml` have the icon `web_data.png` of
their second assignment, `htm` and `xhtml` the icon `html.png`; so for every prefix
`getExtensionPixmap` gives the prefix and `web_data.png` for `a.html`, and the prefix and
`html.png` for `a.htm`, on the first call and on later ones. -/
theorem initializeExtensions_later_wins :
    (∀ (hash : QHash) (key first second : String),
      ((hash.assign key first).assign key second).value key = second)
    ∧ (initializeExtensions extensionIcons).value "html" = "web_data.png"
    ∧ (initializeExtensions extensionIcons).value "dhtml" = "web_data.png"
    ∧ (initializeExtensions extensionIcons).value "htm" = "html.png"
    ∧ (initializeExtensions extensionIcons).value "xhtml" = "html.png"
    ∧ (∀ prefixText : String,
        (getExtensionPixmap extensionIcons "a.html" prefixText).1
          = prefixText ++ "web_data.png"
        ∧ (getExtensionPixmap extensionIcons "a.htm" prefixText).1 = prefixText ++ "html.png"
        ∧ (getExtensionPixmap (initializeExtensions extensionIcons) "a.html" prefixText).1
          = prefixText ++ "web_data.png"
        ∧ (getExtensionPixmap (initializeExtensions extensionIcons) "a.htm" prefixText).1
          = prefixText ++ "html.png") := by
  obtain ⟨h1, h2, h3, h4⟩ := initializeExtensions_html
  refine ⟨fun hash key first second => (assign_value _ key second).2,
    (lookup_contains _ _ _ h1).2, (lookup_contains _ _ _ h2).2, (lookup_contains _ _ _ h3).2,
    (lookup_contains _ _ _ h4).2, fun prefixText => ?_⟩
  have a := getExtensionPixmap_of_lookup "a.html" prefixText "html" _ (by decide) h1
  have b := getExtensionPixmap_of_lookup "a.htm" prefixText "htm" _ (by decide) h3
  exact ⟨a.1, b.1, a.2, b.2⟩

/-! ## C30: the used storage grows in one category -/

/-- C30: `increaseUsedStorage` changes the settings only, and there neither the total, the
rubbish and the inbox storage nor the flags; it stores the 64-bit sum of `usedStorage` and
the bytes, and, for an incoming share, the 64-bit sums of `inShareStorage` and the bytes and
of `inShareFiles` and 1, leaving the figures of the cloud drive, and the other way round
otherwise.  When these sums fit a `long long` they are the exact sums, and
`usedStorage - cloudDriveStorage - inShareStorage` is as it was. -/
theorem increaseUsedStorage_one_category (bytes : Int) (isInShare : Bool) (d : InfoDialog) :
    ∃ r : Preferences,
      increaseUsedStorage bytes isInShare d = { d with preferences := r }
      ∧ r.totalStorage = d.preferences.totalStorage
      ∧ r.rubbishStorage = d.preferences.rubbishStorage
      ∧ r.inboxStorage = d.preferences.inboxStorage
      ∧ r.logged = d.preferences.logged
      ∧ r.downloadsPaused = d.preferences.downloadsPaused
      ∧ r.uploadsPaused = d.preferences.uploadsPaused
      ∧ r.usedStorage = toInt64 (d.preferences.usedStorage + bytes)
      ∧ (isInShare = true →
          r.inShareStorage = toInt64 (d.preferences.inShareStorage + bytes)
          ∧ r.inShareFiles = toInt64 (d.preferences.inShareFiles + 1)
          ∧ r.cloudDriveStorage = d.preferences.cloudDriveStorage
          ∧ r.cloudDriveFiles = d.preferences.cloudDriveFiles
          ∧ (FitsInt64 (d.preferences.usedStorage + bytes) →
              FitsInt64 (d.preferences.inShareStorage + bytes) →
              FitsInt64 (d.preferences.inShareFiles + 1) →
              r.usedStorage = d.preferences.usedStorage + bytes
              ∧ r.inShareStorage = d.preferences.inShareStorage + bytes
              ∧ r.inShareFiles = d.preferences.inShareFiles + 1
              ∧ r.usedStorage - r.cloudDriveStorage - r.inShareStorage
                  = d.preferences.usedStorage - d.preferences.cloudDriveStorage
                    - d.preferences.inShareStorage))
      ∧ (isInShare = false →
          r.cloudDriveStorage = toInt64 (d.preferences.cloudDriveStorage + bytes)
          ∧ r.cloudDriveFiles = toInt64 (d.preferences.cloudDriveFiles + 1)
          ∧ r.inShareStorage = d.preferences.inShareStorage
          ∧ r.inShareFiles = d.preferences.inShareFiles
          ∧ (FitsInt64 (d.preferences.usedStorage + bytes) →
              FitsInt64 (d.preferences.cloudDriveStorage + bytes) →
              FitsInt64 (d.preferences.cloudDriveFiles + 1) →
              r.usedStorage = d.preferences.usedStorage + bytes
              ∧ r.cloudDriveStorage = d.preferences.cloudDriveStorage + bytes
              ∧ r.cloudDriveFiles = d.preferences.cloudDriveFiles + 1
              ∧ r.usedStorage - r.cloudDriveStorage - r.inShareStorage
                  = d.preferences.usedStorage - d.preferences.cloudDriveStorage
                    - d.preferences.inShareStorage)) := by
  refine ⟨(increaseUsedStorage bytes isInShare d).preferences, rfl, ?_⟩
  cases isInShare
  · refine ⟨rfl, rfl, rfl, rfl, rfl, rfl, rfl, fun h => absurd h (by decide),
      fun _ => ⟨rfl, rfl, rfl, rfl, fun h1 h2 h3 => ?_⟩⟩
    have e1 := toInt64_of_range _ h1.1 h1.2
    have e2 := toInt64_of_range _ h2.1 h2.2
    have e3 := toInt64_of_range _ h3.1 h3.2
    simp only [increaseUsedStorage, increaseCategory, Preferences.setCloudDriveStorage,
      Preferences.setCloudDriveFiles, Preferences.setUsedStorage, Bool.false_eq_true,
      if_false, e1, e2, e3]
    refine ⟨trivial, trivial, trivial, ?_⟩
    omega
  · refine ⟨rfl, rfl, rfl, rfl, rfl, rfl, rfl,
      fun _ => ⟨rfl, rfl, rfl, rfl, fun h1 h2 h3 => ?_⟩, fun h => absurd h (by decide)⟩
    have e1 := toInt64_of_range _ h1.1 h1.2
    have e2 := toInt64_of_range _ h2.1 h2.2
    have e3 := toInt64_of_range _ h3.1 h3.2
    simp only [increaseUsedStorage, increaseCategory, Preferences.setInShareStorage,
      Preferences.setInShareFiles, Preferences.setUsedStorage, if_true, e1, e2, e3]
    refine ⟨trivial, trivial, trivial, ?_⟩
    omega

/-- C30 at settings that record 100 bytes used, 60 of them in the cloud drive and 30 in
incoming shares, when 5 bytes of an incoming share are added. -/
theorem increaseUsedStorage_one_category_witness :
    FitsInt64 (storageSample.preferences.usedStorage + 5) ∧
    FitsInt64 (storageSample.preferences.inShareStorage + 5) ∧
    FitsInt64 (storageSample.preferences.inShareFiles + 1) ∧
    (increaseUsedStorage 5 true storageSample).preferences.usedStorage = 105 ∧
    (increaseUsedStorage 5 true storageSample).preferences.inShareStorage = 35 ∧
    (increaseUsedStorage 5 true storageSample).preferences.inShareFiles = 3 ∧
    (increaseUsedStorage 5 true storageSample).preferences.cloudDriveStorage = 60 := by
  have f1 : FitsInt64 (storageSample.preferences.usedStorage + 5) := by
    unfold FitsInt64; decide
  have f2 : FitsInt64 (storageSample.preferences.inShareStorage + 5) := by
    unfold FitsInt64; decide
  have f3 : FitsInt64 (storageSample.preferences.inShareFiles + 1) := by
    unfold FitsInt64; decide
  obtain ⟨r, hr, _, _, _, _, _, _, _, h, _⟩ := increaseUsedStorage_one_category 5 true storageSample
  obtain ⟨_, _, hc, _, hx⟩ := h rfl
  obtain ⟨x1, x2, x3, _⟩ := hx f1 f2 f3
  have e : (increaseUsedStorage 5 true storageSample).preferences = r := by rw [hr]
  rw [e]
  exact ⟨f1, f2, f3, x1, x2, x3, hc⟩

end MEGASync
